import Mathlib

/-!
Verification development for the `Cloudfen` (sheep) behaviour engine of the
Baacadia landing / Touch-Sheep demo repository.  The definitions below are a
shallow embedding of the class `Cloudfen` in `src/js/main.js` (lines 552-2217).
JavaScript numbers are modelled as real numbers; every `Math.random()` call is
a draw from an environment stream `Env.rand`; `Date.now()` is the environment
field `Env.now` (milliseconds); nullable collaborators (`playerInfo`,
`game.gameScene`, `game.player`, `game.mossBalls`) are `Option`s.  Purely
presentational code (`_updateVisuals`, `_updateSoftPhysics`, mesh/scale/audio
and particle-effect calls, and the browser-deferred resets of cosmetic flags)
writes no field that the behaviour logic ever reads back, and is modelled as
the identity; each definition documents any such omission.
-/

set_option maxHeartbeats 2000000

noncomputable section

/-- Three-component vector of reals, modelling `THREE.Vector3`. -/
structure Vec3 where
  x : ℝ
  y : ℝ
  z : ℝ

/-- Componentwise sum, modelling `Vector3.add` / `addVectors`. -/
def Vec3.add (a b : Vec3) : Vec3 := ⟨a.x + b.x, a.y + b.y, a.z + b.z⟩

/-- Componentwise difference, modelling `Vector3.sub` / `subVectors`. -/
def Vec3.sub (a b : Vec3) : Vec3 := ⟨a.x - b.x, a.y - b.y, a.z - b.z⟩

/-- Scalar multiple, modelling `Vector3.multiplyScalar`. -/
def Vec3.smul (k : ℝ) (a : Vec3) : Vec3 := ⟨k * a.x, k * a.y, k * a.z⟩

/-- Euclidean length, modelling `Vector3.length`. -/
def Vec3.length (a : Vec3) : ℝ := Real.sqrt (a.x ^ 2 + a.y ^ 2 + a.z ^ 2)

/-- Distance between two points, modelling `Vector3.distanceTo`. -/
def Vec3.distanceTo (a b : Vec3) : ℝ := (Vec3.sub a b).length

/-- Unit vector in the direction of `a`, modelling `Vector3.normalize`
(division by a zero length is the out-of-scope degenerate case that yields
`NaN` in JavaScript and the junk value `0` here). -/
def Vec3.normalize (a : Vec3) : Vec3 :=
  ⟨a.x / a.length, a.y / a.length, a.z / a.length⟩

/-- Zero the `y` component, modelling the idiom `v.y = 0` applied to a
temporary before horizontal distance / direction computations. -/
def Vec3.flat (a : Vec3) : Vec3 := ⟨a.x, 0, a.z⟩

/-- Componentwise linear interpolation, modelling `Vector3.lerp`. -/
def Vec3.lerpv (a b : Vec3) (t : ℝ) : Vec3 :=
  ⟨a.x + (b.x - a.x) * t, a.y + (b.y - a.y) * t, a.z + (b.z - a.z) * t⟩

/-- The twelve behaviour states of `Cloudfen.STATE`. -/
inductive CState where
  | idle
  | grazing
  | looking
  | stretching
  | resting
  | sleeping
  | social
  | curious
  | petted
  | bliss
  | called
  | fleeing
deriving DecidableEq, Repr

/-- The three dynamic mood scalars (`this.mood`). -/
structure Mood where
  contentment : ℝ
  alertness : ℝ
  playfulness : ℝ

/-- The six immutable personality scalars (`this.personality`). -/
structure Personality where
  shyness : ℝ
  friendliness : ℝ
  curiosity : ℝ
  flightiness : ℝ
  laziness : ℝ
  sociability : ℝ

/-- The idle behaviour-selection weights (`this.behaviorWeights`); the
constructor fixes them at 0.25 / 0.30 / 0.15 / 0.05 / 0.15 / 0.10 and no code
mutates them. -/
structure BehaviorWeights where
  wander : ℝ
  graze : ℝ
  look : ℝ
  stretch : ℝ
  rest : ℝ
  social : ℝ

/-- Result of a `checkRockCollision` query. -/
structure RockHit where
  normalX : ℝ
  normalZ : ℝ
  overlap : ℝ

/-- The terrain collaborator `game.gameScene`: a ground-height function and a
rock-collision query. -/
structure Scene where
  groundHeight : ℝ → ℝ → ℝ
  rockCollision : ℝ → ℝ → ℝ → Option RockHit

/-- A pushable moss ball (`game.mossBalls` entry); only the fields the sheep
reads.  The `push` call mutates the ball, an external entity outside this
embedding. -/
structure Ball where
  position : Vec3
  radius : ℝ
  meshPresent : Bool

/-- Per-tick environment: the stream of `Math.random()` draws (indexed by call
site, each site drawing a distinct index), the clock `Date.now()` in
milliseconds, and the live `game.player?.velocity` reference read by
`_updatePlayerAwareness`. -/
structure Env where
  rand : ℕ → ℝ
  now : ℝ
  playerVel : Option Vec3

/-- Validity of an environment: every `Math.random()` draw lies in `[0, 1)`. -/
def Env.Valid (e : Env) : Prop := ∀ n, 0 ≤ e.rand n ∧ e.rand n < 1

/-- The behaviour-relevant state of one `Cloudfen` instance (constructor at
`src/js/main.js:568-731`).  Omitted constructor fields are write-only
presentation state (mesh/model/animation handles, squash-stretch and
wool-spring quantities, breathing/bob phases, eye openness, blink state,
`blissLevel` which no code reads, `initialRotation`, wander/approach/flee
visual offsets) that the behaviour logic never reads back.  `meshRotY` stands
for `this.mesh.rotation.y`, the one presentation value a behaviour method
reads (grazing heading jitter); it is evolved only by the omitted
`_updateVisuals` and therefore persists unmodified here.  `socialTarget`
holds the index of the partner in the surrounding creature list, modelling
the JS object reference. -/
structure Cloudfen where
  position : Vec3
  velocity : Vec3
  targetPosition : Option Vec3
  baseScale : ℝ
  state : CState
  stateTimer : ℝ
  previousState : Option CState
  wanderSpeed : ℝ
  approachSpeed : ℝ
  fleeSpeed : ℝ
  idleTimer : ℝ
  nextWanderTime : ℝ
  homePosition : Vec3
  grazingTimer : ℝ
  grazeHeadBob : ℝ
  grazeDuration : ℝ
  tiredness : ℝ
  sleepTimer : ℝ
  isLyingDown : Bool
  lyingDownProgress : ℝ
  lookTarget : Option Vec3
  lookTimer : ℝ
  headTilt : ℝ
  socialTarget : Option ℕ
  socialTimer : ℝ
  lastSocialTime : ℝ
  stretchProgress : ℝ
  stretchType : ℕ
  happiness : ℝ
  isPetted : Bool
  petDuration : ℝ
  lastStrokeTime : ℝ
  isHovered : Bool
  hoverTime : ℝ
  playerAwareness : ℝ
  fleeThreshold : ℝ
  comfortDistance : ℝ
  targetEyeOpenness : ℝ
  personality : Personality
  behaviorWeights : BehaviorWeights
  attentionTarget : Option Vec3
  attentionStrength : ℝ
  lastAttentionShift : ℝ
  earTwitchTimer : ℝ
  tailWagTimer : ℝ
  headShakeTimer : ℝ
  pawGroundTimer : ℝ
  sniffTimer : ℝ
  lastPlayerPosition : Option Vec3
  lastSeenPlayerTime : ℝ
  favoriteSpot : Option Vec3
  timesBeenPetted : ℕ
  mood : Mood
  vocalizationTimer : ℝ
  isVocalizing : Bool
  earRotationLeft : ℝ
  earRotationRight : ℝ
  tailPosition : ℝ
  headShakeActive : Bool
  headShakeProgress : ℝ
  pawingGround : Bool
  pawProgress : ℝ
  isSniffing : Bool
  sniffProgress : ℝ
  meshPresent : Bool
  meshRotY : ℝ

namespace Cloudfen

/-- State transition helper `setState` (`src/js/main.js:965-970`): a no-op on
the current state, otherwise records the previous state and zeroes the state
timer. -/
def setState (s : Cloudfen) (newState : CState) : Cloudfen :=
  if s.state = newState then s
  else { s with previousState := some s.state, state := newState, stateTimer := 0 }

/-- Helper `_standUp` (`src/js/main.js:1428-1432`).  The write to
`targetEyeOpenness` is kept; the method touches nothing else. -/
def standUp (s : Cloudfen) : Cloudfen :=
  { s with isLyingDown := false, lyingDownProgress := 0, targetEyeOpenness := 1 }

/-- Handler `onHoverStart` (`src/js/main.js:885-889`). -/
def onHoverStart (s : Cloudfen) : Cloudfen :=
  if s.state = CState.bliss ∨ s.state = CState.fleeing then s
  else { s with isHovered := true, hoverTime := 0 }

/-- Handler `onHoverEnd` (`src/js/main.js:891-894`). -/
def onHoverEnd (s : Cloudfen) : Cloudfen :=
  { s with isHovered := false, hoverTime := 0 }

/-- Handler `onStroke` (`src/js/main.js:896-917`).  `now` is `Date.now()` at
the stroke.  The wool-spring impulse, impact squash, pet-wiggle target and
the optional wool-particle spawn are presentation-only and omitted. -/
def onStroke (s : Cloudfen) (dx dy speed now : ℝ) : Cloudfen :=
  if s.isPetted = false then s
  else
    let strokeBonus := min (speed * 0.02) 0.15 * s.personality.friendliness
    { s with
      lastStrokeTime := now
      happiness := min 1 (s.happiness + strokeBonus)
      velocity := ⟨s.velocity.x + dx * 0.02, s.velocity.y, s.velocity.z + dy * 0.02⟩ }

/-- Handler `endPetting` (`src/js/main.js:919-937`), immediate part.  The
heart-particle spawn is presentation-only; the one-second deferred callback is
`endPettingTimeout`. -/
def endPetting (s : Cloudfen) (duration : ℝ) : Cloudfen :=
  let s : Cloudfen := { s with isPetted := false, petDuration := duration }
  if s.state = CState.bliss then { s with stateTimer := 0 } else s

/-- Body of the `setTimeout` scheduled by `endPetting` when the state was
`petted` (`src/js/main.js:931-935`): one second later, if the creature is
still `petted`, drop back to `idle`. -/
def endPettingTimeout (s : Cloudfen) : Cloudfen :=
  if s.state = CState.petted then s.setState CState.idle else s

/-- Handler `onCalled` (`src/js/main.js:939-961`), immediate part: guard
against `bliss` / `fleeing`, stand a sleeping or resting creature up.  The
body deferred by `setTimeout` is `onCalledTimeout`; it captures the
source position and the direction computed here, so the returned pair is the
new state together with `some dir` when the deferred body was scheduled. -/
def onCalled (s : Cloudfen) (sourcePosition : Vec3) : Cloudfen × Option Vec3 :=
  if s.state = CState.bliss ∨ s.state = CState.fleeing then (s, none)
  else
    let s : Cloudfen := if s.state = CState.sleeping ∨ s.state = CState.resting then s.standUp else s
    (s, some (Vec3.sub sourcePosition s.position))

/-- Body of the `setTimeout` scheduled by `onCalled`
(`src/js/main.js:950-960`); `dir` is the source-to-creature offset captured at
call time and `r` the `Math.random()` shyness roll drawn when the delay
fires. -/
def onCalledTimeout (s : Cloudfen) (sourcePosition dir : Vec3) (r : ℝ) : Cloudfen :=
  if s.personality.shyness * 0.5 < r then
    let s : Cloudfen := s.setState CState.called
    let target := Vec3.flat sourcePosition
    let approachDir := dir.normalize
    { s with targetPosition := some (Vec3.sub target (Vec3.smul s.comfortDistance approachDir)) }
  else
    s.setState CState.curious

/-- Handler `startPetting` (`src/js/main.js:2195-2216`); `now` is
`Date.now()`.  The heart spawn and bleat sound are presentation-only. -/
def startPetting (s : Cloudfen) (now : ℝ) : Cloudfen :=
  let s : Cloudfen := { s with
    isPetted := true, petDuration := 0, lastStrokeTime := now,
    timesBeenPetted := s.timesBeenPetted + 1 }
  let s : Cloudfen := if s.state ≠ CState.bliss then s.setState CState.petted else s
  { s with mood := { s.mood with
      contentment := min 1 (s.mood.contentment + 0.2)
      playfulness := min 1 (s.mood.playfulness + 0.1) } }

/-- Mood drift `_updateMood` (`src/js/main.js:2111-2138`). -/
def updateMood (s : Cloudfen) (dt : ℝ) (playerPosition : Option Vec3) : Cloudfen :=
  let c := s.mood.contentment
  let c := if s.state = CState.resting ∨ s.state = CState.sleeping then min 1 (c + dt * 0.02) else c
  let c := if 0.5 < s.happiness then min 1 (c + dt * 0.05) else c
  let c := if s.state = CState.fleeing then max 0 (c - dt * 0.1) else c
  let c := c + (0.5 - c) * dt * 0.01
  let a := s.mood.alertness
  let a := match playerPosition with
    | some p => if s.position.distanceTo p < 5 then min 1 (a + dt * 0.1) else max 0.2 (a - dt * 0.05)
    | none => a
  let pl := s.mood.playfulness
  let pl := if 2 < s.timesBeenPetted then min 0.8 (pl + dt * 0.01) else pl
  let pl := if 0.6 < s.tiredness then max 0 (pl - dt * 0.02) else pl
  { s with mood := ⟨c, a, pl⟩ }

/-- Proximity / flee logic `_updatePlayerAwareness` (`src/js/main.js:1037-1070`).
Draws: `rand 0` is the flightiness roll, `rand 1` the flee-distance roll. -/
def updatePlayerAwareness (s : Cloudfen) (dt : ℝ) (playerPosition : Option Vec3)
    (e : Env) : Cloudfen :=
  match playerPosition with
  | none => s
  | some p =>
    let toPlayer := Vec3.flat (Vec3.sub p s.position)
    let distance := toPlayer.length
    let playerSpeed : ℝ := match e.playerVel with
      | some v => Real.sqrt (v.x ^ 2 + v.z ^ 2)
      | none => 0
    let isPlayerRunning := 3 < playerSpeed
    let canFlee := s.state ≠ CState.petted ∧ s.state ≠ CState.bliss ∧
      s.state ≠ CState.sleeping
    let s :=
      if distance < s.fleeThreshold ∧ isPlayerRunning ∧ canFlee then
        let s : Cloudfen := if s.state = CState.resting then s.standUp else s
        if e.rand 0 < s.personality.flightiness then
          let s : Cloudfen := s.setState CState.fleeing
          let fleeDir := Vec3.smul (-1) toPlayer.normalize
          { s with targetPosition := some (Vec3.add s.position (Vec3.smul (8 + e.rand 1 * 5) fleeDir)) }
        else s
      else s
    if distance < 8 then { s with playerAwareness := min 1 (s.playerAwareness + dt * 0.5) }
    else { s with playerAwareness := max 0 (s.playerAwareness - dt * 0.2) }

/-- Peer query `_findNearestSheep` (`src/js/main.js:1253-1275`): scan the
creature array (here `others`, the array without this instance, in array
order) for the closest peer whose state is not `sleeping` / `fleeing` /
`petted` / `bliss`; strict comparison keeps the earliest of equidistant
peers.  Returns the peer index, the peer and the horizontal distance. -/
def findNearestSheep (s : Cloudfen) (others : List Cloudfen) : Option (ℕ × Cloudfen × ℝ) :=
  findNearestAux s others 0 none
where
  /-- Recursion over the remaining peers, carrying the index of the head and
  the best candidate so far. -/
  findNearestAux (s : Cloudfen) : List Cloudfen → ℕ → Option (ℕ × Cloudfen × ℝ) →
      Option (ℕ × Cloudfen × ℝ)
    | [], _, best => best
    | other :: rest, i, best =>
      let best :=
        if other.state = CState.sleeping ∨ other.state = CState.fleeing ∨
           other.state = CState.petted ∨ other.state = CState.bliss then best
        else
          let dx := other.position.x - s.position.x
          let dz := other.position.z - s.position.z
          let dist := Real.sqrt (dx * dx + dz * dz)
          match best with
          | none => some (i, other, dist)
          | some (j, b, d) => if dist < d then some (i, other, dist) else some (j, b, d)
      findNearestAux s rest (i + 1) best

/-- Flag-setting part of `_doVocalize` (`src/js/main.js:2084-2089`): the
creature starts vocalizing (the 500 ms deferred reset of the flag is
presentation-only).  The 30% chance of scheduling a delayed peer response
(lines 2090-2097) is the separate decision function `doVocalizeSchedule`. -/
def doVocalizeFlag (s : Cloudfen) : Cloudfen := { s with isVocalizing := true }

/-- Scheduling part of `_doVocalize` (`src/js/main.js:2090-2097`): with the
respond roll `r1` under 0.3, and a nearest valid peer (per
`_findNearestSheep`) closer than 10 units, schedule `_doRespondVocalize` on
that peer after `300 + r2 * 500` milliseconds. -/
def doVocalizeSchedule (s : Cloudfen) (others : List Cloudfen) (r1 r2 : ℝ) :
    Option (ℕ × ℝ) :=
  if r1 < 0.3 then
    match s.findNearestSheep others with
    | some (i, _, d) => if d < 10 then some (i, 300 + r2 * 500) else none
    | none => none
  else none

/-- Delayed peer response `_doRespondVocalize` (`src/js/main.js:2100-2107`):
no vocalization if the peer is asleep when the delay fires (the 400 ms
deferred reset of the flag is presentation-only). -/
def doRespondVocalize (s : Cloudfen) : Cloudfen :=
  if s.state ≠ CState.sleeping then { s with isVocalizing := true } else s

/-- Micro-behaviour `_doEarTwitch` (`src/js/main.js:2039-2050`); `which`
selects the ear, `amt` the twitch amount (each JS branch draws its own
amount; the branches are exclusive, so one amount draw suffices). -/
def doEarTwitch (s : Cloudfen) (which amt : ℝ) : Cloudfen :=
  if which < 0.4 then { s with earRotationLeft := (amt - 0.5) * 0.3 }
  else if which < 0.8 then { s with earRotationRight := (amt - 0.5) * 0.3 }
  else { s with earRotationLeft := (amt - 0.5) * 0.2, earRotationRight := (amt - 0.5) * 0.2 }

/-- Micro-behaviour `_doTailWag` (`src/js/main.js:2052-2058`). -/
def doTailWag (s : Cloudfen) (r : ℝ) : Cloudfen :=
  if 0.4 < s.happiness ∨ 0.6 < s.mood.contentment then { s with tailPosition := 0.3 + r * 0.3 }
  else { s with tailPosition := r * 0.2 }

/-- Micro-behaviour `_doHeadShake` (`src/js/main.js:2060-2066`); the 400 ms
deferred reset of the flag is presentation-only. -/
def doHeadShake (s : Cloudfen) : Cloudfen :=
  { s with headShakeActive := true, headShakeProgress := 0 }

/-- Micro-behaviour `_doPawGround` (`src/js/main.js:2068-2074`); the 600 ms
deferred reset of the flag is presentation-only. -/
def doPawGround (s : Cloudfen) : Cloudfen :=
  { s with pawingGround := true, pawProgress := 0 }

/-- Micro-behaviour `_doSniff` (`src/js/main.js:2076-2082`); the 800 ms
deferred reset of the flag is presentation-only. -/
def doSniff (s : Cloudfen) : Cloudfen :=
  { s with isSniffing := true, sniffProgress := 0 }

/-- Blink `_doBlink` (`src/js/main.js:1985-1991`); the 100 ms deferred
restore of the eye openness is presentation-only. -/
def doBlink (s : Cloudfen) : Cloudfen := { s with targetEyeOpenness := 0 }

/-- Micro-behaviour scheduler `_updateMicroBehaviors`
(`src/js/main.js:1995-2037`).  Draws: `rand 2` ear-twitch ear, `rand 3`
ear-twitch amount, `rand 4` ear re-arm, `rand 5` tail-wag amount, `rand 6`
tail re-arm, `rand 7` head-shake re-arm, `rand 8` paw re-arm, `rand 9` sniff
re-arm, `rand 12` vocalize re-arm.  The vocalize response scheduling drawn at
this site is `doVocalizeSchedule` with draws 10 and 11 (modelled by the event
layer; it mutates only a peer). -/
def updateMicroBehaviors (s : Cloudfen) (dt : ℝ) (e : Env) : Cloudfen :=
  let s : Cloudfen := { s with earTwitchTimer := s.earTwitchTimer - dt }
  let s : Cloudfen := if s.earTwitchTimer ≤ 0 then
      { s.doEarTwitch (e.rand 2) (e.rand 3) with earTwitchTimer := 2 + e.rand 4 * 5 }
    else s
  let s : Cloudfen := { s with tailWagTimer := s.tailWagTimer - dt }
  let s : Cloudfen := if s.tailWagTimer ≤ 0 then
      { s.doTailWag (e.rand 5) with tailWagTimer := 3 + e.rand 6 * 8 }
    else s
  let s : Cloudfen := { s with headShakeTimer := s.headShakeTimer - dt }
  let s : Cloudfen := if s.headShakeTimer ≤ 0 ∧ s.state ≠ CState.sleeping then
      { s.doHeadShake with headShakeTimer := 10 + e.rand 7 * 20 }
    else s
  let s : Cloudfen := { s with pawGroundTimer := s.pawGroundTimer - dt }
  let s : Cloudfen := if s.pawGroundTimer ≤ 0 ∧ (s.state = CState.idle ∨ s.state = CState.curious) then
      { s.doPawGround with pawGroundTimer := 12 + e.rand 8 * 25 }
    else s
  let s : Cloudfen := { s with sniffTimer := s.sniffTimer - dt }
  let s : Cloudfen := if s.sniffTimer ≤ 0 ∧ s.state ≠ CState.sleeping then
      { s.doSniff with sniffTimer := 5 + e.rand 9 * 10 }
    else s
  let s : Cloudfen := { s with vocalizationTimer := s.vocalizationTimer - dt }
  let s : Cloudfen := if s.vocalizationTimer ≤ 0 then
      let baseInterval : ℝ := if 0.3 < s.happiness then 15 else 25
      { s.doVocalizeFlag with vocalizationTimer := baseInterval + e.rand 12 * 20 }
    else s
  { s with earRotationLeft := s.earRotationLeft * 0.95,
           earRotationRight := s.earRotationRight * 0.95,
           tailPosition := s.tailPosition * 0.93 }

/-- Attention retarget `_shiftAttention` (`src/js/main.js:2169-2191`).
Draws: `rand 14` the branch roll, `rand 15` the random-point angle. -/
def shiftAttention (s : Cloudfen) (playerPosition : Option Vec3)
    (others : List Cloudfen) (e : Env) : Cloudfen :=
  let roll := e.rand 14
  if s.isHovered ∨ (0.5 < s.playerAwareness ∧ roll < 0.4) then
    { s with attentionTarget := playerPosition, attentionStrength := 0.8 }
  else if roll < 0.6 then
    match s.findNearestSheep others with
    | some (_, peer, _) =>
      { s with attentionTarget := some peer.position, attentionStrength := 0.5 }
    | none => s
  else if roll < 0.8 then
    let angle := e.rand 15 * (2 * Real.pi)
    { s with
      attentionTarget := some (Vec3.add s.position ⟨Real.cos angle * 5, 0, Real.sin angle * 5⟩),
      attentionStrength := 0.3 }
  else { s with attentionTarget := none, attentionStrength := 0 }

/-- Attention system `_updateAttention` (`src/js/main.js:2142-2167`).
Draws: `rand 13` the shift-interval roll. -/
def updateAttention (s : Cloudfen) (dt : ℝ) (playerPosition : Option Vec3)
    (others : List Cloudfen) (e : Env) : Cloudfen :=
  let s : Cloudfen := { s with attentionStrength := max 0 (s.attentionStrength - dt * 0.3) }
  let s : Cloudfen := if 3000 + e.rand 13 * 4000 < e.now - s.lastAttentionShift then
      { s.shiftAttention playerPosition others e with lastAttentionShift := e.now }
    else s
  let s : Cloudfen := match playerPosition with
    | some p =>
      if s.position.distanceTo p < 10 then
        { s with lastPlayerPosition := some p, lastSeenPlayerTime := e.now }
      else s
    | none => s
  if s.state = CState.resting ∨ s.state = CState.sleeping then
    match s.favoriteSpot with
    | none => { s with favoriteSpot := some s.position }
    | some f => { s with favoriteSpot := some (Vec3.lerpv f s.position 0.01) }
  else s

/-- Look-target choice `_pickLookTarget` (`src/js/main.js:1277-1296`).
Draws: `rand 29` the branch roll, `rand 30` the random-direction angle,
`rand 31` the look duration. -/
def pickLookTarget (s : Cloudfen) (playerPosition : Option Vec3)
    (others : List Cloudfen) (e : Env) : Cloudfen :=
  let roll := e.rand 29
  let s :=
    if playerPosition.isSome ∧ roll < 0.3 ∧ 0.2 < s.playerAwareness then
      { s with lookTarget := playerPosition }
    else if roll < 0.6 then
      match s.findNearestSheep others with
      | some (_, peer, _) => { s with lookTarget := some peer.position }
      | none => { s with lookTarget := none }
    else
      let angle := e.rand 30 * (2 * Real.pi)
      { s with lookTarget := some (Vec3.add s.position ⟨Real.cos angle * 5, 0, Real.sin angle * 5⟩) }
  { s with lookTimer := 2 + e.rand 31 * 3 }

/-- Wander-waypoint choice `_chooseWanderTarget` (`src/js/main.js:1211-1251`)
(its `playerPosition` parameter is unused in the source and dropped here).
Draws: `rand 26` the branch roll, `rand 27` and `rand 28` the per-branch
magnitude / angle draws (the branches are exclusive). -/
def chooseWanderTarget (s : Cloudfen) (others : List Cloudfen) (e : Env) : Cloudfen :=
  let roll := e.rand 26
  let rest := fun (s : Cloudfen) =>
    if roll < 0.5 ∧ 8 < s.position.distanceTo s.homePosition then
      let dir := (Vec3.sub s.homePosition s.position).normalize
      { s with targetPosition := some (Vec3.add s.position (Vec3.smul (3 + e.rand 27 * 3) dir)) }
    else if roll < 0.75 ∧ 0.3 < s.personality.curiosity then
      let angle := e.rand 27 * (2 * Real.pi)
      let d := 3 + e.rand 28 * 6
      { s with targetPosition := some ⟨s.position.x + Real.cos angle * d, 0, s.position.z + Real.sin angle * d⟩ }
    else
      let angle := e.rand 27 * (2 * Real.pi)
      let d := 2 + e.rand 28 * 8
      { s with targetPosition := some ⟨s.homePosition.x + Real.cos angle * d, 0, s.homePosition.z + Real.sin angle * d⟩ }
  match s.findNearestSheep others with
  | some (_, peer, d) =>
    if roll < 0.3 ∧ 0.4 < s.personality.sociability ∧ 4 < d ∧ d < 15 then
      let dir := (Vec3.sub peer.position s.position).normalize
      { s with targetPosition := some (Vec3.add s.position (Vec3.smul (2 + e.rand 27 * 2) dir)) }
    else rest s
  | none => rest s

/-- Weighted idle behaviour selection `_chooseNextBehavior`
(`src/js/main.js:1131-1209`).  Draws: `rand 21` the tiredness roll, `rand 22`
the main categorical roll, `rand 23` the social gate roll, `rand 24` the
graze duration, `rand 25` the stretch variant. -/
def chooseNextBehavior (s : Cloudfen) (playerPosition : Option Vec3)
    (others : List Cloudfen) (e : Env) : Cloudfen :=
  if 0.7 < s.tiredness ∧ e.rand 21 < s.tiredness then
    let s : Cloudfen := match s.favoriteSpot with
      | some f => if 3 < s.position.distanceTo f then { s with targetPosition := some f } else s
      | none => s
    s.setState CState.resting
  else
    let modGraze := 1 + (s.mood.contentment - 0.5) * 0.3
    let modSocial := 1 + s.mood.playfulness * 0.5
    let modLook := 1 + s.mood.alertness * 0.4
    let modRest := 1 + (1 - s.mood.playfulness) * 0.3
    let playerNearby : Bool := match playerPosition with
      | some p => decide (s.position.distanceTo p < 8)
      | none => false
    let roll := e.rand 22
    let cumulative : ℝ := 0
    let nearest := s.findNearestSheep others
    let socialGate : Bool := match nearest with
      | some (_, _, d) =>
        decide (d < 6 ∧ 10000 < e.now - s.lastSocialTime ∧
          e.rand 23 < s.personality.sociability * modSocial)
      | none => false
    let cumulative := if socialGate then cumulative + s.behaviorWeights.social * modSocial else cumulative
    if socialGate ∧ roll < cumulative then
      let s : Cloudfen := match nearest with
        | some (i, _, _) => { s with socialTarget := some i }
        | none => s
      s.setState CState.social
    else
      let grazeWeight := s.behaviorWeights.graze * modGraze
      let grazeWeight := if playerNearby then grazeWeight * 0.5 else grazeWeight
      let cumulative := cumulative + grazeWeight
      if roll < cumulative then
        ({ s with grazeDuration := 3 + e.rand 24 * 5 }).setState CState.grazing
      else
        let lookWeight := s.behaviorWeights.look * modLook
        let lookWeight := if playerNearby then lookWeight * 1.5 else lookWeight
        let cumulative := cumulative + lookWeight
        if roll < cumulative then
          (s.pickLookTarget playerPosition others e).setState CState.looking
        else
          let stretchWeight := s.behaviorWeights.stretch
          let stretchWeight :=
            if s.previousState = some CState.resting ∨ s.previousState = some CState.sleeping
            then stretchWeight * 3 else stretchWeight
          let cumulative := cumulative + stretchWeight
          if roll < cumulative then
            ({ s with stretchType := (⌊e.rand 25 * 3⌋).toNat, stretchProgress := 0 }).setState CState.stretching
          else
            let cumulative := cumulative + s.behaviorWeights.rest * modRest
            if roll < cumulative ∧ 0.3 < s.tiredness then
              let s : Cloudfen := match s.favoriteSpot with
                | some f => if 3 < s.position.distanceTo f then { s with targetPosition := some f } else s
                | none => s
              s.setState CState.resting
            else s.chooseWanderTarget others e

/-- Idle update `_updateIdle` (`src/js/main.js:1072-1129`).  Draws: `rand 16`
the petted-look roll, `rand 17` the next-wander base time, `rand 18` the
look-on-arrival roll, `rand 19` the drift roll, `rand 20` the drift amount,
`rand 32` the blink roll. -/
def updateIdle (s : Cloudfen) (dt : ℝ) (playerPosition : Option Vec3)
    (others : List Cloudfen) (e : Env) : Cloudfen :=
  let s : Cloudfen := { s with idleTimer := s.idleTimer + dt, targetEyeOpenness := 1 }
  if s.isHovered ∧ 1.5 < s.hoverTime ∧ 0.3 < s.playerAwareness then s.setState CState.curious
  else
    let petLook : Bool := match playerPosition with
      | some p => decide (0.5 < s.playerAwareness ∧ 0 < s.timesBeenPetted ∧
          s.position.distanceTo p < 6 ∧ e.rand 16 < 0.01)
      | none => false
    if petLook then (s.pickLookTarget playerPosition others e).setState CState.looking
    else if s.nextWanderTime ≤ s.idleTimer then
      let baseTime := 1.5 + e.rand 17 * 2.5
      let s : Cloudfen := { s with idleTimer := 0, nextWanderTime := baseTime * (1 + s.personality.laziness * 0.3) }
      s.chooseNextBehavior playerPosition others e
    else
      match s.targetPosition with
      | some t =>
        let dir := Vec3.flat (Vec3.sub t s.position)
        let dist := dir.length
        if 0.3 < dist then
          let dirn := dir.normalize
          let speedMod := 0.9 + s.mood.playfulness * 0.2
          let s : Cloudfen := { s with velocity := ⟨dirn.x * s.wanderSpeed * speedMod, s.velocity.y, dirn.z * s.wanderSpeed * speedMod⟩ }
          if e.rand 32 < 0.003 then s.doBlink else s
        else
          let s : Cloudfen := { s with targetPosition := none, velocity := Vec3.smul 0.8 s.velocity }
          if e.rand 18 < 0.3 then (s.pickLookTarget playerPosition others e).setState CState.looking
          else if e.rand 32 < 0.003 then s.doBlink else s
      | none =>
        let s : Cloudfen := { s with velocity := Vec3.smul 0.9 s.velocity }
        let s : Cloudfen := if e.rand 19 < 0.005 then
            { s with velocity := ⟨s.velocity.x + (e.rand 20 - 0.5) * 0.1, s.velocity.y, s.velocity.z⟩ }
          else s
        if e.rand 32 < 0.003 then s.doBlink else s

/-- Grazing update `_updateGrazing` (`src/js/main.js:1298-1327`).  Draws:
`rand 33` the heading-jitter roll, `rand 34` the jitter offset, `rand 35`
the blink roll.  The heading jitter reads the rendered yaw `meshRotY`. -/
def updateGrazing (s : Cloudfen) (dt : ℝ) (playerPosition : Option Vec3) (e : Env) : Cloudfen :=
  let s : Cloudfen := { s with grazingTimer := s.grazingTimer + dt, velocity := Vec3.smul 0.85 s.velocity }
  let s : Cloudfen := { s with grazeHeadBob := Real.sin (s.grazingTimer * 3) * 0.08 }
  let s : Cloudfen := if e.rand 33 < 0.01 then
      let angle := s.meshRotY + (e.rand 34 - 0.5) * 0.5
      { s with velocity := ⟨s.velocity.x + Real.sin angle * 0.15, s.velocity.y, s.velocity.z + Real.cos angle * 0.15⟩ }
    else s
  let near : Bool := match playerPosition with
    | some p => decide (s.position.distanceTo p < 3)
    | none => false
  if near then s.setState CState.curious
  else
    let s : Cloudfen := if s.grazeDuration ≤ s.grazingTimer then
        ({ s with grazingTimer := 0, grazeHeadBob := 0 }).setState CState.idle
      else s
    if e.rand 35 < 0.004 then s.doBlink else s

/-- Looking update `_updateLooking` (`src/js/main.js:1329-1341`). -/
def updateLooking (s : Cloudfen) (dt : ℝ) : Cloudfen :=
  let s : Cloudfen := { s with lookTimer := s.lookTimer - dt, velocity := Vec3.smul 0.9 s.velocity }
  let s : Cloudfen := if s.lookTimer ≤ 0 then ({ s with lookTarget := none }).setState CState.idle else s
  if s.isHovered ∧ 1 < s.hoverTime then s.setState CState.curious else s

/-- Stretching update `_updateStretching` (`src/js/main.js:1343-1358`). -/
def updateStretching (s : Cloudfen) (dt : ℝ) : Cloudfen :=
  let s : Cloudfen := { s with stretchProgress := s.stretchProgress + dt, velocity := Vec3.smul 0.8 s.velocity }
  let s : Cloudfen := if 2.5 ≤ s.stretchProgress then ({ s with stretchProgress := 0 }).setState CState.idle else s
  if s.isHovered ∧ 0.5 < s.hoverTime then ({ s with stretchProgress := 0 }).setState CState.curious else s

/-- Resting update `_updateResting` (`src/js/main.js:1360-1395`).  Draws:
`rand 36` the fall-asleep roll, `rand 37` the rest duration, `rand 38` the
blink roll. -/
def updateResting (s : Cloudfen) (dt : ℝ) (playerPosition : Option Vec3) (e : Env) : Cloudfen :=
  let s : Cloudfen := { s with velocity := Vec3.smul 0.8 s.velocity, targetEyeOpenness := 0.7 }
  let s : Cloudfen := if s.isLyingDown = false then
      let p := min 1 (s.lyingDownProgress + dt * 0.8)
      { s with lyingDownProgress := p, isLyingDown := if 1 ≤ p then true else s.isLyingDown }
    else s
  let s : Cloudfen := { s with tiredness := max 0 (s.tiredness - dt * 0.03) }
  if s.tiredness < 0.2 ∧ 5 < s.stateTimer ∧ e.rand 36 < 0.01 then s.setState CState.sleeping
  else
    let wake : Bool := match playerPosition with
      | some p => decide (s.position.distanceTo p < 4 ∧ 0.5 < s.playerAwareness)
      | none => false
    if wake then (s.standUp).setState CState.curious
    else
      let s : Cloudfen := if 8 + e.rand 37 * 5 < s.stateTimer ∧ s.tiredness < 0.4 then
          (s.standUp).setState CState.idle
        else s
      if e.rand 38 < 0.006 then s.doBlink else s

/-- Sleeping update `_updateSleeping` (`src/js/main.js:1397-1426`).  Draws:
`rand 39` the sleep duration. -/
def updateSleeping (s : Cloudfen) (dt : ℝ) (playerPosition : Option Vec3) (e : Env) : Cloudfen :=
  let s : Cloudfen := { s with sleepTimer := s.sleepTimer + dt, velocity := Vec3.smul 0.9 s.velocity, targetEyeOpenness := 0.05, isLyingDown := true, lyingDownProgress := 1 }
  let s : Cloudfen := { s with tiredness := max 0 (s.tiredness - dt * 0.05) }
  let tail := fun (s : Cloudfen) =>
    if 10 + e.rand 39 * 10 < s.sleepTimer ∧ s.tiredness < 0.1 then
      ({ s.standUp with sleepTimer := 0, stretchType := 0, stretchProgress := 0 }).setState CState.stretching
    else s
  match playerPosition with
  | some p =>
    let dist := s.position.distanceTo p
    if dist < 3 then
      let s : Cloudfen := { s with targetEyeOpenness := 0.5 }
      if dist < 2 ∨ s.isHovered then (s.standUp).setState CState.curious
      else tail s
    else tail s
  | none => tail s

/-- Social update `_updateSocial` (`src/js/main.js:1434-1493`).  Draws:
`rand 40` the tail roll, `rand 41` the vocalize roll, `rand 42` the sniff
roll, `rand 44` the session duration, `rand 45` the graze-after roll,
`rand 46` the graze duration.  The partner promotion (`rand 43`: an idle
partner is itself put into `social`, lines 1468-1472) mutates the other
creature and is modelled at the event layer (`Ev.socialPromote`); the
`earWiggle` reset is presentation-only. -/
def updateSocial (s : Cloudfen) (dt : ℝ) (others : List Cloudfen) (e : Env) : Cloudfen :=
  let s : Cloudfen := { s with socialTimer := s.socialTimer + dt, lastSocialTime := e.now }
  let go := fun (peer : Cloudfen) (s : Cloudfen) =>
      let toTarget := Vec3.flat (Vec3.sub peer.position s.position)
      let dist := toTarget.length
      let s : Cloudfen :=
        if 1.8 < dist then
          let dirn := toTarget.normalize
          { s with velocity := ⟨dirn.x * s.wanderSpeed * 1.2, s.velocity.y, dirn.z * s.wanderSpeed * 1.2⟩ }
        else
          let s : Cloudfen := { s with velocity := Vec3.smul 0.8 s.velocity, headTilt := Real.sin (s.socialTimer * 2) * 0.03 }
          let s : Cloudfen := if e.rand 40 < 0.02 then { s with tailPosition := 0.3 } else s
          let s : Cloudfen := if e.rand 41 < 0.008 then s.doVocalizeFlag else s
          if e.rand 42 < 0.01 ∧ s.isSniffing = false then s.doSniff else s
      let s : Cloudfen :=
        if 4 + e.rand 44 * 3 < s.socialTimer then
          let s : Cloudfen := { s with socialTimer := 0, socialTarget := none, headTilt := 0 }
          if e.rand 45 < 0.4 then ({ s with grazeDuration := 3 + e.rand 46 * 3 }).setState CState.grazing
          else s.setState CState.idle
        else s
      if s.isHovered ∧ 1.5 < s.hoverTime then ({ s with socialTarget := none }).setState CState.curious
      else s
  match s.socialTarget with
  | none => s.setState CState.idle
  | some i =>
    match others.get? i with
    | none => s.setState CState.idle
    | some peer =>
      if peer.meshPresent = false then s.setState CState.idle
      else go peer s

/-- Curious update `_updateCurious` (`src/js/main.js:1495-1534`).  Draws:
`rand 47` the paw roll, `rand 48` and `rand 49` the approach rolls,
`rand 50` the vocalize roll. -/
def updateCurious (s : Cloudfen) (dt : ℝ) (playerPosition : Option Vec3) (e : Env) : Cloudfen :=
  let s : Cloudfen := { s with targetEyeOpenness := 1, velocity := Vec3.smul 0.9 s.velocity }
  let s : Cloudfen := { s with headTilt := Real.sin (s.stateTimer * 1.5) * 0.04 }
  let s : Cloudfen := if s.stateTimer < 2 then { s with earRotationLeft := 0.15, earRotationRight := 0.15 } else s
  let s : Cloudfen := if 1 < s.stateTimer ∧ e.rand 47 < 0.01 ∧ s.pawingGround = false then s.doPawGround else s
  let s : Cloudfen := if s.isHovered = false ∧ 4 < s.stateTimer then ({ s with headTilt := 0 }).setState CState.idle else s
  let s : Cloudfen := match playerPosition with
    | some p =>
      if 2 < s.stateTimer then
        let toPlayer := Vec3.flat (Vec3.sub p s.position)
        let dist := toPlayer.length
        let u := toPlayer.normalize
        let s : Cloudfen := if s.comfortDistance < dist ∧ e.rand 48 < 0.008 * s.personality.friendliness then
            { s with velocity := s.velocity.add (Vec3.smul 0.4 u) }
          else s
        if 0 < s.timesBeenPetted ∧ 2 < dist ∧ e.rand 49 < 0.01 * s.personality.friendliness then
          { s with velocity := s.velocity.add (Vec3.smul 0.5 u) }
        else s
      else s
    | none => s
  if 2 < s.stateTimer ∧ e.rand 50 < 0.005 then s.doVocalizeFlag else s

/-- Petted update `_updatePetted` (`src/js/main.js:1536-1568`).  The pet
wiggle, squash targets, wool impulses and the bliss-transition particle
spawns are presentation-only; the happiness-proportional lean nudges
`velocity.x`. -/
def updatePetted (s : Cloudfen) (dt : ℝ) (e : Env) : Cloudfen :=
  let s : Cloudfen := { s with velocity := Vec3.smul 0.85 s.velocity, targetEyeOpenness := max 0.2 (1 - s.happiness * 0.8) }
  let leanAmount := Real.sin (s.stateTimer * 2) * 0.3 * s.happiness
  let s : Cloudfen := { s with velocity := ⟨s.velocity.x + leanAmount * 0.1, s.velocity.y, s.velocity.z⟩ }
  let s : Cloudfen := { s with tailPosition := 0.3 + s.happiness * 0.4 }
  let s : Cloudfen := if 0.8 < s.happiness ∧ s.isPetted ∧ 2 < s.stateTimer then s.setState CState.bliss else s
  if s.isPetted ∧ 300 < e.now - s.lastStrokeTime then
    { s with happiness := min 1 (s.happiness + dt * 0.15) }
  else s

/-- Bliss update `_updateBliss` (`src/js/main.js:1570-1600`).  The dreamy
sway overwrites the horizontal velocity after friction; the wiggle, squash,
wool and heart-particle lines are presentation-only. -/
def updateBliss (s : Cloudfen) (dt : ℝ) : Cloudfen :=
  let v := Vec3.smul 0.92 s.velocity
  let swayPhase := s.stateTimer * 1.5
  let s : Cloudfen := { s with targetEyeOpenness := 0.15, velocity := ⟨Real.sin swayPhase * 0.15, v.y, Real.cos (swayPhase * 0.7) * 0.08⟩ }
  let s : Cloudfen := { s with tailPosition := 0.6 + Real.sin (s.stateTimer * 8) * 0.2 }
  if s.isPetted = false then
    if 3 < s.stateTimer then { s.setState CState.idle with happiness := 0.3 } else s
  else s

/-- Called update `_updateCalled` (`src/js/main.js:1602-1620`). -/
def updateCalled (s : Cloudfen) : Cloudfen :=
  match s.targetPosition with
  | some t =>
    let dir := Vec3.flat (Vec3.sub t s.position)
    let dist := dir.length
    if 0.8 < dist then
      let u := dir.normalize
      { s with velocity := ⟨u.x * s.approachSpeed, s.velocity.y, u.z * s.approachSpeed⟩ }
    else
      ({ s with targetPosition := none, homePosition := s.position }).setState CState.curious
  | none => s.setState CState.idle

/-- Fleeing update `_updateFleeing` (`src/js/main.js:1622-1644`). -/
def updateFleeing (s : Cloudfen) : Cloudfen :=
  let s : Cloudfen := match s.targetPosition with
    | some t =>
      let dir := Vec3.flat (Vec3.sub t s.position)
      let dist := dir.length
      if 1 < dist then
        let u := dir.normalize
        { s with velocity := ⟨u.x * s.fleeSpeed, s.velocity.y, u.z * s.fleeSpeed⟩ }
      else ({ s with targetPosition := none, homePosition := s.position }).setState CState.idle
    | none => s.setState CState.idle
  if 3 < s.stateTimer then s.setState CState.idle else s

/-- One iteration of the creature-creature collision loop in `_applyPhysics`
(`src/js/main.js:1659-1681`): soft circle-circle separation — 40% of the
overlap as positional correction for the updating creature plus a fixed 0.4
velocity kick, both along the separating normal.  The wool-spring impulse is
presentation-only. -/
def collideSheep (sheepRadius : ℝ) (s : Cloudfen) (other : Cloudfen) : Cloudfen :=
  let dx := s.position.x - other.position.x
  let dz := s.position.z - other.position.z
  let dist := Real.sqrt (dx * dx + dz * dz)
  let minDist := sheepRadius * 2
  if dist < minDist ∧ 0 < dist then
    let overlap := minDist - dist
    let nx := dx / dist
    let nz := dz / dist
    let pushStrength := overlap * 0.4
    { s with position := ⟨s.position.x + nx * pushStrength, s.position.y, s.position.z + nz * pushStrength⟩,
             velocity := ⟨s.velocity.x + nx * 0.4, s.velocity.y, s.velocity.z + nz * 0.4⟩ }
  else s

/-- The `for (const other of this.game.cloudfens)` loop of `_applyPhysics`,
in array order. -/
def collideSheepList (sheepRadius : ℝ) : Cloudfen → List Cloudfen → Cloudfen
  | s, [] => s
  | s, other :: rest => collideSheepList sheepRadius (collideSheep sheepRadius s other) rest

/-- Physics step `_applyPhysics` (`src/js/main.js:1646-1715`): Euler
integration, world-bounds clamp, friction, soft circle-circle separation
against every other creature (here `others`, the creature array without this
instance, in array order; the JS loop skips `other === this`), a second
bounds clamp, rock collision, and the ground-height snap (0 when the scene
collaborator is absent). -/
def applyPhysics (s : Cloudfen) (others : List Cloudfen) (scene : Option Scene) (dt : ℝ) : Cloudfen :=
  let s : Cloudfen := { s with position := ⟨s.position.x + s.velocity.x * dt, s.position.y, s.position.z + s.velocity.z * dt⟩ }
  let clampB := fun (v : ℝ) => max (-25) (min 25 v)
  let s : Cloudfen := { s with position := ⟨clampB s.position.x, s.position.y, clampB s.position.z⟩ }
  let s : Cloudfen := { s with velocity := ⟨s.velocity.x * 0.92, s.velocity.y, s.velocity.z * 0.92⟩ }
  let sheepRadius := 0.8 * s.baseScale
  let s : Cloudfen := collideSheepList sheepRadius s others
  let s : Cloudfen := { s with position := ⟨clampB s.position.x, s.position.y, clampB s.position.z⟩ }
  let s : Cloudfen := match scene with
    | some sc =>
      match sc.rockCollision s.position.x s.position.z sheepRadius with
      | some hit =>
        let s : Cloudfen := { s with position := ⟨s.position.x + hit.normalX * hit.overlap, s.position.y, s.position.z + hit.normalZ * hit.overlap⟩ }
        let dotProduct := s.velocity.x * hit.normalX + s.velocity.z * hit.normalZ
        if dotProduct < 0 then
          { s with velocity := ⟨s.velocity.x - 1.5 * dotProduct * hit.normalX, s.velocity.y, s.velocity.z - 1.5 * dotProduct * hit.normalZ⟩ }
        else s
      | none => s
    | none => s
  let groundY := match scene with
    | some sc => sc.groundHeight s.position.x s.position.z
    | none => 0
  { s with position := ⟨s.position.x, groundY, s.position.z⟩ }

/-- One iteration of the ball loop in `_handleMossBallCollision`
(`src/js/main.js:1722-1760`): the ball push and the impact sound affect
external entities only; the creature is pushed back 30% of the overlap and
receives a 0.5 velocity recoil. -/
def collideBall (sheepRadius : ℝ) (s : Cloudfen) (ball : Ball) : Cloudfen :=
  if ball.meshPresent = false then s
  else
    let dx := ball.position.x - s.position.x
    let dz := ball.position.z - s.position.z
    let dist := Real.sqrt (dx * dx + dz * dz)
    let minDist := sheepRadius + ball.radius
    if dist < minDist ∧ 0 < dist then
      let nx := dx / dist
      let nz := dz / dist
      let overlap := minDist - dist
      { s with position := ⟨s.position.x - nx * overlap * 0.3, s.position.y, s.position.z - nz * overlap * 0.3⟩,
               velocity := ⟨s.velocity.x - nx * 0.5, s.velocity.y, s.velocity.z - nz * 0.5⟩ }
    else s

/-- The `for (const ball of this.game.mossBalls)` loop, in array order. -/
def collideBallList (sheepRadius : ℝ) : Cloudfen → List Ball → Cloudfen
  | s, [] => s
  | s, ball :: rest => collideBallList sheepRadius (collideBall sheepRadius s ball) rest

/-- Ball interaction `_handleMossBallCollision` (`src/js/main.js:1717-1761`):
a missing `game.mossBalls` is a silent no-op. -/
def handleMossBallCollision (s : Cloudfen) (balls : Option (List Ball)) : Cloudfen :=
  match balls with
  | none => s
  | some bs =>
    let sheepRadius := 0.9 * s.baseScale
    collideBallList sheepRadius s bs

/-- First half of the tick `update` (`src/js/main.js:975-991`): state-timer
and hover-timer bookkeeping, happiness decay when unpetted, then the
awareness / micro-behaviour / mood / attention subsystems and tiredness
growth, in source order. -/
def updateCore (s : Cloudfen) (dt : ℝ) (playerPosition : Option Vec3)
    (others : List Cloudfen) (e : Env) : Cloudfen :=
  let s : Cloudfen := { s with stateTimer := s.stateTimer + dt }
  let s : Cloudfen := if s.isHovered then { s with hoverTime := s.hoverTime + dt } else s
  let s : Cloudfen := if s.isPetted = false then { s with happiness := max 0 (s.happiness - dt * 0.08) } else s
  let s : Cloudfen := s.updatePlayerAwareness dt playerPosition e
  let s : Cloudfen := s.updateMicroBehaviors dt e
  let s : Cloudfen := s.updateMood dt playerPosition
  let s : Cloudfen := s.updateAttention dt playerPosition others e
  if s.state ≠ CState.resting ∧ s.state ≠ CState.sleeping then
    { s with tiredness := min 1 (s.tiredness + dt * 0.005 * s.personality.laziness) }
  else s

/-- The per-state `switch` of `update` (`src/js/main.js:993-1030`). -/
def updateDispatch (s : Cloudfen) (dt : ℝ) (playerPosition : Option Vec3)
    (others : List Cloudfen) (e : Env) : Cloudfen :=
  match s.state with
    | CState.idle => s.updateIdle dt playerPosition others e
    | CState.grazing => s.updateGrazing dt playerPosition e
    | CState.looking => s.updateLooking dt
    | CState.stretching => s.updateStretching dt
    | CState.resting => s.updateResting dt playerPosition e
    | CState.sleeping => s.updateSleeping dt playerPosition e
    | CState.social => s.updateSocial dt others e
    | CState.curious => s.updateCurious dt playerPosition e
    | CState.petted => s.updatePetted dt e
    | CState.bliss => s.updateBliss dt
    | CState.called => s.updateCalled
    | CState.fleeing => s.updateFleeing

/-- Per-frame tick `update` (`src/js/main.js:972-1035`): the input
`playerPosition` is the already-unwrapped `playerInfo?.position ||
playerInfo` (absent collaborator = `none`).  Runs the bookkeeping and
subsystem half, the per-state `switch`, physics and the moss-ball
interaction, in source order.  `_updateVisuals` (lines 1763-1961) and
`_updateSoftPhysics` write only presentation fields (mesh transform,
squash-stretch, wool spring, phases) and are the identity here. -/
def update (s : Cloudfen) (dt : ℝ) (playerPosition : Option Vec3)
    (others : List Cloudfen) (scene : Option Scene) (balls : Option (List Ball)) (e : Env) : Cloudfen :=
  let s : Cloudfen := s.updateCore dt playerPosition others e
  let s : Cloudfen := s.updateDispatch dt playerPosition others e
  let s : Cloudfen := s.applyPhysics others scene dt
  s.handleMossBallCollision balls

/-- Cross-creature effect of a peer's `_updateSocial` on this creature
(`src/js/main.js:1468-1472`): an idle creature adopted as a social partner is
itself put into `social` with the initiator (index `j`) recorded as its
partner.  The initiating code fires this only when this creature's state is
`idle`; that check is the guard here. -/
def socialPromote (s : Cloudfen) (j : ℕ) : Cloudfen :=
  if s.state = CState.idle then
    ({ s with socialTarget := some j }).setState CState.social
  else s

end Cloudfen

/-- Alphabet of single-creature events: one frame tick (`update` with its
collaborators and randomness), every public handler, and every deferred or
cross-creature mutation that can reach this creature — the body of the
`setTimeout` scheduled by `endPetting`, the body of the `setTimeout`
scheduled by `onCalled` (carrying the source position and the direction the
closure captured), a peer adopting this creature as a social partner, and a
peer-scheduled `_doRespondVocalize`. -/
inductive Ev where
  | update (dt : ℝ) (player : Option Vec3) (others : List Cloudfen)
      (scene : Option Scene) (balls : Option (List Ball)) (e : Env)
  | startPet (now : ℝ)
  | endPet (duration : ℝ)
  | endPetTimeout
  | stroke (dx dy speed now : ℝ)
  | hoverStart
  | hoverEnd
  | called (src : Vec3)
  | calledTimeout (src dir : Vec3) (r : ℝ)
  | socialPromote (j : ℕ)
  | respondVocalize

/-- Apply one event to a creature. -/
def Cloudfen.step (s : Cloudfen) : Ev → Cloudfen
  | Ev.update dt player others scene balls e => s.update dt player others scene balls e
  | Ev.startPet now => s.startPetting now
  | Ev.endPet duration => s.endPetting duration
  | Ev.endPetTimeout => s.endPettingTimeout
  | Ev.stroke dx dy speed now => s.onStroke dx dy speed now
  | Ev.hoverStart => s.onHoverStart
  | Ev.hoverEnd => s.onHoverEnd
  | Ev.called src => (s.onCalled src).1
  | Ev.calledTimeout src dir r => s.onCalledTimeout src dir r
  | Ev.socialPromote j => s.socialPromote j
  | Ev.respondVocalize => s.doRespondVocalize

/-- Apply a sequence of events in order. -/
def Cloudfen.run (s : Cloudfen) (evs : List Ev) : Cloudfen := evs.foldl Cloudfen.step s

/-- Well-formed events: a frame tick has a non-negative per-frame `dt`
bounded by one second and a valid random stream, and a stroke carries a
non-negative pointer speed. -/
def Ev.Valid : Ev → Prop
  | Ev.update dt _ _ _ _ e => 0 ≤ dt ∧ dt ≤ 1 ∧ e.Valid
  | Ev.stroke _ _ speed _ => 0 ≤ speed
  | _ => True

/-- The claimed invariant: happiness and the three mood scalars lie in
`[0, 1]`.  The final conjunct records the constructor guarantee
`friendliness ∈ [0.5, 1] ⊆ [0, ∞)` (`src/js/main.js:653`), which the stroke
bonus arithmetic relies on; `friendliness` is immutable. -/
def Cloudfen.MoodHapInv (s : Cloudfen) : Prop :=
  0 ≤ s.happiness ∧ s.happiness ≤ 1 ∧
  0 ≤ s.mood.contentment ∧ s.mood.contentment ≤ 1 ∧
  0 ≤ s.mood.alertness ∧ s.mood.alertness ≤ 1 ∧
  0 ≤ s.mood.playfulness ∧ s.mood.playfulness ≤ 1 ∧
  0 ≤ s.personality.friendliness

/-- A concrete creature with mid-range constructor values
(`src/js/main.js:568-731`), used to instantiate witnesses and
counterexamples. -/
def baseSheep : Cloudfen where
  position := ⟨0, 0, 0⟩
  velocity := ⟨0, 0, 0⟩
  targetPosition := none
  baseScale := 1
  state := CState.idle
  stateTimer := 0
  previousState := none
  wanderSpeed := 0.8
  approachSpeed := 1.5
  fleeSpeed := 4
  idleTimer := 0
  nextWanderTime := 1.5
  homePosition := ⟨0, 0, 0⟩
  grazingTimer := 0
  grazeHeadBob := 0
  grazeDuration := 0
  tiredness := 0.5
  sleepTimer := 0
  isLyingDown := false
  lyingDownProgress := 0
  lookTarget := none
  lookTimer := 0
  headTilt := 0
  socialTarget := none
  socialTimer := 0
  lastSocialTime := 0
  stretchProgress := 0
  stretchType := 0
  happiness := 0
  isPetted := false
  petDuration := 0
  lastStrokeTime := 0
  isHovered := false
  hoverTime := 0
  playerAwareness := 0
  fleeThreshold := 2.5
  comfortDistance := 4
  targetEyeOpenness := 1
  personality := ⟨0.5, 0.75, 0.55, 0.4, 0.45, 0.6⟩
  behaviorWeights := ⟨0.25, 0.30, 0.15, 0.05, 0.15, 0.10⟩
  attentionTarget := none
  attentionStrength := 0
  lastAttentionShift := 0
  earTwitchTimer := 10
  tailWagTimer := 10
  headShakeTimer := 10
  pawGroundTimer := 10
  sniffTimer := 10
  lastPlayerPosition := none
  lastSeenPlayerTime := 0
  favoriteSpot := none
  timesBeenPetted := 0
  mood := ⟨0.5, 0.4, 0.3⟩
  vocalizationTimer := 10
  isVocalizing := false
  earRotationLeft := 0
  earRotationRight := 0
  tailPosition := 0
  headShakeActive := false
  headShakeProgress := 0
  pawingGround := false
  pawProgress := 0
  isSniffing := false
  sniffProgress := 0
  meshPresent := true
  meshRotY := 0

/-- An environment whose every random draw is one half, with the clock at
zero and no live player velocity. -/
def envHalf : Env := ⟨fun _ => 1/2, 0, none⟩

/-- An environment whose every random draw is one half, with the clock at
zero and a player running along x at 4 units per second. -/
def envRun : Env := ⟨fun _ => 1/2, 0, some ⟨4, 0, 0⟩⟩

/-- A peer creature standing idle twelve units along x, used to exercise the
nearest-peer distance gate of the vocalize scheduling. -/
def peer12 : Cloudfen := { baseSheep with position := ⟨12, 0, 0⟩ }

/-- A petted creature with sustained high happiness, two seconds into the
state. -/
def petted9 : Cloudfen := { baseSheep with state := CState.petted, isPetted := true, happiness := 0.9, stateTimer := 2 }

/-- A sleeping creature. -/
def sleeper : Cloudfen := { baseSheep with state := CState.sleeping }

/-- A sleeping creature currently hovered by the pointer. -/
def sleeperHov : Cloudfen := { baseSheep with state := CState.sleeping, isHovered := true }

/-- A creature of maximal flightiness. -/
def flighty : Cloudfen := { baseSheep with personality := { baseSheep.personality with flightiness := 1 } }

/-- A peer creature deeply overlapping the base creature: one tenth of a
unit along x, far inside twice the sheep radius. -/
def peerNear : Cloudfen := { baseSheep with position := ⟨0.1, 0, 0⟩ }

/-! ## Vector lemmas -/

theorem Vec3.length_smul (k : ℝ) (v : Vec3) : (Vec3.smul k v).length = |k| * v.length := by
  simp only [Vec3.smul, Vec3.length]
  rw [show (k * v.x) ^ 2 + (k * v.y) ^ 2 + (k * v.z) ^ 2 = k ^ 2 * (v.x ^ 2 + v.y ^ 2 + v.z ^ 2) by ring,
    Real.sqrt_mul (sq_nonneg k), Real.sqrt_sq_eq_abs]

theorem Vec3.normalize_eq_smul (v : Vec3) : v.normalize = Vec3.smul (1 / v.length) v := by
  simp only [Vec3.normalize, Vec3.smul, Vec3.mk.injEq]
  refine ⟨by ring, by ring, by ring⟩

theorem Vec3.called_target_algebra (p src : Vec3) (L : ℝ) (hne : L ≠ 0)
    (hpy : p.y = 0) (hsy : src.y = 0) :
    Vec3.sub (Vec3.flat src) (Vec3.smul 4 (Vec3.smul (1 / L) (Vec3.sub src p))) =
    Vec3.add p (Vec3.smul ((L - 4) / L) (Vec3.sub src p)) := by
  simp only [Vec3.flat, Vec3.smul, Vec3.sub, Vec3.add, Vec3.mk.injEq, hpy, hsy]
  refine ⟨by field_simp; ring, by field_simp, by field_simp; ring⟩

theorem Vec3.called_target_diff (p src : Vec3) (L : ℝ) :
    Vec3.sub (Vec3.add p (Vec3.smul ((L - 4) / L) (Vec3.sub src p))) src =
    Vec3.smul ((L - 4) / L - 1) (Vec3.sub src p) := by
  simp only [Vec3.add, Vec3.smul, Vec3.sub, Vec3.mk.injEq]
  refine ⟨by ring, by ring, by ring⟩

/-! ## Small-step lemmas about `setState` and the cosmetic helpers -/

namespace Cloudfen

theorem setState_state (s : Cloudfen) (n : CState) : (s.setState n).state = n := by
  delta setState; split <;> simp_all

theorem setState_comfortDistance (s : Cloudfen) (n : CState) :
    (s.setState n).comfortDistance = s.comfortDistance := by
  delta setState; split <;> rfl

theorem setState_mood (s : Cloudfen) (n : CState) : (s.setState n).mood = s.mood := by
  delta setState; split <;> rfl

theorem setState_happiness (s : Cloudfen) (n : CState) : (s.setState n).happiness = s.happiness := by
  delta setState; split <;> rfl

theorem standUp_state (s : Cloudfen) : s.standUp.state = s.state := rfl

theorem doBlink_state (s : Cloudfen) : s.doBlink.state = s.state := rfl

/-! ## State preservation through the non-dispatch subsystems -/

theorem updateMicroBehaviors_state (s : Cloudfen) (dt : ℝ) (e : Env) :
    (s.updateMicroBehaviors dt e).state = s.state := by
  (delta updateMicroBehaviors doEarTwitch doTailWag doHeadShake doPawGround doSniff doVocalizeFlag; simp only [apply_ite Cloudfen.state, ite_self])

theorem updateMood_state (s : Cloudfen) (dt : ℝ) (p : Option Vec3) :
    (s.updateMood dt p).state = s.state := by
  delta updateMood; rcases p with _ | pp <;> rfl

theorem shiftAttention_state (s : Cloudfen) (p : Option Vec3) (o : List Cloudfen) (e : Env) :
    (s.shiftAttention p o e).state = s.state := by
  delta shiftAttention; dsimp only; repeat' split
  all_goals rfl

theorem updateAttention_state (s : Cloudfen) (dt : ℝ) (p : Option Vec3) (o : List Cloudfen) (e : Env) :
    (s.updateAttention dt p o e).state = s.state := by
  delta updateAttention; dsimp only; repeat' split
  all_goals simp [shiftAttention_state]

theorem pickLookTarget_state (s : Cloudfen) (p : Option Vec3) (o : List Cloudfen) (e : Env) :
    (s.pickLookTarget p o e).state = s.state := by
  delta pickLookTarget; dsimp only; repeat' split
  all_goals rfl

theorem chooseWanderTarget_state (s : Cloudfen) (o : List Cloudfen) (e : Env) :
    (s.chooseWanderTarget o e).state = s.state := by
  delta chooseWanderTarget; dsimp only; repeat' split
  all_goals rfl

theorem collideSheep_state (r : ℝ) (s o : Cloudfen) : (collideSheep r s o).state = s.state := by
  delta collideSheep; dsimp only; split <;> rfl

theorem collideSheepList_state (r : ℝ) (s : Cloudfen) (l : List Cloudfen) :
    (collideSheepList r s l).state = s.state := by
  induction l generalizing s with
  | nil => rfl
  | cons hd tl ih => rw [collideSheepList, ih, collideSheep_state]

theorem applyPhysics_state (s : Cloudfen) (o : List Cloudfen) (sc : Option Scene) (dt : ℝ) :
    (s.applyPhysics o sc dt).state = s.state := by
  delta applyPhysics; dsimp only; repeat' split
  all_goals simp [collideSheepList_state]

theorem collideBall_state (r : ℝ) (s : Cloudfen) (b : Ball) : (collideBall r s b).state = s.state := by
  delta collideBall; dsimp only; repeat' split
  all_goals rfl

theorem collideBallList_state (r : ℝ) (s : Cloudfen) (l : List Ball) :
    (collideBallList r s l).state = s.state := by
  induction l generalizing s with
  | nil => rfl
  | cons hd tl ih => rw [collideBallList, ih, collideBall_state]

theorem handleMossBallCollision_state (s : Cloudfen) (b : Option (List Ball)) :
    (s.handleMossBallCollision b).state = s.state := by
  delta handleMossBallCollision; rcases b with _ | bs
  · rfl
  · dsimp only; rw [collideBallList_state]

theorem updatePlayerAwareness_state_or (s : Cloudfen) (dt : ℝ) (p : Option Vec3) (e : Env) :
    (s.updatePlayerAwareness dt p e).state = s.state ∨
    (s.updatePlayerAwareness dt p e).state = CState.fleeing := by
  delta updatePlayerAwareness; rcases p with _ | pp
  · exact Or.inl rfl
  · dsimp only; repeat' split
    all_goals first
      | exact Or.inl rfl
      | (right; rw [setState_state])

theorem updatePlayerAwareness_state_skip (s : Cloudfen) (dt : ℝ) (p : Option Vec3) (e : Env)
    (h : s.state = CState.petted ∨ s.state = CState.bliss ∨ s.state = CState.sleeping) :
    (s.updatePlayerAwareness dt p e).state = s.state := by
  delta updatePlayerAwareness; rcases p with _ | pp
  · rfl
  · dsimp only
    have hc : ¬ ((Vec3.flat (Vec3.sub pp s.position)).length < s.fleeThreshold ∧
        (3 < match e.playerVel with
          | some v => Real.sqrt (v.x ^ 2 + v.z ^ 2)
          | none => (0:ℝ)) ∧
        s.state ≠ CState.petted ∧ s.state ≠ CState.bliss ∧ s.state ≠ CState.sleeping) := by
      rcases h with h | h | h <;> simp [h]
    rw [if_neg hc]
    split <;> rfl

end Cloudfen

/-! ## The dispatch routines never enter `petted` on their own -/

namespace Cloudfen

theorem chooseNextBehavior_not_petted (s : Cloudfen) (p : Option Vec3) (o : List Cloudfen) (e : Env)
    (h : s.state ≠ CState.petted) : (s.chooseNextBehavior p o e).state ≠ CState.petted := by
  rcases hn : s.findNearestSheep o with _ | ⟨i, pr, d⟩ <;> rcases p with _ | pp <;>
    (delta chooseNextBehavior; simp only [hn, ne_eq, apply_ite Cloudfen.state, setState_state, chooseWanderTarget_state, pickLookTarget_state, ite_eq_iff, h, reduceCtorEq, and_false, false_and, false_or, or_false, or_self, not_false_eq_true, ite_self])

theorem updateIdle_not_petted (s : Cloudfen) (dt : ℝ) (p : Option Vec3) (o : List Cloudfen) (e : Env)
    (h : s.state ≠ CState.petted) : (s.updateIdle dt p o e).state ≠ CState.petted := by
  have hcnb : ∀ (s2 : Cloudfen), s2.state = s.state →
      (s2.chooseNextBehavior p o e).state ≠ CState.petted := by
    intro s2 h2
    exact chooseNextBehavior_not_petted s2 p o e (h2 ▸ h)
  rcases p with _ | pp <;>
    (delta updateIdle; dsimp only; repeat' split) <;>
    first
      | (rw [setState_state]; decide)
      | exact h
      | exact hcnb _ rfl
      | (simp only [ne_eq, apply_ite Cloudfen.state, setState_state, doBlink_state,
          pickLookTarget_state, ite_eq_iff, h, reduceCtorEq, and_false, false_and, false_or,
          or_false, or_self, not_false_eq_true, ite_self])

theorem updateGrazing_not_petted (s : Cloudfen) (dt : ℝ) (p : Option Vec3) (e : Env)
    (h : s.state ≠ CState.petted) : (s.updateGrazing dt p e).state ≠ CState.petted := by
  rcases p with _ | pp <;>
    (delta updateGrazing; simp only [doBlink_state, ne_eq, apply_ite Cloudfen.state, setState_state, ite_eq_iff, h, reduceCtorEq, and_false, false_and, false_or, or_false, or_self, not_false_eq_true, ite_self])

theorem updateLooking_not_petted (s : Cloudfen) (dt : ℝ)
    (h : s.state ≠ CState.petted) : (s.updateLooking dt).state ≠ CState.petted := by
  (delta updateLooking; simp only [ne_eq, apply_ite Cloudfen.state, setState_state, ite_eq_iff, h, reduceCtorEq, and_false, false_and, false_or, or_false, or_self, not_false_eq_true, ite_self])

theorem updateStretching_not_petted (s : Cloudfen) (dt : ℝ)
    (h : s.state ≠ CState.petted) : (s.updateStretching dt).state ≠ CState.petted := by
  (delta updateStretching; simp only [ne_eq, apply_ite Cloudfen.state, setState_state, ite_eq_iff, h, reduceCtorEq, and_false, false_and, false_or, or_false, or_self, not_false_eq_true, ite_self])

theorem updateResting_not_petted (s : Cloudfen) (dt : ℝ) (p : Option Vec3) (e : Env)
    (h : s.state ≠ CState.petted) : (s.updateResting dt p e).state ≠ CState.petted := by
  rcases p with _ | pp <;>
    (delta updateResting; simp only [doBlink_state, standUp_state, ne_eq, apply_ite Cloudfen.state, setState_state, ite_eq_iff, h, reduceCtorEq, and_false, false_and, false_or, or_false, or_self, not_false_eq_true, ite_self])

theorem updateSleeping_not_petted (s : Cloudfen) (dt : ℝ) (p : Option Vec3) (e : Env)
    (h : s.state ≠ CState.petted) : (s.updateSleeping dt p e).state ≠ CState.petted := by
  rcases p with _ | pp <;>
    (delta updateSleeping; simp only [standUp_state, ne_eq, apply_ite Cloudfen.state, setState_state, ite_eq_iff, h, reduceCtorEq, and_false, false_and, false_or, or_false, or_self, not_false_eq_true, ite_self])

theorem updateSocial_not_petted (s : Cloudfen) (dt : ℝ) (o : List Cloudfen) (e : Env)
    (h : s.state ≠ CState.petted) : (s.updateSocial dt o e).state ≠ CState.petted := by
  rcases hso : s.socialTarget with _ | i
  · (delta updateSocial; simp only [hso, ne_eq, apply_ite Cloudfen.state, setState_state, ite_eq_iff, h, reduceCtorEq, and_false, false_and, false_or, or_false, or_self, not_false_eq_true, ite_self])
  · rcases hg : o.get? i with _ | peer <;>
      (delta updateSocial doVocalizeFlag doSniff; simp only [hso, hg, ne_eq, apply_ite Cloudfen.state, setState_state, ite_eq_iff, h, reduceCtorEq, and_false, false_and, false_or, or_false, or_self, not_false_eq_true, ite_self])

theorem updateCurious_not_petted (s : Cloudfen) (dt : ℝ) (p : Option Vec3) (e : Env)
    (h : s.state ≠ CState.petted) : (s.updateCurious dt p e).state ≠ CState.petted := by
  rcases p with _ | pp <;>
    (delta updateCurious doPawGround doVocalizeFlag; simp only [ne_eq, apply_ite Cloudfen.state, setState_state, ite_eq_iff, h, reduceCtorEq, and_false, false_and, false_or, or_false, or_self, not_false_eq_true, ite_self])

theorem updatePetted_state_or (s : Cloudfen) (dt : ℝ) (e : Env) :
    (s.updatePetted dt e).state = s.state ∨ (s.updatePetted dt e).state = CState.bliss := by
  delta updatePetted; dsimp only; repeat' split
  all_goals first
    | exact Or.inl rfl
    | (right; rw [setState_state])

theorem updateBliss_state_or (s : Cloudfen) (dt : ℝ) :
    (s.updateBliss dt).state = s.state ∨ (s.updateBliss dt).state = CState.idle := by
  delta updateBliss; dsimp only; repeat' split
  all_goals first
    | exact Or.inl rfl
    | (right; rw [setState_state])

theorem updateCalled_not_petted (s : Cloudfen)
    (h : s.state ≠ CState.petted) : s.updateCalled.state ≠ CState.petted := by
  delta updateCalled; dsimp only; repeat' split
  all_goals first
    | (rw [setState_state]; decide)
    | exact h

theorem updateFleeing_not_petted (s : Cloudfen)
    (h : s.state ≠ CState.petted) : s.updateFleeing.state ≠ CState.petted := by
  delta updateFleeing; dsimp only; repeat' split
  all_goals first
    | (rw [setState_state]; decide)
    | exact h

end Cloudfen

/-! ## Update-level state composition -/

namespace Cloudfen

theorem updateCore_state_or (s : Cloudfen) (dt : ℝ) (p : Option Vec3) (o : List Cloudfen) (e : Env) :
    (s.updateCore dt p o e).state = s.state ∨ (s.updateCore dt p o e).state = CState.fleeing := by
  delta updateCore; dsimp only
  simp only [apply_ite Cloudfen.state, ite_self, updateAttention_state, updateMood_state,
    updateMicroBehaviors_state]
  refine (updatePlayerAwareness_state_or _ dt p e).imp (fun hx => ?_) (fun hx => hx)
  rw [hx]
  simp only [apply_ite Cloudfen.state, ite_self]

theorem updateCore_state_skip (s : Cloudfen) (dt : ℝ) (p : Option Vec3) (o : List Cloudfen) (e : Env)
    (h : s.state = CState.petted ∨ s.state = CState.bliss ∨ s.state = CState.sleeping) :
    (s.updateCore dt p o e).state = s.state := by
  delta updateCore; dsimp only
  simp only [apply_ite Cloudfen.state, ite_self, updateAttention_state, updateMood_state,
    updateMicroBehaviors_state]
  rw [updatePlayerAwareness_state_skip _ dt p e (by
    simp only [apply_ite Cloudfen.state, ite_self]
    exact h)]
  simp only [apply_ite Cloudfen.state, ite_self]

theorem updateDispatch_not_petted (s : Cloudfen) (dt : ℝ) (p : Option Vec3) (o : List Cloudfen)
    (e : Env) (h : s.state ≠ CState.petted) :
    (s.updateDispatch dt p o e).state ≠ CState.petted := by
  rcases hs : s.state
  case petted => exact absurd hs h
  all_goals (delta updateDispatch; simp only [hs])
  case idle => exact updateIdle_not_petted _ _ _ _ _ h
  case grazing => exact updateGrazing_not_petted _ _ _ _ h
  case looking => exact updateLooking_not_petted _ _ h
  case stretching => exact updateStretching_not_petted _ _ h
  case resting => exact updateResting_not_petted _ _ _ _ h
  case sleeping => exact updateSleeping_not_petted _ _ _ _ h
  case social => exact updateSocial_not_petted _ _ _ _ h
  case curious => exact updateCurious_not_petted _ _ _ _ h
  case bliss =>
    rcases updateBliss_state_or s dt with hb | hb <;> rw [hb]
    · exact h
    · decide
  case called => exact updateCalled_not_petted _ h
  case fleeing => exact updateFleeing_not_petted _ h

theorem updateDispatch_of_petted (s : Cloudfen) (dt : ℝ) (p : Option Vec3) (o : List Cloudfen)
    (e : Env) (hs : s.state = CState.petted) :
    (s.updateDispatch dt p o e).state = CState.petted ∨
    (s.updateDispatch dt p o e).state = CState.bliss := by
  (delta updateDispatch; simp only [hs])
  rcases updatePetted_state_or s dt e with hb | hb <;> rw [hb]
  · exact Or.inl hs
  · exact Or.inr rfl

theorem updateDispatch_of_bliss (s : Cloudfen) (dt : ℝ) (p : Option Vec3) (o : List Cloudfen)
    (e : Env) (hs : s.state = CState.bliss) :
    (s.updateDispatch dt p o e).state = CState.bliss ∨
    (s.updateDispatch dt p o e).state = CState.idle := by
  (delta updateDispatch; simp only [hs])
  rcases updateBliss_state_or s dt with hb | hb <;> rw [hb]
  · exact Or.inl hs
  · exact Or.inr rfl

theorem update_not_petted (s : Cloudfen) (dt : ℝ) (p : Option Vec3) (o : List Cloudfen)
    (sc : Option Scene) (b : Option (List Ball)) (e : Env) (h : s.state ≠ CState.petted) :
    (s.update dt p o sc b e).state ≠ CState.petted := by
  delta update; dsimp only
  rw [handleMossBallCollision_state, applyPhysics_state]
  apply updateDispatch_not_petted
  rcases updateCore_state_or s dt p o e with hc | hc <;> rw [hc]
  · exact h
  · decide

theorem update_of_petted (s : Cloudfen) (dt : ℝ) (p : Option Vec3) (o : List Cloudfen)
    (sc : Option Scene) (b : Option (List Ball)) (e : Env) (hs : s.state = CState.petted) :
    (s.update dt p o sc b e).state = CState.petted ∨
    (s.update dt p o sc b e).state = CState.bliss := by
  delta update; dsimp only
  rw [handleMossBallCollision_state, applyPhysics_state]
  exact updateDispatch_of_petted _ dt p o e
    ((updateCore_state_skip s dt p o e (Or.inl hs)).trans hs)

theorem update_of_bliss (s : Cloudfen) (dt : ℝ) (p : Option Vec3) (o : List Cloudfen)
    (sc : Option Scene) (b : Option (List Ball)) (e : Env) (hs : s.state = CState.bliss) :
    (s.update dt p o sc b e).state = CState.bliss ∨
    (s.update dt p o sc b e).state = CState.idle := by
  delta update; dsimp only
  rw [handleMossBallCollision_state, applyPhysics_state]
  exact updateDispatch_of_bliss _ dt p o e
    ((updateCore_state_skip s dt p o e (Or.inr (Or.inl hs))).trans hs)

/-! ## State effects of the public handlers and deferred callbacks -/

theorem endPetting_state (s : Cloudfen) (d : ℝ) : (s.endPetting d).state = s.state := by
  delta endPetting; dsimp only; split <;> rfl

theorem endPettingTimeout_state_or (s : Cloudfen) :
    s.endPettingTimeout.state = s.state ∨ s.endPettingTimeout.state = CState.idle := by
  delta endPettingTimeout; split
  · exact Or.inr (setState_state _ _)
  · exact Or.inl rfl

theorem onStroke_state (s : Cloudfen) (dx dy speed now : ℝ) :
    (s.onStroke dx dy speed now).state = s.state := by
  delta onStroke; dsimp only; split <;> rfl

theorem onHoverStart_state (s : Cloudfen) : s.onHoverStart.state = s.state := by
  delta onHoverStart; split <;> rfl

theorem onHoverEnd_state (s : Cloudfen) : s.onHoverEnd.state = s.state := rfl

theorem onCalled_fst_state (s : Cloudfen) (src : Vec3) : (s.onCalled src).1.state = s.state := by
  delta onCalled; dsimp only; repeat' split
  all_goals rfl

theorem onCalledTimeout_state_or (s : Cloudfen) (src dir : Vec3) (r : ℝ) :
    (s.onCalledTimeout src dir r).state = CState.called ∨
    (s.onCalledTimeout src dir r).state = CState.curious := by
  delta onCalledTimeout; dsimp only; split
  · exact Or.inl (setState_state _ _)
  · exact Or.inr (setState_state _ _)

theorem socialPromote_state_of_ne (s : Cloudfen) (j : ℕ) (h : s.state ≠ CState.idle) :
    (s.socialPromote j).state = s.state := by
  delta socialPromote; rw [if_neg h]

theorem doRespondVocalize_state (s : Cloudfen) : s.doRespondVocalize.state = s.state := by
  delta doRespondVocalize; split <;> rfl

theorem startPetting_state_of_petted (s : Cloudfen) (now : ℝ) (hs : s.state = CState.petted) :
    (s.startPetting now).state = CState.petted := by
  delta startPetting; dsimp only
  rw [if_pos (by rw [hs]; decide)]
  rw [setState_state]

theorem startPetting_state_of_bliss (s : Cloudfen) (now : ℝ) (hs : s.state = CState.bliss) :
    (s.startPetting now).state = CState.bliss := by
  delta startPetting; dsimp only
  rw [if_neg (by rw [hs]; simp)]
  exact hs

end Cloudfen

/-! ## Field preservation through the non-dispatch subsystems.  Each lemma
records that the subsystem leaves the named field untouched (the subsystems
write only their own fields; see the subsystem definitions). -/

namespace Cloudfen

theorem updateMicroBehaviors_stateTimer (s : Cloudfen) (dt : ℝ) (e : Env) :
    (s.updateMicroBehaviors dt e).stateTimer = s.stateTimer := by
  (delta updateMicroBehaviors doEarTwitch doTailWag doHeadShake doPawGround doSniff doVocalizeFlag; simp only [apply_ite Cloudfen.stateTimer, ite_self])

theorem updateMicroBehaviors_happiness (s : Cloudfen) (dt : ℝ) (e : Env) :
    (s.updateMicroBehaviors dt e).happiness = s.happiness := by
  (delta updateMicroBehaviors doEarTwitch doTailWag doHeadShake doPawGround doSniff doVocalizeFlag; simp only [apply_ite Cloudfen.happiness, ite_self])

theorem updateMicroBehaviors_isPetted (s : Cloudfen) (dt : ℝ) (e : Env) :
    (s.updateMicroBehaviors dt e).isPetted = s.isPetted := by
  (delta updateMicroBehaviors doEarTwitch doTailWag doHeadShake doPawGround doSniff doVocalizeFlag; simp only [apply_ite Cloudfen.isPetted, ite_self])

theorem updateMicroBehaviors_position (s : Cloudfen) (dt : ℝ) (e : Env) :
    (s.updateMicroBehaviors dt e).position = s.position := by
  (delta updateMicroBehaviors doEarTwitch doTailWag doHeadShake doPawGround doSniff doVocalizeFlag; simp only [apply_ite Cloudfen.position, ite_self])

theorem updateMicroBehaviors_targetPosition (s : Cloudfen) (dt : ℝ) (e : Env) :
    (s.updateMicroBehaviors dt e).targetPosition = s.targetPosition := by
  (delta updateMicroBehaviors doEarTwitch doTailWag doHeadShake doPawGround doSniff doVocalizeFlag; simp only [apply_ite Cloudfen.targetPosition, ite_self])

theorem updateMicroBehaviors_sleepTimer (s : Cloudfen) (dt : ℝ) (e : Env) :
    (s.updateMicroBehaviors dt e).sleepTimer = s.sleepTimer := by
  (delta updateMicroBehaviors doEarTwitch doTailWag doHeadShake doPawGround doSniff doVocalizeFlag; simp only [apply_ite Cloudfen.sleepTimer, ite_self])

theorem updateMicroBehaviors_isHovered (s : Cloudfen) (dt : ℝ) (e : Env) :
    (s.updateMicroBehaviors dt e).isHovered = s.isHovered := by
  (delta updateMicroBehaviors doEarTwitch doTailWag doHeadShake doPawGround doSniff doVocalizeFlag; simp only [apply_ite Cloudfen.isHovered, ite_self])

theorem updateMicroBehaviors_playerAwareness (s : Cloudfen) (dt : ℝ) (e : Env) :
    (s.updateMicroBehaviors dt e).playerAwareness = s.playerAwareness := by
  (delta updateMicroBehaviors doEarTwitch doTailWag doHeadShake doPawGround doSniff doVocalizeFlag; simp only [apply_ite Cloudfen.playerAwareness, ite_self])

theorem updateMicroBehaviors_mood (s : Cloudfen) (dt : ℝ) (e : Env) :
    (s.updateMicroBehaviors dt e).mood = s.mood := by
  (delta updateMicroBehaviors doEarTwitch doTailWag doHeadShake doPawGround doSniff doVocalizeFlag; simp only [apply_ite Cloudfen.mood, ite_self])

theorem updateMicroBehaviors_personality (s : Cloudfen) (dt : ℝ) (e : Env) :
    (s.updateMicroBehaviors dt e).personality = s.personality := by
  (delta updateMicroBehaviors doEarTwitch doTailWag doHeadShake doPawGround doSniff doVocalizeFlag; simp only [apply_ite Cloudfen.personality, ite_self])

theorem updateMicroBehaviors_lastPlayerPosition (s : Cloudfen) (dt : ℝ) (e : Env) :
    (s.updateMicroBehaviors dt e).lastPlayerPosition = s.lastPlayerPosition := by
  (delta updateMicroBehaviors doEarTwitch doTailWag doHeadShake doPawGround doSniff doVocalizeFlag; simp only [apply_ite Cloudfen.lastPlayerPosition, ite_self])

theorem updateMicroBehaviors_lastSeenPlayerTime (s : Cloudfen) (dt : ℝ) (e : Env) :
    (s.updateMicroBehaviors dt e).lastSeenPlayerTime = s.lastSeenPlayerTime := by
  (delta updateMicroBehaviors doEarTwitch doTailWag doHeadShake doPawGround doSniff doVocalizeFlag; simp only [apply_ite Cloudfen.lastSeenPlayerTime, ite_self])

theorem updateMood_stateTimer (s : Cloudfen) (dt : ℝ) (p : Option Vec3) :
    (s.updateMood dt p).stateTimer = s.stateTimer := by
  delta updateMood; rcases p with _ | pp <;> rfl

theorem updateMood_happiness (s : Cloudfen) (dt : ℝ) (p : Option Vec3) :
    (s.updateMood dt p).happiness = s.happiness := by
  delta updateMood; rcases p with _ | pp <;> rfl

theorem updateMood_isPetted (s : Cloudfen) (dt : ℝ) (p : Option Vec3) :
    (s.updateMood dt p).isPetted = s.isPetted := by
  delta updateMood; rcases p with _ | pp <;> rfl

theorem updateMood_position (s : Cloudfen) (dt : ℝ) (p : Option Vec3) :
    (s.updateMood dt p).position = s.position := by
  delta updateMood; rcases p with _ | pp <;> rfl

theorem updateMood_targetPosition (s : Cloudfen) (dt : ℝ) (p : Option Vec3) :
    (s.updateMood dt p).targetPosition = s.targetPosition := by
  delta updateMood; rcases p with _ | pp <;> rfl

theorem updateMood_sleepTimer (s : Cloudfen) (dt : ℝ) (p : Option Vec3) :
    (s.updateMood dt p).sleepTimer = s.sleepTimer := by
  delta updateMood; rcases p with _ | pp <;> rfl

theorem updateMood_isHovered (s : Cloudfen) (dt : ℝ) (p : Option Vec3) :
    (s.updateMood dt p).isHovered = s.isHovered := by
  delta updateMood; rcases p with _ | pp <;> rfl

theorem updateMood_playerAwareness (s : Cloudfen) (dt : ℝ) (p : Option Vec3) :
    (s.updateMood dt p).playerAwareness = s.playerAwareness := by
  delta updateMood; rcases p with _ | pp <;> rfl

theorem updateMood_personality (s : Cloudfen) (dt : ℝ) (p : Option Vec3) :
    (s.updateMood dt p).personality = s.personality := by
  delta updateMood; rcases p with _ | pp <;> rfl

theorem updateMood_lastPlayerPosition (s : Cloudfen) (dt : ℝ) (p : Option Vec3) :
    (s.updateMood dt p).lastPlayerPosition = s.lastPlayerPosition := by
  delta updateMood; rcases p with _ | pp <;> rfl

theorem updateMood_lastSeenPlayerTime (s : Cloudfen) (dt : ℝ) (p : Option Vec3) :
    (s.updateMood dt p).lastSeenPlayerTime = s.lastSeenPlayerTime := by
  delta updateMood; rcases p with _ | pp <;> rfl

theorem updateMood_alertness_none (s : Cloudfen) (dt : ℝ) :
    (s.updateMood dt none).mood.alertness = s.mood.alertness := rfl

theorem shiftAttention_stateTimer (s : Cloudfen) (p : Option Vec3) (o : List Cloudfen) (e : Env) :
    (s.shiftAttention p o e).stateTimer = s.stateTimer := by
  rcases hn : s.findNearestSheep o with _ | ⟨i, pr, d⟩ <;>
    (delta shiftAttention; simp only [hn, apply_ite Cloudfen.stateTimer, ite_self])

theorem shiftAttention_happiness (s : Cloudfen) (p : Option Vec3) (o : List Cloudfen) (e : Env) :
    (s.shiftAttention p o e).happiness = s.happiness := by
  rcases hn : s.findNearestSheep o with _ | ⟨i, pr, d⟩ <;>
    (delta shiftAttention; simp only [hn, apply_ite Cloudfen.happiness, ite_self])

theorem shiftAttention_isPetted (s : Cloudfen) (p : Option Vec3) (o : List Cloudfen) (e : Env) :
    (s.shiftAttention p o e).isPetted = s.isPetted := by
  rcases hn : s.findNearestSheep o with _ | ⟨i, pr, d⟩ <;>
    (delta shiftAttention; simp only [hn, apply_ite Cloudfen.isPetted, ite_self])

theorem shiftAttention_position (s : Cloudfen) (p : Option Vec3) (o : List Cloudfen) (e : Env) :
    (s.shiftAttention p o e).position = s.position := by
  rcases hn : s.findNearestSheep o with _ | ⟨i, pr, d⟩ <;>
    (delta shiftAttention; simp only [hn, apply_ite Cloudfen.position, ite_self])

theorem shiftAttention_targetPosition (s : Cloudfen) (p : Option Vec3) (o : List Cloudfen) (e : Env) :
    (s.shiftAttention p o e).targetPosition = s.targetPosition := by
  rcases hn : s.findNearestSheep o with _ | ⟨i, pr, d⟩ <;>
    (delta shiftAttention; simp only [hn, apply_ite Cloudfen.targetPosition, ite_self])

theorem shiftAttention_sleepTimer (s : Cloudfen) (p : Option Vec3) (o : List Cloudfen) (e : Env) :
    (s.shiftAttention p o e).sleepTimer = s.sleepTimer := by
  rcases hn : s.findNearestSheep o with _ | ⟨i, pr, d⟩ <;>
    (delta shiftAttention; simp only [hn, apply_ite Cloudfen.sleepTimer, ite_self])

theorem shiftAttention_isHovered (s : Cloudfen) (p : Option Vec3) (o : List Cloudfen) (e : Env) :
    (s.shiftAttention p o e).isHovered = s.isHovered := by
  rcases hn : s.findNearestSheep o with _ | ⟨i, pr, d⟩ <;>
    (delta shiftAttention; simp only [hn, apply_ite Cloudfen.isHovered, ite_self])

theorem shiftAttention_playerAwareness (s : Cloudfen) (p : Option Vec3) (o : List Cloudfen) (e : Env) :
    (s.shiftAttention p o e).playerAwareness = s.playerAwareness := by
  rcases hn : s.findNearestSheep o with _ | ⟨i, pr, d⟩ <;>
    (delta shiftAttention; simp only [hn, apply_ite Cloudfen.playerAwareness, ite_self])

theorem shiftAttention_mood (s : Cloudfen) (p : Option Vec3) (o : List Cloudfen) (e : Env) :
    (s.shiftAttention p o e).mood = s.mood := by
  rcases hn : s.findNearestSheep o with _ | ⟨i, pr, d⟩ <;>
    (delta shiftAttention; simp only [hn, apply_ite Cloudfen.mood, ite_self])

theorem shiftAttention_personality (s : Cloudfen) (p : Option Vec3) (o : List Cloudfen) (e : Env) :
    (s.shiftAttention p o e).personality = s.personality := by
  rcases hn : s.findNearestSheep o with _ | ⟨i, pr, d⟩ <;>
    (delta shiftAttention; simp only [hn, apply_ite Cloudfen.personality, ite_self])

theorem shiftAttention_lastPlayerPosition (s : Cloudfen) (p : Option Vec3) (o : List Cloudfen) (e : Env) :
    (s.shiftAttention p o e).lastPlayerPosition = s.lastPlayerPosition := by
  rcases hn : s.findNearestSheep o with _ | ⟨i, pr, d⟩ <;>
    (delta shiftAttention; simp only [hn, apply_ite Cloudfen.lastPlayerPosition, ite_self])

theorem shiftAttention_lastSeenPlayerTime (s : Cloudfen) (p : Option Vec3) (o : List Cloudfen) (e : Env) :
    (s.shiftAttention p o e).lastSeenPlayerTime = s.lastSeenPlayerTime := by
  rcases hn : s.findNearestSheep o with _ | ⟨i, pr, d⟩ <;>
    (delta shiftAttention; simp only [hn, apply_ite Cloudfen.lastSeenPlayerTime, ite_self])

theorem shiftAttention_favoriteSpot (s : Cloudfen) (p : Option Vec3) (o : List Cloudfen) (e : Env) :
    (s.shiftAttention p o e).favoriteSpot = s.favoriteSpot := by
  rcases hn : s.findNearestSheep o with _ | ⟨i, pr, d⟩ <;>
    (delta shiftAttention; simp only [hn, apply_ite Cloudfen.favoriteSpot, ite_self])

theorem updateAttention_stateTimer (s : Cloudfen) (dt : ℝ) (p : Option Vec3) (o : List Cloudfen) (e : Env) :
    (s.updateAttention dt p o e).stateTimer = s.stateTimer := by
  rcases p with _ | pp <;> rcases hfv : s.favoriteSpot with _ | fv <;>
    (delta updateAttention; simp only [apply_ite Cloudfen.stateTimer, apply_ite Cloudfen.favoriteSpot, shiftAttention_stateTimer, shiftAttention_favoriteSpot, ite_self, hfv])

theorem updateAttention_happiness (s : Cloudfen) (dt : ℝ) (p : Option Vec3) (o : List Cloudfen) (e : Env) :
    (s.updateAttention dt p o e).happiness = s.happiness := by
  rcases p with _ | pp <;> rcases hfv : s.favoriteSpot with _ | fv <;>
    (delta updateAttention; simp only [apply_ite Cloudfen.happiness, apply_ite Cloudfen.favoriteSpot, shiftAttention_happiness, shiftAttention_favoriteSpot, ite_self, hfv])

theorem updateAttention_isPetted (s : Cloudfen) (dt : ℝ) (p : Option Vec3) (o : List Cloudfen) (e : Env) :
    (s.updateAttention dt p o e).isPetted = s.isPetted := by
  rcases p with _ | pp <;> rcases hfv : s.favoriteSpot with _ | fv <;>
    (delta updateAttention; simp only [apply_ite Cloudfen.isPetted, apply_ite Cloudfen.favoriteSpot, shiftAttention_isPetted, shiftAttention_favoriteSpot, ite_self, hfv])

theorem updateAttention_position (s : Cloudfen) (dt : ℝ) (p : Option Vec3) (o : List Cloudfen) (e : Env) :
    (s.updateAttention dt p o e).position = s.position := by
  rcases p with _ | pp <;> rcases hfv : s.favoriteSpot with _ | fv <;>
    (delta updateAttention; simp only [apply_ite Cloudfen.position, apply_ite Cloudfen.favoriteSpot, shiftAttention_position, shiftAttention_favoriteSpot, ite_self, hfv])

theorem updateAttention_targetPosition (s : Cloudfen) (dt : ℝ) (p : Option Vec3) (o : List Cloudfen) (e : Env) :
    (s.updateAttention dt p o e).targetPosition = s.targetPosition := by
  rcases p with _ | pp <;> rcases hfv : s.favoriteSpot with _ | fv <;>
    (delta updateAttention; simp only [apply_ite Cloudfen.targetPosition, apply_ite Cloudfen.favoriteSpot, shiftAttention_targetPosition, shiftAttention_favoriteSpot, ite_self, hfv])

theorem updateAttention_sleepTimer (s : Cloudfen) (dt : ℝ) (p : Option Vec3) (o : List Cloudfen) (e : Env) :
    (s.updateAttention dt p o e).sleepTimer = s.sleepTimer := by
  rcases p with _ | pp <;> rcases hfv : s.favoriteSpot with _ | fv <;>
    (delta updateAttention; simp only [apply_ite Cloudfen.sleepTimer, apply_ite Cloudfen.favoriteSpot, shiftAttention_sleepTimer, shiftAttention_favoriteSpot, ite_self, hfv])

theorem updateAttention_isHovered (s : Cloudfen) (dt : ℝ) (p : Option Vec3) (o : List Cloudfen) (e : Env) :
    (s.updateAttention dt p o e).isHovered = s.isHovered := by
  rcases p with _ | pp <;> rcases hfv : s.favoriteSpot with _ | fv <;>
    (delta updateAttention; simp only [apply_ite Cloudfen.isHovered, apply_ite Cloudfen.favoriteSpot, shiftAttention_isHovered, shiftAttention_favoriteSpot, ite_self, hfv])

theorem updateAttention_playerAwareness (s : Cloudfen) (dt : ℝ) (p : Option Vec3) (o : List Cloudfen) (e : Env) :
    (s.updateAttention dt p o e).playerAwareness = s.playerAwareness := by
  rcases p with _ | pp <;> rcases hfv : s.favoriteSpot with _ | fv <;>
    (delta updateAttention; simp only [apply_ite Cloudfen.playerAwareness, apply_ite Cloudfen.favoriteSpot, shiftAttention_playerAwareness, shiftAttention_favoriteSpot, ite_self, hfv])

theorem updateAttention_mood (s : Cloudfen) (dt : ℝ) (p : Option Vec3) (o : List Cloudfen) (e : Env) :
    (s.updateAttention dt p o e).mood = s.mood := by
  rcases p with _ | pp <;> rcases hfv : s.favoriteSpot with _ | fv <;>
    (delta updateAttention; simp only [apply_ite Cloudfen.mood, apply_ite Cloudfen.favoriteSpot, shiftAttention_mood, shiftAttention_favoriteSpot, ite_self, hfv])

theorem updateAttention_personality (s : Cloudfen) (dt : ℝ) (p : Option Vec3) (o : List Cloudfen) (e : Env) :
    (s.updateAttention dt p o e).personality = s.personality := by
  rcases p with _ | pp <;> rcases hfv : s.favoriteSpot with _ | fv <;>
    (delta updateAttention; simp only [apply_ite Cloudfen.personality, apply_ite Cloudfen.favoriteSpot, shiftAttention_personality, shiftAttention_favoriteSpot, ite_self, hfv])

theorem updateAttention_lastPlayerPosition_none (s : Cloudfen) (dt : ℝ) (o : List Cloudfen) (e : Env) :
    (s.updateAttention dt none o e).lastPlayerPosition = s.lastPlayerPosition := by
  rcases hfv : s.favoriteSpot with _ | fv <;>
    (delta updateAttention; simp only [apply_ite Cloudfen.lastPlayerPosition, apply_ite Cloudfen.favoriteSpot, shiftAttention_lastPlayerPosition, shiftAttention_favoriteSpot, ite_self, hfv])

theorem updateAttention_lastSeenPlayerTime_none (s : Cloudfen) (dt : ℝ) (o : List Cloudfen) (e : Env) :
    (s.updateAttention dt none o e).lastSeenPlayerTime = s.lastSeenPlayerTime := by
  rcases hfv : s.favoriteSpot with _ | fv <;>
    (delta updateAttention; simp only [apply_ite Cloudfen.lastSeenPlayerTime, apply_ite Cloudfen.favoriteSpot, shiftAttention_lastSeenPlayerTime, shiftAttention_favoriteSpot, ite_self, hfv])

theorem updatePlayerAwareness_happiness (s : Cloudfen) (dt : ℝ) (p : Option Vec3) (e : Env) :
    (s.updatePlayerAwareness dt p e).happiness = s.happiness := by
  rcases p with _ | pp <;>
    (delta updatePlayerAwareness standUp setState; simp only [apply_ite Cloudfen.happiness, ite_self])

theorem updatePlayerAwareness_isPetted (s : Cloudfen) (dt : ℝ) (p : Option Vec3) (e : Env) :
    (s.updatePlayerAwareness dt p e).isPetted = s.isPetted := by
  rcases p with _ | pp <;>
    (delta updatePlayerAwareness standUp setState; simp only [apply_ite Cloudfen.isPetted, ite_self])

theorem updatePlayerAwareness_position (s : Cloudfen) (dt : ℝ) (p : Option Vec3) (e : Env) :
    (s.updatePlayerAwareness dt p e).position = s.position := by
  rcases p with _ | pp <;>
    (delta updatePlayerAwareness standUp setState; simp only [apply_ite Cloudfen.position, ite_self])

theorem updatePlayerAwareness_sleepTimer (s : Cloudfen) (dt : ℝ) (p : Option Vec3) (e : Env) :
    (s.updatePlayerAwareness dt p e).sleepTimer = s.sleepTimer := by
  rcases p with _ | pp <;>
    (delta updatePlayerAwareness standUp setState; simp only [apply_ite Cloudfen.sleepTimer, ite_self])

theorem updatePlayerAwareness_isHovered (s : Cloudfen) (dt : ℝ) (p : Option Vec3) (e : Env) :
    (s.updatePlayerAwareness dt p e).isHovered = s.isHovered := by
  rcases p with _ | pp <;>
    (delta updatePlayerAwareness standUp setState; simp only [apply_ite Cloudfen.isHovered, ite_self])

theorem updatePlayerAwareness_mood (s : Cloudfen) (dt : ℝ) (p : Option Vec3) (e : Env) :
    (s.updatePlayerAwareness dt p e).mood = s.mood := by
  rcases p with _ | pp <;>
    (delta updatePlayerAwareness standUp setState; simp only [apply_ite Cloudfen.mood, ite_self])

theorem updatePlayerAwareness_personality (s : Cloudfen) (dt : ℝ) (p : Option Vec3) (e : Env) :
    (s.updatePlayerAwareness dt p e).personality = s.personality := by
  rcases p with _ | pp <;>
    (delta updatePlayerAwareness standUp setState; simp only [apply_ite Cloudfen.personality, ite_self])

theorem updatePlayerAwareness_stateTimer_skip (s : Cloudfen) (dt : ℝ) (p : Option Vec3) (e : Env)
    (h : s.state = CState.petted ∨ s.state = CState.bliss ∨ s.state = CState.sleeping) :
    (s.updatePlayerAwareness dt p e).stateTimer = s.stateTimer := by
  delta updatePlayerAwareness; rcases p with _ | pp
  · rfl
  · dsimp only
    have hc : ¬ ((Vec3.flat (Vec3.sub pp s.position)).length < s.fleeThreshold ∧
        (3 < match e.playerVel with
          | some v => Real.sqrt (v.x ^ 2 + v.z ^ 2)
          | none => (0:ℝ)) ∧
        s.state ≠ CState.petted ∧ s.state ≠ CState.bliss ∧ s.state ≠ CState.sleeping) := by
      rcases h with h | h | h <;> simp [h]
    rw [if_neg hc]
    split <;> rfl

theorem updatePlayerAwareness_none (s : Cloudfen) (dt : ℝ) (e : Env) :
    s.updatePlayerAwareness dt none e = s := rfl


end Cloudfen

/-! ## The dispatch routines never touch the mood, happiness (outside
`petted` / `bliss`), player-awareness or player-memory fields. -/

namespace Cloudfen

theorem setState_pres_mood (s : Cloudfen) (n : CState) : (s.setState n).mood = s.mood := by
  delta setState; split <;> rfl

theorem setState_pres_happiness (s : Cloudfen) (n : CState) : (s.setState n).happiness = s.happiness := by
  delta setState; split <;> rfl

theorem setState_pres_playerAwareness (s : Cloudfen) (n : CState) : (s.setState n).playerAwareness = s.playerAwareness := by
  delta setState; split <;> rfl

theorem setState_pres_lastPlayerPosition (s : Cloudfen) (n : CState) : (s.setState n).lastPlayerPosition = s.lastPlayerPosition := by
  delta setState; split <;> rfl

theorem setState_pres_lastSeenPlayerTime (s : Cloudfen) (n : CState) : (s.setState n).lastSeenPlayerTime = s.lastSeenPlayerTime := by
  delta setState; split <;> rfl

theorem pickLookTarget_mood (s : Cloudfen) (p : Option Vec3) (o : List Cloudfen) (e : Env) :
    (s.pickLookTarget p o e).mood = s.mood := by
  rcases hn : s.findNearestSheep o with _ | ⟨i, pr, d⟩ <;>
    (delta pickLookTarget; simp only [hn, apply_ite Cloudfen.mood, ite_self])

theorem chooseWanderTarget_mood (s : Cloudfen) (o : List Cloudfen) (e : Env) :
    (s.chooseWanderTarget o e).mood = s.mood := by
  rcases hn : s.findNearestSheep o with _ | ⟨i, pr, d⟩ <;>
    (delta chooseWanderTarget; simp only [hn, apply_ite Cloudfen.mood, ite_self])

theorem chooseNextBehavior_mood (s : Cloudfen) (p : Option Vec3) (o : List Cloudfen) (e : Env) :
    (s.chooseNextBehavior p o e).mood = s.mood := by
  rcases hn : s.findNearestSheep o with _ | ⟨i, pr, d⟩ <;>
    rcases hfv : s.favoriteSpot with _ | fv <;>
    (delta chooseNextBehavior; simp only [hn, hfv, apply_ite Cloudfen.mood, apply_ite Cloudfen.favoriteSpot, ite_self, setState_pres_mood, pickLookTarget_mood, chooseWanderTarget_mood])

theorem updateIdle_mood (s : Cloudfen) (dt : ℝ) (p : Option Vec3) (o : List Cloudfen) (e : Env) :
    (s.updateIdle dt p o e).mood = s.mood := by
  rcases p with _ | pp <;> rcases ht : s.targetPosition with _ | t <;>
    (delta updateIdle doBlink; simp only [ht, apply_ite Cloudfen.mood, ite_self, setState_pres_mood, pickLookTarget_mood, chooseNextBehavior_mood])

theorem updateGrazing_mood (s : Cloudfen) (dt : ℝ) (p : Option Vec3) (e : Env) :
    (s.updateGrazing dt p e).mood = s.mood := by
  rcases p with _ | pp <;>
    (delta updateGrazing doBlink; simp only [apply_ite Cloudfen.mood, ite_self, setState_pres_mood])

theorem updateLooking_mood (s : Cloudfen) (dt : ℝ) :
    (s.updateLooking dt).mood = s.mood := by
  (delta updateLooking; simp only [apply_ite Cloudfen.mood, ite_self, setState_pres_mood])

theorem updateStretching_mood (s : Cloudfen) (dt : ℝ) :
    (s.updateStretching dt).mood = s.mood := by
  (delta updateStretching; simp only [apply_ite Cloudfen.mood, ite_self, setState_pres_mood])

theorem updateResting_mood (s : Cloudfen) (dt : ℝ) (p : Option Vec3) (e : Env) :
    (s.updateResting dt p e).mood = s.mood := by
  rcases p with _ | pp <;>
    (delta updateResting doBlink standUp; simp only [apply_ite Cloudfen.mood, ite_self, setState_pres_mood])

theorem updateSleeping_mood (s : Cloudfen) (dt : ℝ) (p : Option Vec3) (e : Env) :
    (s.updateSleeping dt p e).mood = s.mood := by
  rcases p with _ | pp <;>
    (delta updateSleeping standUp; simp only [apply_ite Cloudfen.mood, ite_self, setState_pres_mood])

theorem updateSocial_mood (s : Cloudfen) (dt : ℝ) (o : List Cloudfen) (e : Env) :
    (s.updateSocial dt o e).mood = s.mood := by
  rcases hso : s.socialTarget with _ | i
  · (delta updateSocial; simp only [hso, apply_ite Cloudfen.mood, ite_self, setState_pres_mood])
  · rcases hg : o.get? i with _ | peer <;>
      (delta updateSocial doVocalizeFlag doSniff; simp only [hso, hg, apply_ite Cloudfen.mood, ite_self, setState_pres_mood])

theorem updateCurious_mood (s : Cloudfen) (dt : ℝ) (p : Option Vec3) (e : Env) :
    (s.updateCurious dt p e).mood = s.mood := by
  rcases p with _ | pp <;>
    (delta updateCurious doPawGround doVocalizeFlag; simp only [apply_ite Cloudfen.mood, ite_self, setState_pres_mood])

theorem updateCalled_mood (s : Cloudfen) : s.updateCalled.mood = s.mood := by
  rcases ht : s.targetPosition with _ | t <;>
    (delta updateCalled; simp only [ht, apply_ite Cloudfen.mood, ite_self, setState_pres_mood])

theorem updateFleeing_mood (s : Cloudfen) : s.updateFleeing.mood = s.mood := by
  rcases ht : s.targetPosition with _ | t <;>
    (delta updateFleeing; simp only [ht, apply_ite Cloudfen.mood, ite_self, setState_pres_mood])

theorem pickLookTarget_happiness (s : Cloudfen) (p : Option Vec3) (o : List Cloudfen) (e : Env) :
    (s.pickLookTarget p o e).happiness = s.happiness := by
  rcases hn : s.findNearestSheep o with _ | ⟨i, pr, d⟩ <;>
    (delta pickLookTarget; simp only [hn, apply_ite Cloudfen.happiness, ite_self])

theorem chooseWanderTarget_happiness (s : Cloudfen) (o : List Cloudfen) (e : Env) :
    (s.chooseWanderTarget o e).happiness = s.happiness := by
  rcases hn : s.findNearestSheep o with _ | ⟨i, pr, d⟩ <;>
    (delta chooseWanderTarget; simp only [hn, apply_ite Cloudfen.happiness, ite_self])

theorem chooseNextBehavior_happiness (s : Cloudfen) (p : Option Vec3) (o : List Cloudfen) (e : Env) :
    (s.chooseNextBehavior p o e).happiness = s.happiness := by
  rcases hn : s.findNearestSheep o with _ | ⟨i, pr, d⟩ <;>
    rcases hfv : s.favoriteSpot with _ | fv <;>
    (delta chooseNextBehavior; simp only [hn, hfv, apply_ite Cloudfen.happiness, apply_ite Cloudfen.favoriteSpot, ite_self, setState_pres_happiness, pickLookTarget_happiness, chooseWanderTarget_happiness])

theorem updateIdle_happiness (s : Cloudfen) (dt : ℝ) (p : Option Vec3) (o : List Cloudfen) (e : Env) :
    (s.updateIdle dt p o e).happiness = s.happiness := by
  rcases p with _ | pp <;> rcases ht : s.targetPosition with _ | t <;>
    (delta updateIdle doBlink; simp only [ht, apply_ite Cloudfen.happiness, ite_self, setState_pres_happiness, pickLookTarget_happiness, chooseNextBehavior_happiness])

theorem updateGrazing_happiness (s : Cloudfen) (dt : ℝ) (p : Option Vec3) (e : Env) :
    (s.updateGrazing dt p e).happiness = s.happiness := by
  rcases p with _ | pp <;>
    (delta updateGrazing doBlink; simp only [apply_ite Cloudfen.happiness, ite_self, setState_pres_happiness])

theorem updateLooking_happiness (s : Cloudfen) (dt : ℝ) :
    (s.updateLooking dt).happiness = s.happiness := by
  (delta updateLooking; simp only [apply_ite Cloudfen.happiness, ite_self, setState_pres_happiness])

theorem updateStretching_happiness (s : Cloudfen) (dt : ℝ) :
    (s.updateStretching dt).happiness = s.happiness := by
  (delta updateStretching; simp only [apply_ite Cloudfen.happiness, ite_self, setState_pres_happiness])

theorem updateResting_happiness (s : Cloudfen) (dt : ℝ) (p : Option Vec3) (e : Env) :
    (s.updateResting dt p e).happiness = s.happiness := by
  rcases p with _ | pp <;>
    (delta updateResting doBlink standUp; simp only [apply_ite Cloudfen.happiness, ite_self, setState_pres_happiness])

theorem updateSleeping_happiness (s : Cloudfen) (dt : ℝ) (p : Option Vec3) (e : Env) :
    (s.updateSleeping dt p e).happiness = s.happiness := by
  rcases p with _ | pp <;>
    (delta updateSleeping standUp; simp only [apply_ite Cloudfen.happiness, ite_self, setState_pres_happiness])

theorem updateSocial_happiness (s : Cloudfen) (dt : ℝ) (o : List Cloudfen) (e : Env) :
    (s.updateSocial dt o e).happiness = s.happiness := by
  rcases hso : s.socialTarget with _ | i
  · (delta updateSocial; simp only [hso, apply_ite Cloudfen.happiness, ite_self, setState_pres_happiness])
  · rcases hg : o.get? i with _ | peer <;>
      (delta updateSocial doVocalizeFlag doSniff; simp only [hso, hg, apply_ite Cloudfen.happiness, ite_self, setState_pres_happiness])

theorem updateCurious_happiness (s : Cloudfen) (dt : ℝ) (p : Option Vec3) (e : Env) :
    (s.updateCurious dt p e).happiness = s.happiness := by
  rcases p with _ | pp <;>
    (delta updateCurious doPawGround doVocalizeFlag; simp only [apply_ite Cloudfen.happiness, ite_self, setState_pres_happiness])

theorem updateCalled_happiness (s : Cloudfen) : s.updateCalled.happiness = s.happiness := by
  rcases ht : s.targetPosition with _ | t <;>
    (delta updateCalled; simp only [ht, apply_ite Cloudfen.happiness, ite_self, setState_pres_happiness])

theorem updateFleeing_happiness (s : Cloudfen) : s.updateFleeing.happiness = s.happiness := by
  rcases ht : s.targetPosition with _ | t <;>
    (delta updateFleeing; simp only [ht, apply_ite Cloudfen.happiness, ite_self, setState_pres_happiness])

theorem pickLookTarget_playerAwareness (s : Cloudfen) (p : Option Vec3) (o : List Cloudfen) (e : Env) :
    (s.pickLookTarget p o e).playerAwareness = s.playerAwareness := by
  rcases hn : s.findNearestSheep o with _ | ⟨i, pr, d⟩ <;>
    (delta pickLookTarget; simp only [hn, apply_ite Cloudfen.playerAwareness, ite_self])

theorem chooseWanderTarget_playerAwareness (s : Cloudfen) (o : List Cloudfen) (e : Env) :
    (s.chooseWanderTarget o e).playerAwareness = s.playerAwareness := by
  rcases hn : s.findNearestSheep o with _ | ⟨i, pr, d⟩ <;>
    (delta chooseWanderTarget; simp only [hn, apply_ite Cloudfen.playerAwareness, ite_self])

theorem chooseNextBehavior_playerAwareness (s : Cloudfen) (p : Option Vec3) (o : List Cloudfen) (e : Env) :
    (s.chooseNextBehavior p o e).playerAwareness = s.playerAwareness := by
  rcases hn : s.findNearestSheep o with _ | ⟨i, pr, d⟩ <;>
    rcases hfv : s.favoriteSpot with _ | fv <;>
    (delta chooseNextBehavior; simp only [hn, hfv, apply_ite Cloudfen.playerAwareness, apply_ite Cloudfen.favoriteSpot, ite_self, setState_pres_playerAwareness, pickLookTarget_playerAwareness, chooseWanderTarget_playerAwareness])

theorem updateIdle_playerAwareness (s : Cloudfen) (dt : ℝ) (p : Option Vec3) (o : List Cloudfen) (e : Env) :
    (s.updateIdle dt p o e).playerAwareness = s.playerAwareness := by
  rcases p with _ | pp <;> rcases ht : s.targetPosition with _ | t <;>
    (delta updateIdle doBlink; simp only [ht, apply_ite Cloudfen.playerAwareness, ite_self, setState_pres_playerAwareness, pickLookTarget_playerAwareness, chooseNextBehavior_playerAwareness])

theorem updateGrazing_playerAwareness (s : Cloudfen) (dt : ℝ) (p : Option Vec3) (e : Env) :
    (s.updateGrazing dt p e).playerAwareness = s.playerAwareness := by
  rcases p with _ | pp <;>
    (delta updateGrazing doBlink; simp only [apply_ite Cloudfen.playerAwareness, ite_self, setState_pres_playerAwareness])

theorem updateLooking_playerAwareness (s : Cloudfen) (dt : ℝ) :
    (s.updateLooking dt).playerAwareness = s.playerAwareness := by
  (delta updateLooking; simp only [apply_ite Cloudfen.playerAwareness, ite_self, setState_pres_playerAwareness])

theorem updateStretching_playerAwareness (s : Cloudfen) (dt : ℝ) :
    (s.updateStretching dt).playerAwareness = s.playerAwareness := by
  (delta updateStretching; simp only [apply_ite Cloudfen.playerAwareness, ite_self, setState_pres_playerAwareness])

theorem updateResting_playerAwareness (s : Cloudfen) (dt : ℝ) (p : Option Vec3) (e : Env) :
    (s.updateResting dt p e).playerAwareness = s.playerAwareness := by
  rcases p with _ | pp <;>
    (delta updateResting doBlink standUp; simp only [apply_ite Cloudfen.playerAwareness, ite_self, setState_pres_playerAwareness])

theorem updateSleeping_playerAwareness (s : Cloudfen) (dt : ℝ) (p : Option Vec3) (e : Env) :
    (s.updateSleeping dt p e).playerAwareness = s.playerAwareness := by
  rcases p with _ | pp <;>
    (delta updateSleeping standUp; simp only [apply_ite Cloudfen.playerAwareness, ite_self, setState_pres_playerAwareness])

theorem updateSocial_playerAwareness (s : Cloudfen) (dt : ℝ) (o : List Cloudfen) (e : Env) :
    (s.updateSocial dt o e).playerAwareness = s.playerAwareness := by
  rcases hso : s.socialTarget with _ | i
  · (delta updateSocial; simp only [hso, apply_ite Cloudfen.playerAwareness, ite_self, setState_pres_playerAwareness])
  · rcases hg : o.get? i with _ | peer <;>
      (delta updateSocial doVocalizeFlag doSniff; simp only [hso, hg, apply_ite Cloudfen.playerAwareness, ite_self, setState_pres_playerAwareness])

theorem updateCurious_playerAwareness (s : Cloudfen) (dt : ℝ) (p : Option Vec3) (e : Env) :
    (s.updateCurious dt p e).playerAwareness = s.playerAwareness := by
  rcases p with _ | pp <;>
    (delta updateCurious doPawGround doVocalizeFlag; simp only [apply_ite Cloudfen.playerAwareness, ite_self, setState_pres_playerAwareness])

theorem updateCalled_playerAwareness (s : Cloudfen) : s.updateCalled.playerAwareness = s.playerAwareness := by
  rcases ht : s.targetPosition with _ | t <;>
    (delta updateCalled; simp only [ht, apply_ite Cloudfen.playerAwareness, ite_self, setState_pres_playerAwareness])

theorem updateFleeing_playerAwareness (s : Cloudfen) : s.updateFleeing.playerAwareness = s.playerAwareness := by
  rcases ht : s.targetPosition with _ | t <;>
    (delta updateFleeing; simp only [ht, apply_ite Cloudfen.playerAwareness, ite_self, setState_pres_playerAwareness])

theorem pickLookTarget_lastPlayerPosition (s : Cloudfen) (p : Option Vec3) (o : List Cloudfen) (e : Env) :
    (s.pickLookTarget p o e).lastPlayerPosition = s.lastPlayerPosition := by
  rcases hn : s.findNearestSheep o with _ | ⟨i, pr, d⟩ <;>
    (delta pickLookTarget; simp only [hn, apply_ite Cloudfen.lastPlayerPosition, ite_self])

theorem chooseWanderTarget_lastPlayerPosition (s : Cloudfen) (o : List Cloudfen) (e : Env) :
    (s.chooseWanderTarget o e).lastPlayerPosition = s.lastPlayerPosition := by
  rcases hn : s.findNearestSheep o with _ | ⟨i, pr, d⟩ <;>
    (delta chooseWanderTarget; simp only [hn, apply_ite Cloudfen.lastPlayerPosition, ite_self])

theorem chooseNextBehavior_lastPlayerPosition (s : Cloudfen) (p : Option Vec3) (o : List Cloudfen) (e : Env) :
    (s.chooseNextBehavior p o e).lastPlayerPosition = s.lastPlayerPosition := by
  rcases hn : s.findNearestSheep o with _ | ⟨i, pr, d⟩ <;>
    rcases hfv : s.favoriteSpot with _ | fv <;>
    (delta chooseNextBehavior; simp only [hn, hfv, apply_ite Cloudfen.lastPlayerPosition, apply_ite Cloudfen.favoriteSpot, ite_self, setState_pres_lastPlayerPosition, pickLookTarget_lastPlayerPosition, chooseWanderTarget_lastPlayerPosition])

theorem updateIdle_lastPlayerPosition (s : Cloudfen) (dt : ℝ) (p : Option Vec3) (o : List Cloudfen) (e : Env) :
    (s.updateIdle dt p o e).lastPlayerPosition = s.lastPlayerPosition := by
  rcases p with _ | pp <;> rcases ht : s.targetPosition with _ | t <;>
    (delta updateIdle doBlink; simp only [ht, apply_ite Cloudfen.lastPlayerPosition, ite_self, setState_pres_lastPlayerPosition, pickLookTarget_lastPlayerPosition, chooseNextBehavior_lastPlayerPosition])

theorem updateGrazing_lastPlayerPosition (s : Cloudfen) (dt : ℝ) (p : Option Vec3) (e : Env) :
    (s.updateGrazing dt p e).lastPlayerPosition = s.lastPlayerPosition := by
  rcases p with _ | pp <;>
    (delta updateGrazing doBlink; simp only [apply_ite Cloudfen.lastPlayerPosition, ite_self, setState_pres_lastPlayerPosition])

theorem updateLooking_lastPlayerPosition (s : Cloudfen) (dt : ℝ) :
    (s.updateLooking dt).lastPlayerPosition = s.lastPlayerPosition := by
  (delta updateLooking; simp only [apply_ite Cloudfen.lastPlayerPosition, ite_self, setState_pres_lastPlayerPosition])

theorem updateStretching_lastPlayerPosition (s : Cloudfen) (dt : ℝ) :
    (s.updateStretching dt).lastPlayerPosition = s.lastPlayerPosition := by
  (delta updateStretching; simp only [apply_ite Cloudfen.lastPlayerPosition, ite_self, setState_pres_lastPlayerPosition])

theorem updateResting_lastPlayerPosition (s : Cloudfen) (dt : ℝ) (p : Option Vec3) (e : Env) :
    (s.updateResting dt p e).lastPlayerPosition = s.lastPlayerPosition := by
  rcases p with _ | pp <;>
    (delta updateResting doBlink standUp; simp only [apply_ite Cloudfen.lastPlayerPosition, ite_self, setState_pres_lastPlayerPosition])

theorem updateSleeping_lastPlayerPosition (s : Cloudfen) (dt : ℝ) (p : Option Vec3) (e : Env) :
    (s.updateSleeping dt p e).lastPlayerPosition = s.lastPlayerPosition := by
  rcases p with _ | pp <;>
    (delta updateSleeping standUp; simp only [apply_ite Cloudfen.lastPlayerPosition, ite_self, setState_pres_lastPlayerPosition])

theorem updateSocial_lastPlayerPosition (s : Cloudfen) (dt : ℝ) (o : List Cloudfen) (e : Env) :
    (s.updateSocial dt o e).lastPlayerPosition = s.lastPlayerPosition := by
  rcases hso : s.socialTarget with _ | i
  · (delta updateSocial; simp only [hso, apply_ite Cloudfen.lastPlayerPosition, ite_self, setState_pres_lastPlayerPosition])
  · rcases hg : o.get? i with _ | peer <;>
      (delta updateSocial doVocalizeFlag doSniff; simp only [hso, hg, apply_ite Cloudfen.lastPlayerPosition, ite_self, setState_pres_lastPlayerPosition])

theorem updateCurious_lastPlayerPosition (s : Cloudfen) (dt : ℝ) (p : Option Vec3) (e : Env) :
    (s.updateCurious dt p e).lastPlayerPosition = s.lastPlayerPosition := by
  rcases p with _ | pp <;>
    (delta updateCurious doPawGround doVocalizeFlag; simp only [apply_ite Cloudfen.lastPlayerPosition, ite_self, setState_pres_lastPlayerPosition])

theorem updateCalled_lastPlayerPosition (s : Cloudfen) : s.updateCalled.lastPlayerPosition = s.lastPlayerPosition := by
  rcases ht : s.targetPosition with _ | t <;>
    (delta updateCalled; simp only [ht, apply_ite Cloudfen.lastPlayerPosition, ite_self, setState_pres_lastPlayerPosition])

theorem updateFleeing_lastPlayerPosition (s : Cloudfen) : s.updateFleeing.lastPlayerPosition = s.lastPlayerPosition := by
  rcases ht : s.targetPosition with _ | t <;>
    (delta updateFleeing; simp only [ht, apply_ite Cloudfen.lastPlayerPosition, ite_self, setState_pres_lastPlayerPosition])

theorem pickLookTarget_lastSeenPlayerTime (s : Cloudfen) (p : Option Vec3) (o : List Cloudfen) (e : Env) :
    (s.pickLookTarget p o e).lastSeenPlayerTime = s.lastSeenPlayerTime := by
  rcases hn : s.findNearestSheep o with _ | ⟨i, pr, d⟩ <;>
    (delta pickLookTarget; simp only [hn, apply_ite Cloudfen.lastSeenPlayerTime, ite_self])

theorem chooseWanderTarget_lastSeenPlayerTime (s : Cloudfen) (o : List Cloudfen) (e : Env) :
    (s.chooseWanderTarget o e).lastSeenPlayerTime = s.lastSeenPlayerTime := by
  rcases hn : s.findNearestSheep o with _ | ⟨i, pr, d⟩ <;>
    (delta chooseWanderTarget; simp only [hn, apply_ite Cloudfen.lastSeenPlayerTime, ite_self])

theorem chooseNextBehavior_lastSeenPlayerTime (s : Cloudfen) (p : Option Vec3) (o : List Cloudfen) (e : Env) :
    (s.chooseNextBehavior p o e).lastSeenPlayerTime = s.lastSeenPlayerTime := by
  rcases hn : s.findNearestSheep o with _ | ⟨i, pr, d⟩ <;>
    rcases hfv : s.favoriteSpot with _ | fv <;>
    (delta chooseNextBehavior; simp only [hn, hfv, apply_ite Cloudfen.lastSeenPlayerTime, apply_ite Cloudfen.favoriteSpot, ite_self, setState_pres_lastSeenPlayerTime, pickLookTarget_lastSeenPlayerTime, chooseWanderTarget_lastSeenPlayerTime])

theorem updateIdle_lastSeenPlayerTime (s : Cloudfen) (dt : ℝ) (p : Option Vec3) (o : List Cloudfen) (e : Env) :
    (s.updateIdle dt p o e).lastSeenPlayerTime = s.lastSeenPlayerTime := by
  rcases p with _ | pp <;> rcases ht : s.targetPosition with _ | t <;>
    (delta updateIdle doBlink; simp only [ht, apply_ite Cloudfen.lastSeenPlayerTime, ite_self, setState_pres_lastSeenPlayerTime, pickLookTarget_lastSeenPlayerTime, chooseNextBehavior_lastSeenPlayerTime])

theorem updateGrazing_lastSeenPlayerTime (s : Cloudfen) (dt : ℝ) (p : Option Vec3) (e : Env) :
    (s.updateGrazing dt p e).lastSeenPlayerTime = s.lastSeenPlayerTime := by
  rcases p with _ | pp <;>
    (delta updateGrazing doBlink; simp only [apply_ite Cloudfen.lastSeenPlayerTime, ite_self, setState_pres_lastSeenPlayerTime])

theorem updateLooking_lastSeenPlayerTime (s : Cloudfen) (dt : ℝ) :
    (s.updateLooking dt).lastSeenPlayerTime = s.lastSeenPlayerTime := by
  (delta updateLooking; simp only [apply_ite Cloudfen.lastSeenPlayerTime, ite_self, setState_pres_lastSeenPlayerTime])

theorem updateStretching_lastSeenPlayerTime (s : Cloudfen) (dt : ℝ) :
    (s.updateStretching dt).lastSeenPlayerTime = s.lastSeenPlayerTime := by
  (delta updateStretching; simp only [apply_ite Cloudfen.lastSeenPlayerTime, ite_self, setState_pres_lastSeenPlayerTime])

theorem updateResting_lastSeenPlayerTime (s : Cloudfen) (dt : ℝ) (p : Option Vec3) (e : Env) :
    (s.updateResting dt p e).lastSeenPlayerTime = s.lastSeenPlayerTime := by
  rcases p with _ | pp <;>
    (delta updateResting doBlink standUp; simp only [apply_ite Cloudfen.lastSeenPlayerTime, ite_self, setState_pres_lastSeenPlayerTime])

theorem updateSleeping_lastSeenPlayerTime (s : Cloudfen) (dt : ℝ) (p : Option Vec3) (e : Env) :
    (s.updateSleeping dt p e).lastSeenPlayerTime = s.lastSeenPlayerTime := by
  rcases p with _ | pp <;>
    (delta updateSleeping standUp; simp only [apply_ite Cloudfen.lastSeenPlayerTime, ite_self, setState_pres_lastSeenPlayerTime])

theorem updateSocial_lastSeenPlayerTime (s : Cloudfen) (dt : ℝ) (o : List Cloudfen) (e : Env) :
    (s.updateSocial dt o e).lastSeenPlayerTime = s.lastSeenPlayerTime := by
  rcases hso : s.socialTarget with _ | i
  · (delta updateSocial; simp only [hso, apply_ite Cloudfen.lastSeenPlayerTime, ite_self, setState_pres_lastSeenPlayerTime])
  · rcases hg : o.get? i with _ | peer <;>
      (delta updateSocial doVocalizeFlag doSniff; simp only [hso, hg, apply_ite Cloudfen.lastSeenPlayerTime, ite_self, setState_pres_lastSeenPlayerTime])

theorem updateCurious_lastSeenPlayerTime (s : Cloudfen) (dt : ℝ) (p : Option Vec3) (e : Env) :
    (s.updateCurious dt p e).lastSeenPlayerTime = s.lastSeenPlayerTime := by
  rcases p with _ | pp <;>
    (delta updateCurious doPawGround doVocalizeFlag; simp only [apply_ite Cloudfen.lastSeenPlayerTime, ite_self, setState_pres_lastSeenPlayerTime])

theorem updateCalled_lastSeenPlayerTime (s : Cloudfen) : s.updateCalled.lastSeenPlayerTime = s.lastSeenPlayerTime := by
  rcases ht : s.targetPosition with _ | t <;>
    (delta updateCalled; simp only [ht, apply_ite Cloudfen.lastSeenPlayerTime, ite_self, setState_pres_lastSeenPlayerTime])

theorem updateFleeing_lastSeenPlayerTime (s : Cloudfen) : s.updateFleeing.lastSeenPlayerTime = s.lastSeenPlayerTime := by
  rcases ht : s.targetPosition with _ | t <;>
    (delta updateFleeing; simp only [ht, apply_ite Cloudfen.lastSeenPlayerTime, ite_self, setState_pres_lastSeenPlayerTime])


end Cloudfen

namespace Cloudfen

theorem updatePetted_mood (s : Cloudfen) (dt : ℝ) (e : Env) :
    (s.updatePetted dt e).mood = s.mood := by
  (delta updatePetted; simp only [apply_ite Cloudfen.mood, ite_self, setState_pres_mood])

theorem updateBliss_mood (s : Cloudfen) (dt : ℝ) :
    (s.updateBliss dt).mood = s.mood := by
  (delta updateBliss; simp only [apply_ite Cloudfen.mood, ite_self, setState_pres_mood])

theorem updatePetted_playerAwareness (s : Cloudfen) (dt : ℝ) (e : Env) :
    (s.updatePetted dt e).playerAwareness = s.playerAwareness := by
  (delta updatePetted; simp only [apply_ite Cloudfen.playerAwareness, ite_self, setState_pres_playerAwareness])

theorem updateBliss_playerAwareness (s : Cloudfen) (dt : ℝ) :
    (s.updateBliss dt).playerAwareness = s.playerAwareness := by
  (delta updateBliss; simp only [apply_ite Cloudfen.playerAwareness, ite_self, setState_pres_playerAwareness])

theorem updatePetted_lastPlayerPosition (s : Cloudfen) (dt : ℝ) (e : Env) :
    (s.updatePetted dt e).lastPlayerPosition = s.lastPlayerPosition := by
  (delta updatePetted; simp only [apply_ite Cloudfen.lastPlayerPosition, ite_self, setState_pres_lastPlayerPosition])

theorem updateBliss_lastPlayerPosition (s : Cloudfen) (dt : ℝ) :
    (s.updateBliss dt).lastPlayerPosition = s.lastPlayerPosition := by
  (delta updateBliss; simp only [apply_ite Cloudfen.lastPlayerPosition, ite_self, setState_pres_lastPlayerPosition])

theorem updatePetted_lastSeenPlayerTime (s : Cloudfen) (dt : ℝ) (e : Env) :
    (s.updatePetted dt e).lastSeenPlayerTime = s.lastSeenPlayerTime := by
  (delta updatePetted; simp only [apply_ite Cloudfen.lastSeenPlayerTime, ite_self, setState_pres_lastSeenPlayerTime])

theorem updateBliss_lastSeenPlayerTime (s : Cloudfen) (dt : ℝ) :
    (s.updateBliss dt).lastSeenPlayerTime = s.lastSeenPlayerTime := by
  (delta updateBliss; simp only [apply_ite Cloudfen.lastSeenPlayerTime, ite_self, setState_pres_lastSeenPlayerTime])


end Cloudfen

/-! ## Claim theorems: C10, C7, C2 -/

namespace Cloudfen

/-- **C10**: `startPetting` in state `bliss` keeps `bliss` (no demotion to
`petted`), while in any other state — including `fleeing` and `sleeping` —
it forces `petted`; in all cases `isPetted` becomes true, `timesBeenPetted`
increments, and `mood.contentment` / `mood.playfulness` are nudged up with a
clamp at 1. -/
theorem c10_startPetting (s : Cloudfen) (now : ℝ) :
    (s.state = CState.bliss → (s.startPetting now).state = CState.bliss) ∧
    (s.state ≠ CState.bliss → (s.startPetting now).state = CState.petted) ∧
    (s.startPetting now).isPetted = true ∧
    (s.startPetting now).timesBeenPetted = s.timesBeenPetted + 1 ∧
    (s.startPetting now).mood.contentment = min 1 (s.mood.contentment + 0.2) ∧
    (s.startPetting now).mood.playfulness = min 1 (s.mood.playfulness + 0.1) := by
  by_cases hb : s.state = CState.bliss <;>
    (delta startPetting setState; simp [hb]) <;>
    split <;> simp_all

/-- **C10 witness**: a concrete sleeping creature is forced to `petted`. -/
theorem c10_witness :
    ({ baseSheep with state := CState.sleeping } : Cloudfen).state ≠ CState.bliss ∧
    (({ baseSheep with state := CState.sleeping } : Cloudfen).startPetting 0).state = CState.petted :=
  ⟨by simp [baseSheep], (c10_startPetting { baseSheep with state := CState.sleeping } 0).2.1 (by simp [baseSheep])⟩

/-- **C7**: `onCalled` on a creature not in `bliss`/`fleeing`, with a passing
shyness roll, records the source-to-creature direction and, when the delayed
callback fires, enters `called` with target `flat(src) - 4 * normalize(src -
pos)`, which equals `pos + ((L-4)/L) * (src - pos)` for `L = |src - pos|`:
for a source farther than the 4-unit comfort distance the target lies
strictly between source and creature (coefficient in `(0,1)`) at exactly 4
units from the source. -/
theorem c7_onCalled (s : Cloudfen) (src : Vec3) (r : ℝ)
    (hg1 : s.state ≠ CState.bliss) (hg2 : s.state ≠ CState.fleeing)
    (hroll : s.personality.shyness * 0.5 < r)
    (hcd : s.comfortDistance = 4)
    (hy0 : s.position.y = 0) (hsy : src.y = 0)
    (hfar : 4 < Vec3.length (Vec3.sub src s.position)) :
    (s.onCalled src).2 = some (Vec3.sub src s.position) ∧
    (((s.onCalled src).1.onCalledTimeout src (Vec3.sub src s.position) r).state = CState.called) ∧
    (((s.onCalled src).1.onCalledTimeout src (Vec3.sub src s.position) r).targetPosition =
      some (Vec3.add s.position (Vec3.smul ((Vec3.length (Vec3.sub src s.position) - 4) /
        Vec3.length (Vec3.sub src s.position)) (Vec3.sub src s.position)))) ∧
    0 < (Vec3.length (Vec3.sub src s.position) - 4) / Vec3.length (Vec3.sub src s.position) ∧
    (Vec3.length (Vec3.sub src s.position) - 4) / Vec3.length (Vec3.sub src s.position) < 1 ∧
    Vec3.distanceTo (Vec3.add s.position (Vec3.smul ((Vec3.length (Vec3.sub src s.position) - 4) /
        Vec3.length (Vec3.sub src s.position)) (Vec3.sub src s.position))) src = 4 := by
  set L := Vec3.length (Vec3.sub src s.position) with hL
  have hLpos : 0 < L := lt_trans (by norm_num) hfar
  have hLne : L ≠ 0 := ne_of_gt hLpos
  have hq1 : (s.onCalled src).2 = some (Vec3.sub src s.position) ∧
      (s.onCalled src).1.position = s.position ∧
      (s.onCalled src).1.personality = s.personality ∧
      (s.onCalled src).1.comfortDistance = s.comfortDistance := by
    by_cases hsr : s.state = CState.sleeping ∨ s.state = CState.resting <;>
      (delta onCalled standUp; simp [hg1, hg2, hsr])
  obtain ⟨h2, hpos, hper, hcd2⟩ := hq1
  have hroll2 : (s.onCalled src).1.personality.shyness * 0.5 < r := by rw [hper]; exact hroll
  have hst : ((s.onCalled src).1.onCalledTimeout src (Vec3.sub src s.position) r).state = CState.called := by
    (delta onCalledTimeout; simp [if_pos hroll2, setState_state])
  have htp : ((s.onCalled src).1.onCalledTimeout src (Vec3.sub src s.position) r).targetPosition =
      some (Vec3.sub (Vec3.flat src) (Vec3.smul 4 (Vec3.normalize (Vec3.sub src s.position)))) := by
    (delta onCalledTimeout; simp only [if_pos hroll2])
    rw [setState_comfortDistance, hcd2, hcd]
  have hnorm : Vec3.normalize (Vec3.sub src s.position) =
      Vec3.smul (1 / L) (Vec3.sub src s.position) := by
    rw [Vec3.normalize_eq_smul, ← hL]
  have htv : Vec3.sub (Vec3.flat src) (Vec3.smul 4 (Vec3.normalize (Vec3.sub src s.position))) =
      Vec3.add s.position (Vec3.smul ((L - 4) / L) (Vec3.sub src s.position)) := by
    rw [hnorm]; exact Vec3.called_target_algebra s.position src L hLne hy0 hsy
  refine ⟨h2, hst, by rw [htp, htv], ?_, ?_, ?_⟩
  · exact div_pos (by linarith) hLpos
  · rw [div_lt_one hLpos]; linarith
  · rw [Vec3.distanceTo, Vec3.called_target_diff, Vec3.length_smul, ← hL]
    have hco : (L - 4) / L - 1 = -(4 / L) := by field_simp
    rw [hco, abs_neg, abs_of_nonneg (le_of_lt (div_pos (by norm_num) hLpos))]
    field_simp

/-- **C7 witness**: the base creature called from `(8,0,0)`. -/
theorem c7_onCalled_witness :
    baseSheep.state ≠ CState.bliss ∧
    4 < Vec3.length (Vec3.sub ⟨8, 0, 0⟩ baseSheep.position) ∧
    ((baseSheep.onCalled ⟨8, 0, 0⟩).1.onCalledTimeout ⟨8, 0, 0⟩
        (Vec3.sub ⟨8, 0, 0⟩ baseSheep.position) (1/2)).state = CState.called := by
  have h8 : Vec3.length (Vec3.sub ⟨8, 0, 0⟩ baseSheep.position) = 8 := by
    simp only [Vec3.length, Vec3.sub, baseSheep]
    rw [show ((8:ℝ) - 0) ^ 2 + ((0:ℝ) - 0) ^ 2 + ((0:ℝ) - 0) ^ 2 = 8 ^ 2 by norm_num,
      Real.sqrt_sq (by norm_num)]
  refine ⟨by simp [baseSheep], by rw [h8]; norm_num,
    (c7_onCalled baseSheep ⟨8, 0, 0⟩ (1/2)
      (by simp [baseSheep]) (by simp [baseSheep])
      (by simp [baseSheep]; norm_num) rfl rfl rfl
      (by rw [h8]; norm_num)).2.1⟩

/-- **C2 counterexample**: a creature in `petted` hit by `onCalled` (as the
global `_callSheep` does for every creature) schedules the delayed callback
— the guard skips only `bliss` and `fleeing` — and when that callback's
shyness roll passes, the state leaves `petted` for `called` without
`endPetting`, a petted-state timeout or the bliss promotion, refuting the
claim that `petted` is only left through those paths. -/
theorem c2_counterexample :
    ({ baseSheep with state := CState.petted } : Cloudfen).state = CState.petted ∧
    (({ baseSheep with state := CState.petted } : Cloudfen).onCalled ⟨8, 0, 0⟩).2 =
      some (Vec3.sub ⟨8, 0, 0⟩ baseSheep.position) ∧
    (({ baseSheep with state := CState.petted } : Cloudfen).onCalled ⟨8, 0, 0⟩).1.state =
      CState.petted ∧
    ((({ baseSheep with state := CState.petted } : Cloudfen).onCalled ⟨8, 0, 0⟩).1.onCalledTimeout
        ⟨8, 0, 0⟩ (Vec3.sub ⟨8, 0, 0⟩ baseSheep.position) (1/2)).state = CState.called := by
  refine ⟨rfl, ?_, ?_, ?_⟩
  · rfl
  · rfl
  · have hx : (({ baseSheep with state := CState.petted } : Cloudfen).onCalled
        ⟨8, 0, 0⟩).1.personality.shyness * 0.5 < 1/2 := by
      rw [show (({ baseSheep with state := CState.petted } : Cloudfen).onCalled
        ⟨8, 0, 0⟩).1.personality = baseSheep.personality from rfl]
      norm_num [baseSheep]
    delta onCalledTimeout
    rw [if_pos hx]
    dsimp only
    rw [setState_state]

/-- **C2 (amended)**: within the `update` / handler event space, `petted` is
entered only by `startPetting` or by already being `petted`; from `petted`,
`update` leaves the state `petted` or promotes to `bliss`; from `bliss`,
`update` keeps `bliss` or exits to `idle`; and the only events that can move
a creature out of `petted`/`bliss` are `update`, the `endPetting` deferred
callback, and the `onCalled` deferred callback (the escape the original
claim missed). -/
theorem c2_amended :
    (∀ (s : Cloudfen) (e : Ev), (s.step e).state = CState.petted →
      s.state = CState.petted ∨ ∃ now, e = Ev.startPet now) ∧
    (∀ (s : Cloudfen) (dt : ℝ) (p : Option Vec3) (o : List Cloudfen) (sc : Option Scene)
        (b : Option (List Ball)) (en : Env), s.state = CState.petted →
      (s.update dt p o sc b en).state = CState.petted ∨
      (s.update dt p o sc b en).state = CState.bliss) ∧
    (∀ (s : Cloudfen) (dt : ℝ) (p : Option Vec3) (o : List Cloudfen) (sc : Option Scene)
        (b : Option (List Ball)) (en : Env), s.state = CState.bliss →
      (s.update dt p o sc b en).state = CState.bliss ∨
      (s.update dt p o sc b en).state = CState.idle) ∧
    (∀ (s : Cloudfen) (e : Ev), s.state = CState.petted ∨ s.state = CState.bliss →
      (s.step e).state ≠ s.state →
      (∃ dt p o sc b en, e = Ev.update dt p o sc b en) ∨ e = Ev.endPetTimeout ∨
      ∃ src dir r, e = Ev.calledTimeout src dir r) := by
  refine ⟨?_, ?_, ?_, ?_⟩
  · intro s e hp
    cases e with
    | update dt p o sc b en =>
      left
      by_contra hn
      exact update_not_petted s dt p o sc b en hn hp
    | startPet now => exact Or.inr ⟨now, rfl⟩
    | endPet d => exact Or.inl ((endPetting_state s d).symm.trans hp)
    | endPetTimeout =>
      left
      rcases endPettingTimeout_state_or s with hx | hx
      · exact hx.symm.trans hp
      · rw [Cloudfen.step] at hp; rw [hx] at hp; exact absurd hp (by decide)
    | stroke dx dy speed now => exact Or.inl ((onStroke_state s dx dy speed now).symm.trans hp)
    | hoverStart => exact Or.inl ((onHoverStart_state s).symm.trans hp)
    | hoverEnd => exact Or.inl ((onHoverEnd_state s).symm.trans hp)
    | called src => exact Or.inl ((onCalled_fst_state s src).symm.trans hp)
    | calledTimeout src dir r =>
      left
      rcases onCalledTimeout_state_or s src dir r with hx | hx <;>
        (rw [Cloudfen.step] at hp; rw [hx] at hp; exact absurd hp (by decide))
    | socialPromote j =>
      left
      by_cases hi : s.state = CState.idle
      · rw [Cloudfen.step, socialPromote, if_pos hi, setState_state] at hp
        exact absurd hp (by decide)
      · exact (socialPromote_state_of_ne s j hi).symm.trans hp
    | respondVocalize => exact Or.inl ((doRespondVocalize_state s).symm.trans hp)
  · exact fun s dt p o sc b en hs => update_of_petted s dt p o sc b en hs
  · exact fun s dt p o sc b en hs => update_of_bliss s dt p o sc b en hs
  · intro s e hpb hch
    cases e with
    | update dt p o sc b en => exact Or.inl ⟨dt, p, o, sc, b, en, rfl⟩
    | endPetTimeout => exact Or.inr (Or.inl rfl)
    | calledTimeout src dir r => exact Or.inr (Or.inr ⟨src, dir, r, rfl⟩)
    | startPet now =>
      exfalso
      rcases hpb with hs | hs
      · exact hch ((startPetting_state_of_petted s now hs).trans hs.symm)
      · exact hch ((startPetting_state_of_bliss s now hs).trans hs.symm)
    | endPet d => exact absurd (endPetting_state s d) hch
    | stroke dx dy speed now => exact absurd (onStroke_state s dx dy speed now) hch
    | hoverStart => exact absurd (onHoverStart_state s) hch
    | hoverEnd => exact absurd (onHoverEnd_state s) hch
    | called src => exact absurd (onCalled_fst_state s src) hch
    | socialPromote j =>
      refine absurd (socialPromote_state_of_ne s j ?_) hch
      rcases hpb with hs | hs <;> rw [hs] <;> decide
    | respondVocalize => exact absurd (doRespondVocalize_state s) hch

/-- **C2 amended witness**: a concrete petted creature through one `update`. -/
theorem c2_amended_witness :
    ({ baseSheep with state := CState.petted } : Cloudfen).state = CState.petted ∧
    ((({ baseSheep with state := CState.petted } : Cloudfen).update (1/10) none [] none none
        envHalf).state = CState.petted ∨
     (({ baseSheep with state := CState.petted } : Cloudfen).update (1/10) none [] none none
        envHalf).state = CState.bliss) :=
  ⟨rfl, c2_amended.2.1 { baseSheep with state := CState.petted } (1/10) none [] none none
    envHalf rfl⟩

end Cloudfen

/-! ## Physics and ball collision never touch behavioural fields; the
dispatch routines never touch `personality`. -/

namespace Cloudfen

theorem setState_pres_personality (s : Cloudfen) (n : CState) : (s.setState n).personality = s.personality := by
  delta setState; split <;> rfl

theorem pickLookTarget_personality (s : Cloudfen) (p : Option Vec3) (o : List Cloudfen) (e : Env) :
    (s.pickLookTarget p o e).personality = s.personality := by
  rcases hn : s.findNearestSheep o with _ | ⟨i, pr, d⟩ <;>
    (delta pickLookTarget; simp only [hn, apply_ite Cloudfen.personality, ite_self])

theorem chooseWanderTarget_personality (s : Cloudfen) (o : List Cloudfen) (e : Env) :
    (s.chooseWanderTarget o e).personality = s.personality := by
  rcases hn : s.findNearestSheep o with _ | ⟨i, pr, d⟩ <;>
    (delta chooseWanderTarget; simp only [hn, apply_ite Cloudfen.personality, ite_self])

theorem chooseNextBehavior_personality (s : Cloudfen) (p : Option Vec3) (o : List Cloudfen) (e : Env) :
    (s.chooseNextBehavior p o e).personality = s.personality := by
  rcases hn : s.findNearestSheep o with _ | ⟨i, pr, d⟩ <;>
    rcases hfv : s.favoriteSpot with _ | fv <;>
    (delta chooseNextBehavior; simp only [hn, hfv, apply_ite Cloudfen.personality, apply_ite Cloudfen.favoriteSpot, ite_self, setState_pres_personality, pickLookTarget_personality, chooseWanderTarget_personality])

theorem updateIdle_personality (s : Cloudfen) (dt : ℝ) (p : Option Vec3) (o : List Cloudfen) (e : Env) :
    (s.updateIdle dt p o e).personality = s.personality := by
  rcases p with _ | pp <;> rcases ht : s.targetPosition with _ | t <;>
    (delta updateIdle doBlink; simp only [ht, apply_ite Cloudfen.personality, ite_self, setState_pres_personality, pickLookTarget_personality, chooseNextBehavior_personality])

theorem updateGrazing_personality (s : Cloudfen) (dt : ℝ) (p : Option Vec3) (e : Env) :
    (s.updateGrazing dt p e).personality = s.personality := by
  rcases p with _ | pp <;>
    (delta updateGrazing doBlink; simp only [apply_ite Cloudfen.personality, ite_self, setState_pres_personality])

theorem updateLooking_personality (s : Cloudfen) (dt : ℝ) :
    (s.updateLooking dt).personality = s.personality := by
  (delta updateLooking; simp only [apply_ite Cloudfen.personality, ite_self, setState_pres_personality])

theorem updateStretching_personality (s : Cloudfen) (dt : ℝ) :
    (s.updateStretching dt).personality = s.personality := by
  (delta updateStretching; simp only [apply_ite Cloudfen.personality, ite_self, setState_pres_personality])

theorem updateResting_personality (s : Cloudfen) (dt : ℝ) (p : Option Vec3) (e : Env) :
    (s.updateResting dt p e).personality = s.personality := by
  rcases p with _ | pp <;>
    (delta updateResting doBlink standUp; simp only [apply_ite Cloudfen.personality, ite_self, setState_pres_personality])

theorem updateSleeping_personality (s : Cloudfen) (dt : ℝ) (p : Option Vec3) (e : Env) :
    (s.updateSleeping dt p e).personality = s.personality := by
  rcases p with _ | pp <;>
    (delta updateSleeping standUp; simp only [apply_ite Cloudfen.personality, ite_self, setState_pres_personality])

theorem updateSocial_personality (s : Cloudfen) (dt : ℝ) (o : List Cloudfen) (e : Env) :
    (s.updateSocial dt o e).personality = s.personality := by
  rcases hso : s.socialTarget with _ | i
  · (delta updateSocial; simp only [hso, apply_ite Cloudfen.personality, ite_self, setState_pres_personality])
  · rcases hg : o.get? i with _ | peer <;>
      (delta updateSocial doVocalizeFlag doSniff; simp only [hso, hg, apply_ite Cloudfen.personality, ite_self, setState_pres_personality])

theorem updateCurious_personality (s : Cloudfen) (dt : ℝ) (p : Option Vec3) (e : Env) :
    (s.updateCurious dt p e).personality = s.personality := by
  rcases p with _ | pp <;>
    (delta updateCurious doPawGround doVocalizeFlag; simp only [apply_ite Cloudfen.personality, ite_self, setState_pres_personality])

theorem updateCalled_personality (s : Cloudfen) : s.updateCalled.personality = s.personality := by
  rcases ht : s.targetPosition with _ | t <;>
    (delta updateCalled; simp only [ht, apply_ite Cloudfen.personality, ite_self, setState_pres_personality])

theorem updateFleeing_personality (s : Cloudfen) : s.updateFleeing.personality = s.personality := by
  rcases ht : s.targetPosition with _ | t <;>
    (delta updateFleeing; simp only [ht, apply_ite Cloudfen.personality, ite_self, setState_pres_personality])

theorem updatePetted_personality (s : Cloudfen) (dt : ℝ) (e : Env) :
    (s.updatePetted dt e).personality = s.personality := by
  (delta updatePetted; simp only [apply_ite Cloudfen.personality, ite_self, setState_pres_personality])

theorem updateBliss_personality (s : Cloudfen) (dt : ℝ) :
    (s.updateBliss dt).personality = s.personality := by
  (delta updateBliss; simp only [apply_ite Cloudfen.personality, ite_self, setState_pres_personality])

theorem collideSheep_mood (r : ℝ) (s o : Cloudfen) : (collideSheep r s o).mood = s.mood := by
  delta collideSheep; dsimp only; split <;> rfl

theorem collideSheepList_mood (r : ℝ) (s : Cloudfen) (l : List Cloudfen) :
    (collideSheepList r s l).mood = s.mood := by
  induction l generalizing s with
  | nil => rfl
  | cons hd tl ih => rw [collideSheepList, ih, collideSheep_mood]

theorem applyPhysics_mood (s : Cloudfen) (o : List Cloudfen) (sc : Option Scene) (dt : ℝ) :
    (s.applyPhysics o sc dt).mood = s.mood := by
  delta applyPhysics; dsimp only; repeat' split
  all_goals simp [collideSheepList_mood]

theorem collideBall_mood (r : ℝ) (s : Cloudfen) (b : Ball) : (collideBall r s b).mood = s.mood := by
  delta collideBall; dsimp only; repeat' split
  all_goals rfl

theorem collideBallList_mood (r : ℝ) (s : Cloudfen) (l : List Ball) :
    (collideBallList r s l).mood = s.mood := by
  induction l generalizing s with
  | nil => rfl
  | cons hd tl ih => rw [collideBallList, ih, collideBall_mood]

theorem handleMossBallCollision_mood (s : Cloudfen) (b : Option (List Ball)) :
    (s.handleMossBallCollision b).mood = s.mood := by
  delta handleMossBallCollision; rcases b with _ | bs
  · rfl
  · dsimp only; rw [collideBallList_mood]

theorem collideSheep_happiness (r : ℝ) (s o : Cloudfen) : (collideSheep r s o).happiness = s.happiness := by
  delta collideSheep; dsimp only; split <;> rfl

theorem collideSheepList_happiness (r : ℝ) (s : Cloudfen) (l : List Cloudfen) :
    (collideSheepList r s l).happiness = s.happiness := by
  induction l generalizing s with
  | nil => rfl
  | cons hd tl ih => rw [collideSheepList, ih, collideSheep_happiness]

theorem applyPhysics_happiness (s : Cloudfen) (o : List Cloudfen) (sc : Option Scene) (dt : ℝ) :
    (s.applyPhysics o sc dt).happiness = s.happiness := by
  delta applyPhysics; dsimp only; repeat' split
  all_goals simp [collideSheepList_happiness]

theorem collideBall_happiness (r : ℝ) (s : Cloudfen) (b : Ball) : (collideBall r s b).happiness = s.happiness := by
  delta collideBall; dsimp only; repeat' split
  all_goals rfl

theorem collideBallList_happiness (r : ℝ) (s : Cloudfen) (l : List Ball) :
    (collideBallList r s l).happiness = s.happiness := by
  induction l generalizing s with
  | nil => rfl
  | cons hd tl ih => rw [collideBallList, ih, collideBall_happiness]

theorem handleMossBallCollision_happiness (s : Cloudfen) (b : Option (List Ball)) :
    (s.handleMossBallCollision b).happiness = s.happiness := by
  delta handleMossBallCollision; rcases b with _ | bs
  · rfl
  · dsimp only; rw [collideBallList_happiness]

theorem collideSheep_lastPlayerPosition (r : ℝ) (s o : Cloudfen) : (collideSheep r s o).lastPlayerPosition = s.lastPlayerPosition := by
  delta collideSheep; dsimp only; split <;> rfl

theorem collideSheepList_lastPlayerPosition (r : ℝ) (s : Cloudfen) (l : List Cloudfen) :
    (collideSheepList r s l).lastPlayerPosition = s.lastPlayerPosition := by
  induction l generalizing s with
  | nil => rfl
  | cons hd tl ih => rw [collideSheepList, ih, collideSheep_lastPlayerPosition]

theorem applyPhysics_lastPlayerPosition (s : Cloudfen) (o : List Cloudfen) (sc : Option Scene) (dt : ℝ) :
    (s.applyPhysics o sc dt).lastPlayerPosition = s.lastPlayerPosition := by
  delta applyPhysics; dsimp only; repeat' split
  all_goals simp [collideSheepList_lastPlayerPosition]

theorem collideBall_lastPlayerPosition (r : ℝ) (s : Cloudfen) (b : Ball) : (collideBall r s b).lastPlayerPosition = s.lastPlayerPosition := by
  delta collideBall; dsimp only; repeat' split
  all_goals rfl

theorem collideBallList_lastPlayerPosition (r : ℝ) (s : Cloudfen) (l : List Ball) :
    (collideBallList r s l).lastPlayerPosition = s.lastPlayerPosition := by
  induction l generalizing s with
  | nil => rfl
  | cons hd tl ih => rw [collideBallList, ih, collideBall_lastPlayerPosition]

theorem handleMossBallCollision_lastPlayerPosition (s : Cloudfen) (b : Option (List Ball)) :
    (s.handleMossBallCollision b).lastPlayerPosition = s.lastPlayerPosition := by
  delta handleMossBallCollision; rcases b with _ | bs
  · rfl
  · dsimp only; rw [collideBallList_lastPlayerPosition]

theorem collideSheep_lastSeenPlayerTime (r : ℝ) (s o : Cloudfen) : (collideSheep r s o).lastSeenPlayerTime = s.lastSeenPlayerTime := by
  delta collideSheep; dsimp only; split <;> rfl

theorem collideSheepList_lastSeenPlayerTime (r : ℝ) (s : Cloudfen) (l : List Cloudfen) :
    (collideSheepList r s l).lastSeenPlayerTime = s.lastSeenPlayerTime := by
  induction l generalizing s with
  | nil => rfl
  | cons hd tl ih => rw [collideSheepList, ih, collideSheep_lastSeenPlayerTime]

theorem applyPhysics_lastSeenPlayerTime (s : Cloudfen) (o : List Cloudfen) (sc : Option Scene) (dt : ℝ) :
    (s.applyPhysics o sc dt).lastSeenPlayerTime = s.lastSeenPlayerTime := by
  delta applyPhysics; dsimp only; repeat' split
  all_goals simp [collideSheepList_lastSeenPlayerTime]

theorem collideBall_lastSeenPlayerTime (r : ℝ) (s : Cloudfen) (b : Ball) : (collideBall r s b).lastSeenPlayerTime = s.lastSeenPlayerTime := by
  delta collideBall; dsimp only; repeat' split
  all_goals rfl

theorem collideBallList_lastSeenPlayerTime (r : ℝ) (s : Cloudfen) (l : List Ball) :
    (collideBallList r s l).lastSeenPlayerTime = s.lastSeenPlayerTime := by
  induction l generalizing s with
  | nil => rfl
  | cons hd tl ih => rw [collideBallList, ih, collideBall_lastSeenPlayerTime]

theorem handleMossBallCollision_lastSeenPlayerTime (s : Cloudfen) (b : Option (List Ball)) :
    (s.handleMossBallCollision b).lastSeenPlayerTime = s.lastSeenPlayerTime := by
  delta handleMossBallCollision; rcases b with _ | bs
  · rfl
  · dsimp only; rw [collideBallList_lastSeenPlayerTime]

theorem collideSheep_isLyingDown (r : ℝ) (s o : Cloudfen) : (collideSheep r s o).isLyingDown = s.isLyingDown := by
  delta collideSheep; dsimp only; split <;> rfl

theorem collideSheepList_isLyingDown (r : ℝ) (s : Cloudfen) (l : List Cloudfen) :
    (collideSheepList r s l).isLyingDown = s.isLyingDown := by
  induction l generalizing s with
  | nil => rfl
  | cons hd tl ih => rw [collideSheepList, ih, collideSheep_isLyingDown]

theorem applyPhysics_isLyingDown (s : Cloudfen) (o : List Cloudfen) (sc : Option Scene) (dt : ℝ) :
    (s.applyPhysics o sc dt).isLyingDown = s.isLyingDown := by
  delta applyPhysics; dsimp only; repeat' split
  all_goals simp [collideSheepList_isLyingDown]

theorem collideBall_isLyingDown (r : ℝ) (s : Cloudfen) (b : Ball) : (collideBall r s b).isLyingDown = s.isLyingDown := by
  delta collideBall; dsimp only; repeat' split
  all_goals rfl

theorem collideBallList_isLyingDown (r : ℝ) (s : Cloudfen) (l : List Ball) :
    (collideBallList r s l).isLyingDown = s.isLyingDown := by
  induction l generalizing s with
  | nil => rfl
  | cons hd tl ih => rw [collideBallList, ih, collideBall_isLyingDown]

theorem handleMossBallCollision_isLyingDown (s : Cloudfen) (b : Option (List Ball)) :
    (s.handleMossBallCollision b).isLyingDown = s.isLyingDown := by
  delta handleMossBallCollision; rcases b with _ | bs
  · rfl
  · dsimp only; rw [collideBallList_isLyingDown]

theorem collideSheep_lyingDownProgress (r : ℝ) (s o : Cloudfen) : (collideSheep r s o).lyingDownProgress = s.lyingDownProgress := by
  delta collideSheep; dsimp only; split <;> rfl

theorem collideSheepList_lyingDownProgress (r : ℝ) (s : Cloudfen) (l : List Cloudfen) :
    (collideSheepList r s l).lyingDownProgress = s.lyingDownProgress := by
  induction l generalizing s with
  | nil => rfl
  | cons hd tl ih => rw [collideSheepList, ih, collideSheep_lyingDownProgress]

theorem applyPhysics_lyingDownProgress (s : Cloudfen) (o : List Cloudfen) (sc : Option Scene) (dt : ℝ) :
    (s.applyPhysics o sc dt).lyingDownProgress = s.lyingDownProgress := by
  delta applyPhysics; dsimp only; repeat' split
  all_goals simp [collideSheepList_lyingDownProgress]

theorem collideBall_lyingDownProgress (r : ℝ) (s : Cloudfen) (b : Ball) : (collideBall r s b).lyingDownProgress = s.lyingDownProgress := by
  delta collideBall; dsimp only; repeat' split
  all_goals rfl

theorem collideBallList_lyingDownProgress (r : ℝ) (s : Cloudfen) (l : List Ball) :
    (collideBallList r s l).lyingDownProgress = s.lyingDownProgress := by
  induction l generalizing s with
  | nil => rfl
  | cons hd tl ih => rw [collideBallList, ih, collideBall_lyingDownProgress]

theorem handleMossBallCollision_lyingDownProgress (s : Cloudfen) (b : Option (List Ball)) :
    (s.handleMossBallCollision b).lyingDownProgress = s.lyingDownProgress := by
  delta handleMossBallCollision; rcases b with _ | bs
  · rfl
  · dsimp only; rw [collideBallList_lyingDownProgress]

theorem collideSheep_personality (r : ℝ) (s o : Cloudfen) : (collideSheep r s o).personality = s.personality := by
  delta collideSheep; dsimp only; split <;> rfl

theorem collideSheepList_personality (r : ℝ) (s : Cloudfen) (l : List Cloudfen) :
    (collideSheepList r s l).personality = s.personality := by
  induction l generalizing s with
  | nil => rfl
  | cons hd tl ih => rw [collideSheepList, ih, collideSheep_personality]

theorem applyPhysics_personality (s : Cloudfen) (o : List Cloudfen) (sc : Option Scene) (dt : ℝ) :
    (s.applyPhysics o sc dt).personality = s.personality := by
  delta applyPhysics; dsimp only; repeat' split
  all_goals simp [collideSheepList_personality]

theorem collideBall_personality (r : ℝ) (s : Cloudfen) (b : Ball) : (collideBall r s b).personality = s.personality := by
  delta collideBall; dsimp only; repeat' split
  all_goals rfl

theorem collideBallList_personality (r : ℝ) (s : Cloudfen) (l : List Ball) :
    (collideBallList r s l).personality = s.personality := by
  induction l generalizing s with
  | nil => rfl
  | cons hd tl ih => rw [collideBallList, ih, collideBall_personality]

theorem handleMossBallCollision_personality (s : Cloudfen) (b : Option (List Ball)) :
    (s.handleMossBallCollision b).personality = s.personality := by
  delta handleMossBallCollision; rcases b with _ | bs
  · rfl
  · dsimp only; rw [collideBallList_personality]

theorem collideSheep_playerAwareness (r : ℝ) (s o : Cloudfen) : (collideSheep r s o).playerAwareness = s.playerAwareness := by
  delta collideSheep; dsimp only; split <;> rfl

theorem collideSheepList_playerAwareness (r : ℝ) (s : Cloudfen) (l : List Cloudfen) :
    (collideSheepList r s l).playerAwareness = s.playerAwareness := by
  induction l generalizing s with
  | nil => rfl
  | cons hd tl ih => rw [collideSheepList, ih, collideSheep_playerAwareness]

theorem applyPhysics_playerAwareness (s : Cloudfen) (o : List Cloudfen) (sc : Option Scene) (dt : ℝ) :
    (s.applyPhysics o sc dt).playerAwareness = s.playerAwareness := by
  delta applyPhysics; dsimp only; repeat' split
  all_goals simp [collideSheepList_playerAwareness]

theorem collideBall_playerAwareness (r : ℝ) (s : Cloudfen) (b : Ball) : (collideBall r s b).playerAwareness = s.playerAwareness := by
  delta collideBall; dsimp only; repeat' split
  all_goals rfl

theorem collideBallList_playerAwareness (r : ℝ) (s : Cloudfen) (l : List Ball) :
    (collideBallList r s l).playerAwareness = s.playerAwareness := by
  induction l generalizing s with
  | nil => rfl
  | cons hd tl ih => rw [collideBallList, ih, collideBall_playerAwareness]

theorem handleMossBallCollision_playerAwareness (s : Cloudfen) (b : Option (List Ball)) :
    (s.handleMossBallCollision b).playerAwareness = s.playerAwareness := by
  delta handleMossBallCollision; rcases b with _ | bs
  · rfl
  · dsimp only; rw [collideBallList_playerAwareness]

theorem collideBall_position_y (r : ℝ) (s : Cloudfen) (b : Ball) :
    (collideBall r s b).position.y = s.position.y := by
  delta collideBall; dsimp only; repeat' split
  all_goals rfl

theorem collideBallList_position_y (r : ℝ) (s : Cloudfen) (l : List Ball) :
    (collideBallList r s l).position.y = s.position.y := by
  induction l generalizing s with
  | nil => rfl
  | cons hd tl ih => rw [collideBallList, ih, collideBall_position_y]

theorem handleMossBallCollision_position_y (s : Cloudfen) (b : Option (List Ball)) :
    (s.handleMossBallCollision b).position.y = s.position.y := by
  delta handleMossBallCollision; rcases b with _ | bs
  · rfl
  · dsimp only; rw [collideBallList_position_y]

theorem applyPhysics_position_y_none (s : Cloudfen) (o : List Cloudfen) (dt : ℝ) :
    (s.applyPhysics o none dt).position.y = 0 := rfl

end Cloudfen

/-! ## Composition: what the bookkeeping half `updateCore` preserves, and
how the per-state switch dispatches. -/

namespace Cloudfen

theorem setState_pres_position (s : Cloudfen) (n : CState) : (s.setState n).position = s.position := by
  delta setState; split <;> rfl

theorem setState_pres_isPetted (s : Cloudfen) (n : CState) : (s.setState n).isPetted = s.isPetted := by
  delta setState; split <;> rfl

theorem setState_pres_isLyingDown (s : Cloudfen) (n : CState) :
    (s.setState n).isLyingDown = s.isLyingDown := by
  delta setState; split <;> rfl

theorem setState_pres_lyingDownProgress (s : Cloudfen) (n : CState) :
    (s.setState n).lyingDownProgress = s.lyingDownProgress := by
  delta setState; split <;> rfl

theorem updateCore_position (s : Cloudfen) (dt : ℝ) (p : Option Vec3) (o : List Cloudfen) (e : Env) :
    (s.updateCore dt p o e).position = s.position := by
  (delta updateCore; simp only [apply_ite Cloudfen.position, ite_self, updateAttention_position, updateMood_position, updateMicroBehaviors_position, updatePlayerAwareness_position])

theorem updateCore_isPetted (s : Cloudfen) (dt : ℝ) (p : Option Vec3) (o : List Cloudfen) (e : Env) :
    (s.updateCore dt p o e).isPetted = s.isPetted := by
  (delta updateCore; simp only [apply_ite Cloudfen.isPetted, ite_self, updateAttention_isPetted, updateMood_isPetted, updateMicroBehaviors_isPetted, updatePlayerAwareness_isPetted])

theorem updateCore_isHovered (s : Cloudfen) (dt : ℝ) (p : Option Vec3) (o : List Cloudfen) (e : Env) :
    (s.updateCore dt p o e).isHovered = s.isHovered := by
  (delta updateCore; simp only [apply_ite Cloudfen.isHovered, ite_self, updateAttention_isHovered, updateMood_isHovered, updateMicroBehaviors_isHovered, updatePlayerAwareness_isHovered])

theorem updateCore_sleepTimer (s : Cloudfen) (dt : ℝ) (p : Option Vec3) (o : List Cloudfen) (e : Env) :
    (s.updateCore dt p o e).sleepTimer = s.sleepTimer := by
  (delta updateCore; simp only [apply_ite Cloudfen.sleepTimer, ite_self, updateAttention_sleepTimer, updateMood_sleepTimer, updateMicroBehaviors_sleepTimer, updatePlayerAwareness_sleepTimer])

theorem updateCore_personality (s : Cloudfen) (dt : ℝ) (p : Option Vec3) (o : List Cloudfen) (e : Env) :
    (s.updateCore dt p o e).personality = s.personality := by
  (delta updateCore; simp only [apply_ite Cloudfen.personality, ite_self, updateAttention_personality, updateMood_personality, updateMicroBehaviors_personality, updatePlayerAwareness_personality])

theorem updateCore_happiness_petted (s : Cloudfen) (dt : ℝ) (p : Option Vec3) (o : List Cloudfen)
    (e : Env) (h : s.isPetted = true) :
    (s.updateCore dt p o e).happiness = s.happiness := by
  (delta updateCore; simp only [apply_ite Cloudfen.happiness, apply_ite Cloudfen.isPetted, ite_self, updateAttention_happiness, updateMood_happiness, updateMicroBehaviors_happiness, updatePlayerAwareness_happiness, h, reduceCtorEq, if_false, ite_false])

theorem updateCore_stateTimer_skip (s : Cloudfen) (dt : ℝ) (p : Option Vec3) (o : List Cloudfen)
    (e : Env) (h : s.state = CState.petted ∨ s.state = CState.bliss ∨ s.state = CState.sleeping) :
    (s.updateCore dt p o e).stateTimer = s.stateTimer + dt := by
  delta updateCore; dsimp only
  simp only [apply_ite Cloudfen.stateTimer, ite_self, updateAttention_stateTimer,
    updateMood_stateTimer, updateMicroBehaviors_stateTimer]
  rw [updatePlayerAwareness_stateTimer_skip _ dt p e (by
    simp only [apply_ite Cloudfen.state, ite_self]
    exact h)]
  simp only [apply_ite Cloudfen.stateTimer, ite_self]

theorem updateDispatch_of_petted_eq (s : Cloudfen) (dt : ℝ) (p : Option Vec3) (o : List Cloudfen)
    (e : Env) (h : s.state = CState.petted) :
    s.updateDispatch dt p o e = s.updatePetted dt e := by
  (delta updateDispatch; simp only [h])

theorem updateDispatch_of_bliss_eq (s : Cloudfen) (dt : ℝ) (p : Option Vec3) (o : List Cloudfen)
    (e : Env) (h : s.state = CState.bliss) :
    s.updateDispatch dt p o e = s.updateBliss dt := by
  (delta updateDispatch; simp only [h])

theorem updateDispatch_of_sleeping_eq (s : Cloudfen) (dt : ℝ) (p : Option Vec3) (o : List Cloudfen)
    (e : Env) (h : s.state = CState.sleeping) :
    s.updateDispatch dt p o e = s.updateSleeping dt p e := by
  (delta updateDispatch; simp only [h])

/-- In `_updatePetted`, sustained high happiness while petted triggers the
bliss promotion. -/
theorem updatePetted_to_bliss (s : Cloudfen) (dt : ℝ) (e : Env)
    (hh : 0.8 < s.happiness) (hip : s.isPetted = true) (ht : 2 < s.stateTimer) :
    (s.updatePetted dt e).state = CState.bliss := by
  (delta updatePetted; simp only [apply_ite Cloudfen.state, setState_state, ite_self])
  rw [if_pos (⟨hh, hip, ht⟩ : _ ∧ _ ∧ _)]

/-- In `_updateBliss`, an unpetted creature past three seconds drops to
`idle` with happiness reset to `0.3`. -/
theorem updateBliss_exit (s : Cloudfen) (dt : ℝ)
    (hip : s.isPetted = false) (ht : 3 < s.stateTimer) :
    (s.updateBliss dt).state = CState.idle ∧ (s.updateBliss dt).happiness = 0.3 := by
  constructor <;>
    (delta updateBliss; simp only [apply_ite Cloudfen.state, apply_ite Cloudfen.happiness, setState_state, setState_happiness, ite_self, hip, eq_self_iff_true, if_true, if_pos ht])

/-- In `_updateSleeping`, a player inside three units combined with either a
sub-two-unit distance or an active hover wakes the creature into `curious`,
standing it up. -/
theorem updateSleeping_wake (s : Cloudfen) (dt : ℝ) (p : Vec3) (e : Env)
    (hd3 : s.position.distanceTo p < 3)
    (hw : s.position.distanceTo p < 2 ∨ s.isHovered = true) :
    (s.updateSleeping dt (some p) e).state = CState.curious ∧
    (s.updateSleeping dt (some p) e).isLyingDown = false ∧
    (s.updateSleeping dt (some p) e).lyingDownProgress = 0 := by
  refine ⟨?_, ?_, ?_⟩ <;>
    (delta updateSleeping standUp; simp only [apply_ite Cloudfen.state, apply_ite Cloudfen.isLyingDown, apply_ite Cloudfen.lyingDownProgress, setState_state, setState_pres_isLyingDown, setState_pres_lyingDownProgress, ite_self, if_pos hd3, if_pos hw])

end Cloudfen

/-! ## Further composition helpers: the absent-player tick, the sleeping
stay, and the deterministic flee trigger. -/

namespace Cloudfen

theorem updateCore_lastPlayerPosition_none (s : Cloudfen) (dt : ℝ) (o : List Cloudfen) (e : Env) :
    (s.updateCore dt none o e).lastPlayerPosition = s.lastPlayerPosition := by
  (delta updateCore; simp only [apply_ite Cloudfen.lastPlayerPosition, ite_self, updateAttention_lastPlayerPosition_none, updateMood_lastPlayerPosition, updateMicroBehaviors_lastPlayerPosition, updatePlayerAwareness_none])

theorem updateCore_lastSeenPlayerTime_none (s : Cloudfen) (dt : ℝ) (o : List Cloudfen) (e : Env) :
    (s.updateCore dt none o e).lastSeenPlayerTime = s.lastSeenPlayerTime := by
  (delta updateCore; simp only [apply_ite Cloudfen.lastSeenPlayerTime, ite_self, updateAttention_lastSeenPlayerTime_none, updateMood_lastSeenPlayerTime, updateMicroBehaviors_lastSeenPlayerTime, updatePlayerAwareness_none])

theorem updateCore_playerAwareness_none (s : Cloudfen) (dt : ℝ) (o : List Cloudfen) (e : Env) :
    (s.updateCore dt none o e).playerAwareness = s.playerAwareness := by
  (delta updateCore; simp only [apply_ite Cloudfen.playerAwareness, ite_self, updateAttention_playerAwareness, updateMood_playerAwareness, updateMicroBehaviors_playerAwareness, updatePlayerAwareness_none])

theorem updateCore_alertness_none (s : Cloudfen) (dt : ℝ) (o : List Cloudfen) (e : Env) :
    (s.updateCore dt none o e).mood.alertness = s.mood.alertness := by
  (delta updateCore; simp only [apply_ite Cloudfen.mood, ite_self, updateAttention_mood, updateMood_alertness_none, updateMicroBehaviors_mood, updatePlayerAwareness_none])

/-- With no player snapshot, `_updateSleeping` keeps the creature asleep as
long as the stochastic stretch restart is not due. -/
theorem updateSleeping_stay_none (s : Cloudfen) (dt : ℝ) (e : Env)
    (hst : s.sleepTimer + dt ≤ 10 + e.rand 39 * 10) :
    (s.updateSleeping dt none e).state = s.state := by
  (delta updateSleeping standUp; simp only [apply_ite Cloudfen.state, setState_state, ite_self])
  rw [if_neg (fun hc => absurd hc.1 (not_lt.mpr hst))]

/-- The flee trigger of `_updatePlayerAwareness`: a close, running player and
a passing flightiness roll put the creature into `fleeing` with a target
`8 + rand 1 * 5` units straight away from the player. -/
theorem updatePlayerAwareness_flee (s : Cloudfen) (dt : ℝ) (p : Vec3) (e : Env)
    (hroll : e.rand 0 < s.personality.flightiness)
    (hd : (Vec3.flat (Vec3.sub p s.position)).length < s.fleeThreshold)
    (hv : 3 < (match e.playerVel with
      | some v => Real.sqrt (v.x ^ 2 + v.z ^ 2)
      | none => (0:ℝ)))
    (h1 : s.state ≠ CState.petted) (h2 : s.state ≠ CState.bliss)
    (h3 : s.state ≠ CState.sleeping) :
    (s.updatePlayerAwareness dt (some p) e).state = CState.fleeing ∧
    (s.updatePlayerAwareness dt (some p) e).targetPosition =
      some (Vec3.add s.position (Vec3.smul (8 + e.rand 1 * 5)
        (Vec3.smul (-1) (Vec3.flat (Vec3.sub p s.position)).normalize))) := by
  delta updatePlayerAwareness; dsimp only
  rw [if_pos (⟨hd, hv, h1, h2, h3⟩ : _ ∧ _ ∧ _ ∧ _ ∧ _)]
  constructor <;>
    (delta standUp; simp only [apply_ite Cloudfen.state, apply_ite Cloudfen.targetPosition, apply_ite Cloudfen.personality, apply_ite Cloudfen.position, setState_state, setState_pres_position, ite_self]) <;>
    rw [if_pos hroll]

end Cloudfen

/-! ## Claim theorems: C4, C5, C9, C3 -/

namespace Cloudfen

theorem updateDispatch_mood (s : Cloudfen) (dt : ℝ) (p : Option Vec3) (o : List Cloudfen)
    (e : Env) : (s.updateDispatch dt p o e).mood = s.mood := by
  rcases hs : s.state <;>
    (delta updateDispatch; simp only [hs, updateIdle_mood, updateGrazing_mood, updateLooking_mood, updateStretching_mood, updateResting_mood, updateSleeping_mood, updateSocial_mood, updateCurious_mood, updatePetted_mood, updateBliss_mood, updateCalled_mood, updateFleeing_mood])

theorem updateDispatch_playerAwareness (s : Cloudfen) (dt : ℝ) (p : Option Vec3) (o : List Cloudfen)
    (e : Env) : (s.updateDispatch dt p o e).playerAwareness = s.playerAwareness := by
  rcases hs : s.state <;>
    (delta updateDispatch; simp only [hs, updateIdle_playerAwareness, updateGrazing_playerAwareness, updateLooking_playerAwareness, updateStretching_playerAwareness, updateResting_playerAwareness, updateSleeping_playerAwareness, updateSocial_playerAwareness, updateCurious_playerAwareness, updatePetted_playerAwareness, updateBliss_playerAwareness, updateCalled_playerAwareness, updateFleeing_playerAwareness])

theorem updateDispatch_lastPlayerPosition (s : Cloudfen) (dt : ℝ) (p : Option Vec3) (o : List Cloudfen)
    (e : Env) : (s.updateDispatch dt p o e).lastPlayerPosition = s.lastPlayerPosition := by
  rcases hs : s.state <;>
    (delta updateDispatch; simp only [hs, updateIdle_lastPlayerPosition, updateGrazing_lastPlayerPosition, updateLooking_lastPlayerPosition, updateStretching_lastPlayerPosition, updateResting_lastPlayerPosition, updateSleeping_lastPlayerPosition, updateSocial_lastPlayerPosition, updateCurious_lastPlayerPosition, updatePetted_lastPlayerPosition, updateBliss_lastPlayerPosition, updateCalled_lastPlayerPosition, updateFleeing_lastPlayerPosition])

theorem updateDispatch_lastSeenPlayerTime (s : Cloudfen) (dt : ℝ) (p : Option Vec3) (o : List Cloudfen)
    (e : Env) : (s.updateDispatch dt p o e).lastSeenPlayerTime = s.lastSeenPlayerTime := by
  rcases hs : s.state <;>
    (delta updateDispatch; simp only [hs, updateIdle_lastSeenPlayerTime, updateGrazing_lastSeenPlayerTime, updateLooking_lastSeenPlayerTime, updateStretching_lastSeenPlayerTime, updateResting_lastSeenPlayerTime, updateSleeping_lastSeenPlayerTime, updateSocial_lastSeenPlayerTime, updateCurious_lastSeenPlayerTime, updatePetted_lastSeenPlayerTime, updateBliss_lastSeenPlayerTime, updateCalled_lastSeenPlayerTime, updateFleeing_lastSeenPlayerTime])

theorem updateDispatch_personality (s : Cloudfen) (dt : ℝ) (p : Option Vec3) (o : List Cloudfen)
    (e : Env) : (s.updateDispatch dt p o e).personality = s.personality := by
  rcases hs : s.state <;>
    (delta updateDispatch; simp only [hs, updateIdle_personality, updateGrazing_personality, updateLooking_personality, updateStretching_personality, updateResting_personality, updateSleeping_personality, updateSocial_personality, updateCurious_personality, updatePetted_personality, updateBliss_personality, updateCalled_personality, updateFleeing_personality])

/-- **C4**: in `petted`, happiness above `0.8` while petted with more than
two seconds in the state promotes to `bliss` during the tick; in `bliss`,
unpetted with more than three seconds in the state, the tick drops to
`idle` with happiness reset to `0.3`.  (`stateTimer` is compared after the
tick adds `dt`.) -/
theorem c4_transitions (s : Cloudfen) (dt : ℝ) (p : Option Vec3) (o : List Cloudfen)
    (sc : Option Scene) (b : Option (List Ball)) (e : Env) :
    (s.state = CState.petted → s.isPetted = true → 0.8 < s.happiness →
      2 < s.stateTimer + dt → (s.update dt p o sc b e).state = CState.bliss) ∧
    (s.state = CState.bliss → s.isPetted = false → 3 < s.stateTimer + dt →
      (s.update dt p o sc b e).state = CState.idle ∧
      (s.update dt p o sc b e).happiness = 0.3) := by
  constructor
  · intro hs hip hh ht
    have hcs : (s.updateCore dt p o e).state = CState.petted :=
      (updateCore_state_skip s dt p o e (Or.inl hs)).trans hs
    show ((((s.updateCore dt p o e).updateDispatch dt p o e).applyPhysics o sc
        dt).handleMossBallCollision b).state = CState.bliss
    rw [handleMossBallCollision_state, applyPhysics_state,
      updateDispatch_of_petted_eq _ _ _ _ _ hcs]
    exact updatePetted_to_bliss _ dt e
      (by rw [updateCore_happiness_petted s dt p o e hip]; exact hh)
      (by rw [updateCore_isPetted]; exact hip)
      (by rw [updateCore_stateTimer_skip s dt p o e (Or.inl hs)]; exact ht)
  · intro hs hip ht
    have hcs : (s.updateCore dt p o e).state = CState.bliss :=
      (updateCore_state_skip s dt p o e (Or.inr (Or.inl hs))).trans hs
    have hexit := updateBliss_exit ((s.updateCore dt p o e)) dt
      (by rw [updateCore_isPetted]; exact hip)
      (by rw [updateCore_stateTimer_skip s dt p o e (Or.inr (Or.inl hs))]; exact ht)
    constructor
    · show ((((s.updateCore dt p o e).updateDispatch dt p o e).applyPhysics o sc
          dt).handleMossBallCollision b).state = CState.idle
      rw [handleMossBallCollision_state, applyPhysics_state,
        updateDispatch_of_bliss_eq _ _ _ _ _ hcs]
      exact hexit.1
    · show ((((s.updateCore dt p o e).updateDispatch dt p o e).applyPhysics o sc
          dt).handleMossBallCollision b).happiness = 0.3
      rw [handleMossBallCollision_happiness, applyPhysics_happiness,
        updateDispatch_of_bliss_eq _ _ _ _ _ hcs]
      exact hexit.2

/-- **C4 witness**: a concrete petted, happy creature promotes to `bliss`
in one half-second tick. -/
theorem c4_witness :
    petted9.state = CState.petted ∧ (0.8:ℝ) < petted9.happiness ∧
    (petted9.update (1/2) none [] none none envHalf).state = CState.bliss := by
  refine ⟨rfl, ?_, ?_⟩
  · rw [show petted9.happiness = 0.9 from rfl]
    norm_num
  · exact (c4_transitions petted9 (1/2) none [] none none envHalf).1 rfl rfl
      (by rw [show petted9.happiness = 0.9 from rfl]; norm_num)
      (by rw [show petted9.stateTimer = 2 from rfl]; norm_num)

/-- **C5 (amended)**: a sleeping creature wakes into `curious` (standing up:
`isLyingDown` cleared, `lyingDownProgress` reset) during `update` only when a
player snapshot is present within three units and additionally the player is
within two units or the creature is hovered — the source gates the whole
wake block on `dist < 3`, so a hover alone (no player, or a player three or
more units away) does not wake it. -/
theorem c5_amended (s : Cloudfen) (dt : ℝ) (p : Vec3) (o : List Cloudfen)
    (sc : Option Scene) (b : Option (List Ball)) (e : Env)
    (hs : s.state = CState.sleeping)
    (hd3 : s.position.distanceTo p < 3)
    (hw : s.position.distanceTo p < 2 ∨ s.isHovered = true) :
    (s.update dt (some p) o sc b e).state = CState.curious ∧
    (s.update dt (some p) o sc b e).isLyingDown = false ∧
    (s.update dt (some p) o sc b e).lyingDownProgress = 0 := by
  have hcs : (s.updateCore dt (some p) o e).state = CState.sleeping :=
    (updateCore_state_skip s dt (some p) o e (Or.inr (Or.inr hs))).trans hs
  have hwake := updateSleeping_wake (s.updateCore dt (some p) o e) dt p e
    (by rw [updateCore_position]; exact hd3)
    (by rw [updateCore_position, updateCore_isHovered]; exact hw)
  refine ⟨?_, ?_, ?_⟩
  · show ((((s.updateCore dt (some p) o e).updateDispatch dt (some p) o e).applyPhysics o sc
        dt).handleMossBallCollision b).state = CState.curious
    rw [handleMossBallCollision_state, applyPhysics_state,
      updateDispatch_of_sleeping_eq _ _ _ _ _ hcs]
    exact hwake.1
  · show ((((s.updateCore dt (some p) o e).updateDispatch dt (some p) o e).applyPhysics o sc
        dt).handleMossBallCollision b).isLyingDown = false
    rw [handleMossBallCollision_isLyingDown, applyPhysics_isLyingDown,
      updateDispatch_of_sleeping_eq _ _ _ _ _ hcs]
    exact hwake.2.1
  · show ((((s.updateCore dt (some p) o e).updateDispatch dt (some p) o e).applyPhysics o sc
        dt).handleMossBallCollision b).lyingDownProgress = 0
    rw [handleMossBallCollision_lyingDownProgress, applyPhysics_lyingDownProgress,
      updateDispatch_of_sleeping_eq _ _ _ _ _ hcs]
    exact hwake.2.2

/-- **C5 amended witness**: a sleeping creature with the player one unit
away wakes into `curious`. -/
theorem c5_amended_witness :
    sleeper.state = CState.sleeping ∧
    Vec3.distanceTo sleeper.position ⟨1, 0, 0⟩ < 2 ∧
    (sleeper.update (1/10) (some ⟨1, 0, 0⟩) [] none none envHalf).state = CState.curious := by
  have hd : Vec3.distanceTo sleeper.position ⟨1, 0, 0⟩ = 1 := by
    rw [show sleeper.position = (⟨0, 0, 0⟩ : Vec3) from rfl]
    simp only [Vec3.distanceTo, Vec3.sub, Vec3.length]
    rw [show ((0:ℝ) - 1) ^ 2 + ((0:ℝ) - 0) ^ 2 + ((0:ℝ) - 0) ^ 2 = 1 by norm_num,
      Real.sqrt_one]
  refine ⟨rfl, by rw [hd]; norm_num, ?_⟩
  exact (c5_amended sleeper (1/10) ⟨1, 0, 0⟩ [] none none envHalf rfl
    (by rw [hd]; norm_num) (Or.inl (by rw [hd]; norm_num))).1

/-- **C5 counterexample**: a sleeping, hovered creature with no player
snapshot stays `sleeping` through a full tick — the hover alone does not
force a wake, refuting the claim's "player within 2 units **or** an active
hover". -/
theorem c5_counterexample :
    sleeperHov.state = CState.sleeping ∧ sleeperHov.isHovered = true ∧
    (sleeperHov.update (1/10) none [] none none envHalf).state = CState.sleeping := by
  refine ⟨rfl, rfl, ?_⟩
  have hcs : (sleeperHov.updateCore (1/10) none [] envHalf).state = CState.sleeping :=
    (updateCore_state_skip _ _ _ _ _ (Or.inr (Or.inr rfl))).trans rfl
  show ((((sleeperHov.updateCore (1/10) none [] envHalf).updateDispatch (1/10) none []
      envHalf).applyPhysics [] none (1/10)).handleMossBallCollision none).state =
    CState.sleeping
  rw [handleMossBallCollision_state, applyPhysics_state,
    updateDispatch_of_sleeping_eq _ _ _ _ _ hcs,
    updateSleeping_stay_none _ _ _ ?_, hcs]
  rw [updateCore_sleepTimer, show sleeperHov.sleepTimer = 0 from rfl,
    show envHalf.rand 39 = 1/2 from rfl]
  norm_num

/-- **C9**: a tick with no player snapshot and no scene collaborator is a
silent no-op for the player- and terrain-dependent logic: the ground height
is taken as `0` (the creature's `y` is snapped to `0`), and the player-memory
fields (`lastPlayerPosition`, `lastSeenPlayerTime`), the proximity awareness
and the player-driven alertness component are all left unchanged.  (The
embedding is total, so the tick always produces a state — the JS never
throws.) -/
theorem c9_missing_collaborators (s : Cloudfen) (dt : ℝ) (o : List Cloudfen)
    (b : Option (List Ball)) (e : Env) :
    (s.update dt none o none b e).position.y = 0 ∧
    (s.update dt none o none b e).lastPlayerPosition = s.lastPlayerPosition ∧
    (s.update dt none o none b e).lastSeenPlayerTime = s.lastSeenPlayerTime ∧
    (s.update dt none o none b e).playerAwareness = s.playerAwareness ∧
    (s.update dt none o none b e).mood.alertness = s.mood.alertness := by
  refine ⟨?_, ?_, ?_, ?_, ?_⟩
  · show ((((s.updateCore dt none o e).updateDispatch dt none o e).applyPhysics o none
        dt).handleMossBallCollision b).position.y = 0
    rw [handleMossBallCollision_position_y, applyPhysics_position_y_none]
  · show ((((s.updateCore dt none o e).updateDispatch dt none o e).applyPhysics o none
        dt).handleMossBallCollision b).lastPlayerPosition = s.lastPlayerPosition
    rw [handleMossBallCollision_lastPlayerPosition, applyPhysics_lastPlayerPosition,
      updateDispatch_lastPlayerPosition, updateCore_lastPlayerPosition_none]
  · show ((((s.updateCore dt none o e).updateDispatch dt none o e).applyPhysics o none
        dt).handleMossBallCollision b).lastSeenPlayerTime = s.lastSeenPlayerTime
    rw [handleMossBallCollision_lastSeenPlayerTime, applyPhysics_lastSeenPlayerTime,
      updateDispatch_lastSeenPlayerTime, updateCore_lastSeenPlayerTime_none]
  · show ((((s.updateCore dt none o e).updateDispatch dt none o e).applyPhysics o none
        dt).handleMossBallCollision b).playerAwareness = s.playerAwareness
    rw [handleMossBallCollision_playerAwareness, applyPhysics_playerAwareness,
      updateDispatch_playerAwareness, updateCore_playerAwareness_none]
  · show ((((s.updateCore dt none o e).updateDispatch dt none o e).applyPhysics o none
        dt).handleMossBallCollision b).mood.alertness = s.mood.alertness
    rw [handleMossBallCollision_mood, applyPhysics_mood, updateDispatch_mood,
      updateCore_alertness_none]

/-- **C3**: with maximal flightiness, a player inside the flee threshold
whose horizontal speed exceeds 3, and a state outside `petted` / `bliss` /
`sleeping`, the tick's awareness phase deterministically enters `fleeing`
(the roll `rand 0 < 1` always passes for a valid random stream) and assigns
a flee target `k` units straight away from the player with `8 ≤ k ≤ 13`. -/
theorem c3_flee (s : Cloudfen) (dt : ℝ) (p : Vec3) (o : List Cloudfen) (e : Env)
    (hval : e.Valid) (hfl : s.personality.flightiness = 1)
    (hd : (Vec3.flat (Vec3.sub p s.position)).length < s.fleeThreshold)
    (hv : ∃ v, e.playerVel = some v ∧ 3 < Real.sqrt (v.x ^ 2 + v.z ^ 2))
    (h1 : s.state ≠ CState.petted) (h2 : s.state ≠ CState.bliss)
    (h3 : s.state ≠ CState.sleeping) :
    (s.updateCore dt (some p) o e).state = CState.fleeing ∧
    ∃ k, 8 ≤ k ∧ k ≤ 13 ∧
      (s.updateCore dt (some p) o e).targetPosition =
        some (Vec3.add s.position (Vec3.smul k
          (Vec3.smul (-1) (Vec3.flat (Vec3.sub p s.position)).normalize))) := by
  obtain ⟨v, hpv, hv3⟩ := hv
  have main : ∀ s1 : Cloudfen, s1.position = s.position → s1.state = s.state →
      s1.personality = s.personality → s1.fleeThreshold = s.fleeThreshold →
      (s1.updatePlayerAwareness dt (some p) e).state = CState.fleeing ∧
      (s1.updatePlayerAwareness dt (some p) e).targetPosition =
        some (Vec3.add s.position (Vec3.smul (8 + e.rand 1 * 5)
          (Vec3.smul (-1) (Vec3.flat (Vec3.sub p s.position)).normalize))) := by
    intro s1 hq1 hq2 hq3 hq4
    have hr := updatePlayerAwareness_flee s1 dt p e
      (by rw [hq3, hfl]; exact (hval 0).2)
      (by rw [hq1, hq4]; exact hd)
      (by rw [hpv]; exact hv3)
      (by rw [hq2]; exact h1) (by rw [hq2]; exact h2) (by rw [hq2]; exact h3)
    rw [hq1] at hr
    exact hr
  have hk1 : (8:ℝ) ≤ 8 + e.rand 1 * 5 := by
    have h0 := (hval 1).1
    nlinarith
  have hk2 : 8 + e.rand 1 * 5 ≤ 13 := by
    have h1b := (hval 1).2
    nlinarith
  refine ⟨?_, 8 + e.rand 1 * 5, hk1, hk2, ?_⟩
  · delta updateCore; dsimp only
    simp only [apply_ite Cloudfen.state, ite_self, updateAttention_state, updateMood_state,
      updateMicroBehaviors_state]
    rw [(main _ (by simp only [apply_ite Cloudfen.position, ite_self])
      (by simp only [apply_ite Cloudfen.state, ite_self])
      (by simp only [apply_ite Cloudfen.personality, ite_self])
      (by simp only [apply_ite Cloudfen.fleeThreshold, ite_self])).1]
  · delta updateCore; dsimp only
    simp only [apply_ite Cloudfen.targetPosition, ite_self, updateAttention_targetPosition,
      updateMood_targetPosition, updateMicroBehaviors_targetPosition]
    rw [(main _ (by simp only [apply_ite Cloudfen.position, ite_self])
      (by simp only [apply_ite Cloudfen.state, ite_self])
      (by simp only [apply_ite Cloudfen.personality, ite_self])
      (by simp only [apply_ite Cloudfen.fleeThreshold, ite_self])).2]

/-- **C3 witness**: a maximally flighty creature with a player one unit away
running at speed 4 enters `fleeing` in the tick's awareness phase. -/
theorem c3_witness :
    envRun.Valid ∧ flighty.personality.flightiness = 1 ∧
    (flighty.updateCore (1/10) (some ⟨1, 0, 0⟩) [] envRun).state = CState.fleeing := by
  have hval : envRun.Valid := by
    intro n
    constructor <;> norm_num [envRun]
  have hlen : (Vec3.flat (Vec3.sub ⟨1, 0, 0⟩ flighty.position)).length = 1 := by
    rw [show flighty.position = (⟨0, 0, 0⟩ : Vec3) from rfl]
    simp only [Vec3.flat, Vec3.sub, Vec3.length]
    rw [show ((1:ℝ) - 0) ^ 2 + (0:ℝ) ^ 2 + ((0:ℝ) - 0) ^ 2 = 1 by norm_num, Real.sqrt_one]
  refine ⟨hval, rfl, ?_⟩
  exact (c3_flee flighty (1/10) ⟨1, 0, 0⟩ [] envRun hval rfl
    (by rw [hlen, show flighty.fleeThreshold = 2.5 from rfl]; norm_num)
    ⟨⟨4, 0, 0⟩, rfl, by
      rw [show ((4:ℝ) ^ 2 + (0:ℝ) ^ 2) = 4 ^ 2 by norm_num, Real.sqrt_sq (by norm_num)]
      norm_num⟩
    (by rw [show flighty.state = CState.idle from rfl]; decide)
    (by rw [show flighty.state = CState.idle from rfl]; decide)
    (by rw [show flighty.state = CState.idle from rfl]; decide)).1

end Cloudfen

/-! ## Claim theorems: C6, C8 -/

namespace Cloudfen

/-- Any peer returned by `_findNearestSheep` is valid: not `sleeping`,
`fleeing`, `petted` or `bliss` (invariant of the scan accumulator). -/
theorem findNearestAux_valid (s : Cloudfen) (l : List Cloudfen) (i : ℕ)
    (acc : Option (ℕ × Cloudfen × ℝ))
    (hacc : ∀ j pr d, acc = some (j, pr, d) →
      pr.state ≠ CState.sleeping ∧ pr.state ≠ CState.fleeing ∧
      pr.state ≠ CState.petted ∧ pr.state ≠ CState.bliss) :
    ∀ j pr d, findNearestSheep.findNearestAux s l i acc = some (j, pr, d) →
      pr.state ≠ CState.sleeping ∧ pr.state ≠ CState.fleeing ∧
      pr.state ≠ CState.petted ∧ pr.state ≠ CState.bliss := by
  induction l generalizing i acc with
  | nil => exact fun j pr d h => hacc j pr d h
  | cons hd tl ih =>
    intro j pr d h
    rw [findNearestSheep.findNearestAux] at h
    refine ih _ _ ?_ j pr d h
    intro j1 pr1 d1 h1
    by_cases hv : hd.state = CState.sleeping ∨ hd.state = CState.fleeing ∨
        hd.state = CState.petted ∨ hd.state = CState.bliss
    · rw [if_pos hv] at h1
      exact hacc j1 pr1 d1 h1
    · rw [if_neg hv] at h1
      push_neg at hv
      rcases acc with _ | ⟨j0, b0, d0⟩
      · dsimp only at h1
        cases h1
        exact ⟨hv.1, hv.2.1, hv.2.2.1, hv.2.2.2⟩
      · dsimp only at h1
        split at h1
        · cases h1
          exact ⟨hv.1, hv.2.1, hv.2.2.1, hv.2.2.2⟩
        · exact hacc j1 pr1 d1 h1

theorem findNearestSheep_valid (s : Cloudfen) (o : List Cloudfen) :
    ∀ j pr d, s.findNearestSheep o = some (j, pr, d) →
      pr.state ≠ CState.sleeping ∧ pr.state ≠ CState.fleeing ∧
      pr.state ≠ CState.petted ∧ pr.state ≠ CState.bliss :=
  findNearestAux_valid s o 0 none (fun _ _ _ h => Option.noConfusion h)

/-- **C6 (amended)**: on a positive-distance overlap (center distance below
twice the sheep radius) the updating creature moves itself 40% of the
overlap depth along the separating normal and gains a fixed 0.4 velocity
kick along the same normal; the heights and the vertical velocity are
untouched.  (One such pass does not enforce any separation bound — see the
counterexample.) -/
theorem c6_amended (r D : ℝ) (s other : Cloudfen)
    (hD : D = Real.sqrt ((s.position.x - other.position.x) * (s.position.x - other.position.x) +
      (s.position.z - other.position.z) * (s.position.z - other.position.z)))
    (h0 : 0 < D) (hlt : D < r * 2) :
    (collideSheep r s other).position.x =
      s.position.x + (s.position.x - other.position.x) / D * ((r * 2 - D) * 0.4) ∧
    (collideSheep r s other).position.y = s.position.y ∧
    (collideSheep r s other).position.z =
      s.position.z + (s.position.z - other.position.z) / D * ((r * 2 - D) * 0.4) ∧
    (collideSheep r s other).velocity.x =
      s.velocity.x + (s.position.x - other.position.x) / D * 0.4 ∧
    (collideSheep r s other).velocity.y = s.velocity.y ∧
    (collideSheep r s other).velocity.z =
      s.velocity.z + (s.position.z - other.position.z) / D * 0.4 := by
  subst hD
  delta collideSheep; dsimp only
  rw [if_pos (⟨hlt, h0⟩ : _ ∧ _)]
  exact ⟨rfl, rfl, rfl, rfl, rfl, rfl⟩

/-- **C6 witness**: the deep overlap at distance one tenth, displaced by
40% of the overlap. -/
theorem c6_witness :
    (0:ℝ) < 0.1 ∧ (0.1:ℝ) < 0.8 * 2 ∧
    (collideSheep 0.8 baseSheep peerNear).position.x =
      baseSheep.position.x +
        (baseSheep.position.x - peerNear.position.x) / 0.1 * ((0.8 * 2 - 0.1) * 0.4) := by
  have hD : (0.1:ℝ) = Real.sqrt
      ((baseSheep.position.x - peerNear.position.x) * (baseSheep.position.x - peerNear.position.x) +
       (baseSheep.position.z - peerNear.position.z) * (baseSheep.position.z - peerNear.position.z)) := by
    rw [show baseSheep.position = (⟨0, 0, 0⟩ : Vec3) from rfl,
      show peerNear.position = (⟨0.1, 0, 0⟩ : Vec3) from rfl]
    dsimp only
    rw [show ((0:ℝ) - 0.1) * ((0:ℝ) - 0.1) + ((0:ℝ) - 0) * ((0:ℝ) - 0) = 0.1 ^ 2 by norm_num,
      Real.sqrt_sq (by norm_num)]
  exact ⟨by norm_num, by norm_num,
    (c6_amended 0.8 0.1 baseSheep peerNear hD (by norm_num) (by norm_num)).1⟩

/-- **C6 counterexample**: resolving the overlap of centers `(0,0,0)` and
`(0.1,0,0)` (radius 0.8 each) leaves the centers 0.7 apart — closer than the
1.6 sum of radii by 0.9, refuting any small-tolerance separation bound after
collision resolution. -/
theorem c6_counterexample :
    (collideSheep 0.8 baseSheep peerNear).position.x = -0.6 ∧
    Vec3.distanceTo (collideSheep 0.8 baseSheep peerNear).position peerNear.position = 0.7 ∧
    Vec3.distanceTo (collideSheep 0.8 baseSheep peerNear).position peerNear.position + 0.5 <
      0.8 + 0.8 := by
  have hpos : (collideSheep 0.8 baseSheep peerNear).position = ⟨-0.6, 0, 0⟩ := by
    delta collideSheep; dsimp only
    simp only [show baseSheep.position = (⟨0, 0, 0⟩ : Vec3) from rfl,
      show peerNear.position = (⟨0.1, 0, 0⟩ : Vec3) from rfl]
    rw [show ((0:ℝ) - 0.1) * ((0:ℝ) - 0.1) + ((0:ℝ) - 0) * ((0:ℝ) - 0) = 0.1 ^ 2 by norm_num,
      Real.sqrt_sq (by norm_num)]
    rw [if_pos (by constructor <;> norm_num : _ ∧ _)]
    simp only [Vec3.mk.injEq]
    norm_num
  have hdist : Vec3.distanceTo (collideSheep 0.8 baseSheep peerNear).position
      peerNear.position = 0.7 := by
    rw [hpos, show peerNear.position = (⟨0.1, 0, 0⟩ : Vec3) from rfl]
    simp only [Vec3.distanceTo, Vec3.sub, Vec3.length]
    rw [show ((-0.6:ℝ) - 0.1) ^ 2 + ((0:ℝ) - 0) ^ 2 + ((0:ℝ) - 0) ^ 2 = 0.7 ^ 2 by norm_num,
      Real.sqrt_sq (by norm_num)]
  exact ⟨by rw [hpos], hdist, by rw [hdist]; norm_num⟩

/-- **C8 (amended)**: the scheduling decision of `_doVocalize` fires on a
sub-30% roll, *and only for a nearest valid peer closer than 10 units* (the
condition the claim omitted); the delay is `300 + r2 * 500` ms, hence in
`[300, 800)` for a valid roll; the nearest peer is always valid (not
sleeping / fleeing / petted / bliss); outside the 30% roll nothing is
scheduled; and the responding peer ignores the response if it is sleeping
when the delay fires, vocalizing otherwise. -/
theorem c8_amended (s : Cloudfen) (o : List Cloudfen) (r1 r2 : ℝ) :
    (∀ i pr d, r1 < 0.3 → s.findNearestSheep o = some (i, pr, d) → d < 10 →
      s.doVocalizeSchedule o r1 r2 = some (i, 300 + r2 * 500)) ∧
    (∀ i pr d, s.findNearestSheep o = some (i, pr, d) →
      pr.state ≠ CState.sleeping ∧ pr.state ≠ CState.fleeing ∧
      pr.state ≠ CState.petted ∧ pr.state ≠ CState.bliss) ∧
    (0 ≤ r2 → r2 < 1 → 300 ≤ 300 + r2 * 500 ∧ 300 + r2 * 500 < 800) ∧
    (¬ r1 < 0.3 → s.doVocalizeSchedule o r1 r2 = none) ∧
    (∀ t : Cloudfen, t.state = CState.sleeping → t.doRespondVocalize = t) ∧
    (∀ t : Cloudfen, t.state ≠ CState.sleeping → t.doRespondVocalize.isVocalizing = true) := by
  refine ⟨?_, ?_, ?_, ?_, ?_, ?_⟩
  · intro i pr d hr1 hfound hd10
    delta doVocalizeSchedule
    rw [if_pos hr1, hfound]
    dsimp only
    rw [if_pos hd10]
  · exact fun i pr d h => findNearestSheep_valid s o i pr d h
  · intro h0 h1
    constructor <;> nlinarith
  · intro hr1
    delta doVocalizeSchedule
    rw [if_neg hr1]
  · intro t ht
    delta doRespondVocalize
    rw [if_neg (by rw [ht]; exact fun hc => hc rfl)]
  · intro t ht
    delta doRespondVocalize
    rw [if_pos ht]

/-- **C8 witness**: a failed respond roll schedules nothing, and the delay
formula at roll one half lies in the 300-800 ms band. -/
theorem c8_witness :
    ¬ ((0.5:ℝ) < 0.3) ∧ baseSheep.doVocalizeSchedule [] 0.5 (1/2) = none ∧
    (300:ℝ) ≤ 300 + (1/2) * 500 ∧ (300:ℝ) + (1/2) * 500 < 800 := by
  refine ⟨by norm_num, (c8_amended baseSheep [] 0.5 (1/2)).2.2.2.1 (by norm_num), ?_⟩
  exact (c8_amended baseSheep [] 0.5 (1/2)).2.2.1 (by norm_num) (by norm_num)

/-- **C8 counterexample**: a passing 30% roll with the nearest valid peer
twelve units away schedules no response — the claim omitted the 10-unit
distance gate. -/
theorem c8_counterexample :
    (0.1:ℝ) < 0.3 ∧
    baseSheep.findNearestSheep [peer12] = some (0, peer12, 12) ∧
    baseSheep.doVocalizeSchedule [peer12] 0.1 (1/2) = none := by
  have h12 : Real.sqrt ((peer12.position.x - baseSheep.position.x) *
      (peer12.position.x - baseSheep.position.x) +
      (peer12.position.z - baseSheep.position.z) *
      (peer12.position.z - baseSheep.position.z)) = 12 := by
    rw [show peer12.position = (⟨12, 0, 0⟩ : Vec3) from rfl,
      show baseSheep.position = (⟨0, 0, 0⟩ : Vec3) from rfl]
    dsimp only
    rw [show ((12:ℝ) - 0) * ((12:ℝ) - 0) + ((0:ℝ) - 0) * ((0:ℝ) - 0) = 12 ^ 2 by norm_num,
      Real.sqrt_sq (by norm_num)]
  have hfound : baseSheep.findNearestSheep [peer12] = some (0, peer12, 12) := by
    delta findNearestSheep
    rw [findNearestSheep.findNearestAux]
    rw [if_neg (by rw [show peer12.state = CState.idle from rfl]; decide)]
    dsimp only
    rw [findNearestSheep.findNearestAux, h12]
  refine ⟨by norm_num, hfound, ?_⟩
  delta doVocalizeSchedule
  rw [if_pos (by norm_num : (0.1:ℝ) < 0.3), hfound]
  dsimp only
  rw [if_neg (by norm_num : ¬ (12:ℝ) < 10)]

end Cloudfen

/-! ## Claim C1: the `[0,1]` mood / happiness invariant -/

/-- Interval `[0,1]` through a branch. -/
theorem mem01_ite {c : Prop} [Decidable c] {a b : ℝ} (ha : 0 ≤ a ∧ a ≤ 1)
    (hb : 0 ≤ b ∧ b ≤ 1) : 0 ≤ (if c then a else b) ∧ (if c then a else b) ≤ 1 := by
  split <;> assumption

/-- Interval `[0,1]` through a `min 1 (x + b)` clamp. -/
theorem mem01_min1 {x : ℝ} (b : ℝ) (hx : 0 ≤ x ∧ x ≤ 1) (hb : 0 ≤ b) :
    0 ≤ min 1 (x + b) ∧ min 1 (x + b) ≤ 1 :=
  ⟨le_min (by norm_num) (add_nonneg hx.1 hb), min_le_left _ _⟩

/-- Interval `[0,1]` through a `min 0.8 (x + b)` clamp. -/
theorem mem01_min08 {x : ℝ} (b : ℝ) (hx : 0 ≤ x ∧ x ≤ 1) (hb : 0 ≤ b) :
    0 ≤ min 0.8 (x + b) ∧ min 0.8 (x + b) ≤ 1 :=
  ⟨le_min (by norm_num) (add_nonneg hx.1 hb), le_trans (min_le_left _ _) (by norm_num)⟩

/-- Interval `[0,1]` through a `max 0 (x - b)` clamp. -/
theorem mem01_max0 {x : ℝ} (b : ℝ) (hx : 0 ≤ x ∧ x ≤ 1) (hb : 0 ≤ b) :
    0 ≤ max 0 (x - b) ∧ max 0 (x - b) ≤ 1 :=
  ⟨le_max_left _ _, max_le (by norm_num) (by linarith [hx.2])⟩

/-- Interval `[0,1]` through a `max 0.2 (x - b)` clamp. -/
theorem mem01_max02 {x : ℝ} (b : ℝ) (hx : 0 ≤ x ∧ x ≤ 1) (hb : 0 ≤ b) :
    0 ≤ max 0.2 (x - b) ∧ max 0.2 (x - b) ≤ 1 :=
  ⟨le_trans (by norm_num) (le_max_left _ _), max_le (by norm_num) (by linarith [hx.2])⟩

/-- Interval `[0,1]` through the centre drift `x + (0.5 - x) * t * 0.01`. -/
theorem mem01_drift {x t : ℝ} (hx : 0 ≤ x ∧ x ≤ 1) (ht0 : 0 ≤ t) (ht1 : t ≤ 1) :
    0 ≤ x + (0.5 - x) * t * 0.01 ∧ x + (0.5 - x) * t * 0.01 ≤ 1 := by
  constructor <;> nlinarith [hx.1, hx.2]

namespace Cloudfen

theorem setState_pres_lastStrokeTime (s : Cloudfen) (n : CState) :
    (s.setState n).lastStrokeTime = s.lastStrokeTime := by
  delta setState; split <;> rfl

/-- `_updateMood` keeps each mood scalar in `[0,1]` for a frame-bounded dt. -/
theorem updateMood_inv (s : Cloudfen) (dt : ℝ) (p : Option Vec3)
    (hdt0 : 0 ≤ dt) (hdt1 : dt ≤ 1)
    (hc : 0 ≤ s.mood.contentment ∧ s.mood.contentment ≤ 1)
    (ha : 0 ≤ s.mood.alertness ∧ s.mood.alertness ≤ 1)
    (hp : 0 ≤ s.mood.playfulness ∧ s.mood.playfulness ≤ 1) :
    (0 ≤ (s.updateMood dt p).mood.contentment ∧ (s.updateMood dt p).mood.contentment ≤ 1) ∧
    (0 ≤ (s.updateMood dt p).mood.alertness ∧ (s.updateMood dt p).mood.alertness ≤ 1) ∧
    (0 ≤ (s.updateMood dt p).mood.playfulness ∧ (s.updateMood dt p).mood.playfulness ≤ 1) := by
  have m1 := mem01_ite (c := s.state = CState.resting ∨ s.state = CState.sleeping)
    (mem01_min1 (dt * 0.02) hc (mul_nonneg hdt0 (by norm_num))) hc
  have m2 := mem01_ite (c := 0.5 < s.happiness)
    (mem01_min1 (dt * 0.05) m1 (mul_nonneg hdt0 (by norm_num))) m1
  have m3 := mem01_ite (c := s.state = CState.fleeing)
    (mem01_max0 (dt * 0.1) m2 (mul_nonneg hdt0 (by norm_num))) m2
  have mc := mem01_drift m3 hdt0 hdt1
  have mp1 := mem01_ite (c := 2 < s.timesBeenPetted)
    (mem01_min08 (dt * 0.01) hp (mul_nonneg hdt0 (by norm_num))) hp
  have mp2 := mem01_ite (c := 0.6 < s.tiredness)
    (mem01_max0 (dt * 0.02) mp1 (mul_nonneg hdt0 (by norm_num))) mp1
  delta updateMood; dsimp only
  rcases p with _ | pp
  · exact ⟨mc, ha, mp2⟩
  · exact ⟨mc,
      mem01_ite (mem01_min1 (dt * 0.1) ha (mul_nonneg hdt0 (by norm_num)))
        (mem01_max02 (dt * 0.05) ha (mul_nonneg hdt0 (by norm_num))), mp2⟩

/-- The bookkeeping half either keeps the happiness or applies the
clamped decay. -/
theorem updateCore_happiness_cases (s : Cloudfen) (dt : ℝ) (p : Option Vec3)
    (o : List Cloudfen) (e : Env) :
    (s.updateCore dt p o e).happiness = s.happiness ∨
    (s.updateCore dt p o e).happiness = max 0 (s.happiness - dt * 0.08) := by
  (delta updateCore; simp only [apply_ite Cloudfen.happiness, apply_ite Cloudfen.isPetted, ite_self, updateAttention_happiness, updateMood_happiness, updateMicroBehaviors_happiness, updatePlayerAwareness_happiness])
  split
  · exact Or.inr rfl
  · exact Or.inl rfl

/-- The bookkeeping half keeps the mood scalars inside `[0,1]`. -/
theorem updateCore_mood_bounds (s : Cloudfen) (dt : ℝ) (p : Option Vec3) (o : List Cloudfen)
    (e : Env) (hdt0 : 0 ≤ dt) (hdt1 : dt ≤ 1)
    (hc : 0 ≤ s.mood.contentment ∧ s.mood.contentment ≤ 1)
    (ha : 0 ≤ s.mood.alertness ∧ s.mood.alertness ≤ 1)
    (hp : 0 ≤ s.mood.playfulness ∧ s.mood.playfulness ≤ 1) :
    (0 ≤ (s.updateCore dt p o e).mood.contentment ∧
      (s.updateCore dt p o e).mood.contentment ≤ 1) ∧
    (0 ≤ (s.updateCore dt p o e).mood.alertness ∧
      (s.updateCore dt p o e).mood.alertness ≤ 1) ∧
    (0 ≤ (s.updateCore dt p o e).mood.playfulness ∧
      (s.updateCore dt p o e).mood.playfulness ≤ 1) := by
  have main : ∀ s3 : Cloudfen, s3.mood = s.mood →
      (0 ≤ (s3.updateMood dt p).mood.contentment ∧ (s3.updateMood dt p).mood.contentment ≤ 1) ∧
      (0 ≤ (s3.updateMood dt p).mood.alertness ∧ (s3.updateMood dt p).mood.alertness ≤ 1) ∧
      (0 ≤ (s3.updateMood dt p).mood.playfulness ∧
        (s3.updateMood dt p).mood.playfulness ≤ 1) := by
    intro s3 hm
    exact updateMood_inv s3 dt p hdt0 hdt1 (by rw [hm]; exact hc) (by rw [hm]; exact ha)
      (by rw [hm]; exact hp)
  refine ⟨⟨?_, ?_⟩, ⟨?_, ?_⟩, ⟨?_, ?_⟩⟩ <;>
    (delta updateCore; simp only [apply_ite Cloudfen.mood, ite_self, updateAttention_mood])
  · exact (main _ (by simp only [updateMicroBehaviors_mood, updatePlayerAwareness_mood,
      apply_ite Cloudfen.mood, ite_self])).1.1
  · exact (main _ (by simp only [updateMicroBehaviors_mood, updatePlayerAwareness_mood,
      apply_ite Cloudfen.mood, ite_self])).1.2
  · exact (main _ (by simp only [updateMicroBehaviors_mood, updatePlayerAwareness_mood,
      apply_ite Cloudfen.mood, ite_self])).2.1.1
  · exact (main _ (by simp only [updateMicroBehaviors_mood, updatePlayerAwareness_mood,
      apply_ite Cloudfen.mood, ite_self])).2.1.2
  · exact (main _ (by simp only [updateMicroBehaviors_mood, updatePlayerAwareness_mood,
      apply_ite Cloudfen.mood, ite_self])).2.2.1
  · exact (main _ (by simp only [updateMicroBehaviors_mood, updatePlayerAwareness_mood,
      apply_ite Cloudfen.mood, ite_self])).2.2.2

theorem updateCore_inv (s : Cloudfen) (dt : ℝ) (p : Option Vec3) (o : List Cloudfen)
    (e : Env) (hdt0 : 0 ≤ dt) (hdt1 : dt ≤ 1) (hinv : s.MoodHapInv) :
    (s.updateCore dt p o e).MoodHapInv := by
  obtain ⟨h0, h1, hc0, hc1, ha0, ha1, hp0, hp1, hf⟩ := hinv
  have hmb := updateCore_mood_bounds s dt p o e hdt0 hdt1 ⟨hc0, hc1⟩ ⟨ha0, ha1⟩ ⟨hp0, hp1⟩
  have hhap : 0 ≤ (s.updateCore dt p o e).happiness ∧ (s.updateCore dt p o e).happiness ≤ 1 := by
    rcases updateCore_happiness_cases s dt p o e with h | h <;> rw [h]
    · exact ⟨h0, h1⟩
    · exact mem01_max0 (dt * 0.08) ⟨h0, h1⟩ (mul_nonneg hdt0 (by norm_num))
  exact ⟨hhap.1, hhap.2, hmb.1.1, hmb.1.2, hmb.2.1.1, hmb.2.1.2, hmb.2.2.1, hmb.2.2.2,
    by rw [updateCore_personality]; exact hf⟩

/-- The per-state switch keeps the happiness, strokes it up (clamped), or
resets it to `0.3`. -/
theorem updateDispatch_happiness_cases (s : Cloudfen) (dt : ℝ) (p : Option Vec3)
    (o : List Cloudfen) (e : Env) :
    (s.updateDispatch dt p o e).happiness = s.happiness ∨
    (s.updateDispatch dt p o e).happiness = min 1 (s.happiness + dt * 0.15) ∨
    (s.updateDispatch dt p o e).happiness = 0.3 := by
  rcases hs : s.state
  case idle => exact Or.inl (by (delta updateDispatch; simp only [hs, updateIdle_happiness]))
  case grazing => exact Or.inl (by (delta updateDispatch; simp only [hs, updateGrazing_happiness]))
  case looking => exact Or.inl (by (delta updateDispatch; simp only [hs, updateLooking_happiness]))
  case stretching => exact Or.inl (by (delta updateDispatch; simp only [hs, updateStretching_happiness]))
  case resting => exact Or.inl (by (delta updateDispatch; simp only [hs, updateResting_happiness]))
  case sleeping => exact Or.inl (by (delta updateDispatch; simp only [hs, updateSleeping_happiness]))
  case social => exact Or.inl (by (delta updateDispatch; simp only [hs, updateSocial_happiness]))
  case curious => exact Or.inl (by (delta updateDispatch; simp only [hs, updateCurious_happiness]))
  case called => exact Or.inl (by (delta updateDispatch; simp only [hs, updateCalled_happiness]))
  case fleeing => exact Or.inl (by (delta updateDispatch; simp only [hs, updateFleeing_happiness]))
  case petted =>
    (delta updateDispatch updatePetted; simp only [hs, apply_ite Cloudfen.happiness, apply_ite Cloudfen.isPetted, apply_ite Cloudfen.lastStrokeTime, setState_happiness, setState_pres_isPetted, setState_pres_lastStrokeTime, ite_self])
    split
    · exact Or.inr (Or.inl rfl)
    · exact Or.inl rfl
  case bliss =>
    (delta updateDispatch updateBliss; simp only [hs, apply_ite Cloudfen.happiness, setState_happiness, ite_self])
    repeat' split
    all_goals first
      | exact Or.inl rfl
      | exact Or.inr (Or.inr rfl)

theorem updateDispatch_inv (s : Cloudfen) (dt : ℝ) (p : Option Vec3) (o : List Cloudfen)
    (e : Env) (hdt0 : 0 ≤ dt) (hinv : s.MoodHapInv) :
    (s.updateDispatch dt p o e).MoodHapInv := by
  obtain ⟨h0, h1, hc0, hc1, ha0, ha1, hp0, hp1, hf⟩ := hinv
  have hm := updateDispatch_mood s dt p o e
  have hpers := updateDispatch_personality s dt p o e
  have hhap : 0 ≤ (s.updateDispatch dt p o e).happiness ∧
      (s.updateDispatch dt p o e).happiness ≤ 1 := by
    rcases updateDispatch_happiness_cases s dt p o e with h | h | h <;> rw [h]
    · exact ⟨h0, h1⟩
    · exact mem01_min1 (dt * 0.15) ⟨h0, h1⟩ (mul_nonneg hdt0 (by norm_num))
    · norm_num
  refine ⟨hhap.1, hhap.2, ?_, ?_, ?_, ?_, ?_, ?_, ?_⟩ <;>
    first
      | (rw [hm]; assumption)
      | (rw [hpers]; exact hf)
theorem update_inv (s : Cloudfen) (dt : ℝ) (p : Option Vec3) (o : List Cloudfen)
    (sc : Option Scene) (b : Option (List Ball)) (e : Env)
    (hdt0 : 0 ≤ dt) (hdt1 : dt ≤ 1) (hinv : s.MoodHapInv) :
    (s.update dt p o sc b e).MoodHapInv := by
  have h2 := updateDispatch_inv (s.updateCore dt p o e) dt p o e hdt0
    (updateCore_inv s dt p o e hdt0 hdt1 hinv)
  obtain ⟨h0, h1, hc0, hc1, ha0, ha1, hp0, hp1, hf⟩ := h2
  show ((((s.updateCore dt p o e).updateDispatch dt p o e).applyPhysics o sc
      dt).handleMossBallCollision b).MoodHapInv
  refine ⟨?_, ?_, ?_, ?_, ?_, ?_, ?_, ?_, ?_⟩ <;>
    simp only [handleMossBallCollision_happiness, applyPhysics_happiness,
      handleMossBallCollision_mood, applyPhysics_mood,
      handleMossBallCollision_personality, applyPhysics_personality] <;>
    assumption

theorem startPetting_inv (s : Cloudfen) (now : ℝ) (h : s.MoodHapInv) :
    (s.startPetting now).MoodHapInv := by
  obtain ⟨h0, h1, hc0, hc1, ha0, ha1, hp0, hp1, hf⟩ := h
  refine ⟨?_, ?_, ?_, ?_, ?_, ?_, ?_, ?_, ?_⟩ <;>
    (delta startPetting; simp only [apply_ite Cloudfen.happiness, apply_ite Cloudfen.mood, apply_ite Cloudfen.personality, setState_happiness, setState_mood, setState_pres_personality, ite_self]) <;>
    first
      | assumption
      | exact (mem01_min1 0.2 ⟨hc0, hc1⟩ (by norm_num)).1
      | exact (mem01_min1 0.2 ⟨hc0, hc1⟩ (by norm_num)).2
      | exact (mem01_min1 0.1 ⟨hp0, hp1⟩ (by norm_num)).1
      | exact (mem01_min1 0.1 ⟨hp0, hp1⟩ (by norm_num)).2

theorem endPetting_inv (s : Cloudfen) (d : ℝ) (h : s.MoodHapInv) :
    (s.endPetting d).MoodHapInv := by
  obtain ⟨h0, h1, hc0, hc1, ha0, ha1, hp0, hp1, hf⟩ := h
  refine ⟨?_, ?_, ?_, ?_, ?_, ?_, ?_, ?_, ?_⟩ <;>
    (delta endPetting; simp only [apply_ite Cloudfen.happiness, apply_ite Cloudfen.mood, apply_ite Cloudfen.personality, ite_self]) <;>
    assumption

theorem endPettingTimeout_inv (s : Cloudfen) (h : s.MoodHapInv) :
    s.endPettingTimeout.MoodHapInv := by
  obtain ⟨h0, h1, hc0, hc1, ha0, ha1, hp0, hp1, hf⟩ := h
  refine ⟨?_, ?_, ?_, ?_, ?_, ?_, ?_, ?_, ?_⟩ <;>
    (delta endPettingTimeout; simp only [apply_ite Cloudfen.happiness, apply_ite Cloudfen.mood, apply_ite Cloudfen.personality, setState_happiness, setState_mood, setState_pres_personality, ite_self]) <;>
    assumption

theorem onStroke_inv (s : Cloudfen) (dx dy speed now : ℝ) (hsp : 0 ≤ speed)
    (h : s.MoodHapInv) : (s.onStroke dx dy speed now).MoodHapInv := by
  obtain ⟨h0, h1, hc0, hc1, ha0, ha1, hp0, hp1, hf⟩ := h
  have hb : 0 ≤ min (speed * 0.02) 0.15 * s.personality.friendliness :=
    mul_nonneg (le_min (mul_nonneg hsp (by norm_num)) (by norm_num)) hf
  refine ⟨?_, ?_, ?_, ?_, ?_, ?_, ?_, ?_, ?_⟩ <;>
    (delta onStroke; simp only [apply_ite Cloudfen.happiness, apply_ite Cloudfen.mood, apply_ite Cloudfen.personality, ite_self]) <;>
    first
      | assumption
      | exact (mem01_ite ⟨h0, h1⟩ (mem01_min1 _ ⟨h0, h1⟩ hb)).1
      | exact (mem01_ite ⟨h0, h1⟩ (mem01_min1 _ ⟨h0, h1⟩ hb)).2

theorem onHoverStart_inv (s : Cloudfen) (h : s.MoodHapInv) : s.onHoverStart.MoodHapInv := by
  obtain ⟨h0, h1, hc0, hc1, ha0, ha1, hp0, hp1, hf⟩ := h
  refine ⟨?_, ?_, ?_, ?_, ?_, ?_, ?_, ?_, ?_⟩ <;>
    (delta onHoverStart; simp only [apply_ite Cloudfen.happiness, apply_ite Cloudfen.mood, apply_ite Cloudfen.personality, ite_self]) <;>
    assumption

theorem onHoverEnd_inv (s : Cloudfen) (h : s.MoodHapInv) : s.onHoverEnd.MoodHapInv := by
  obtain ⟨h0, h1, hc0, hc1, ha0, ha1, hp0, hp1, hf⟩ := h
  exact ⟨h0, h1, hc0, hc1, ha0, ha1, hp0, hp1, hf⟩

theorem onCalled_fst_inv (s : Cloudfen) (src : Vec3) (h : s.MoodHapInv) :
    (s.onCalled src).1.MoodHapInv := by
  obtain ⟨h0, h1, hc0, hc1, ha0, ha1, hp0, hp1, hf⟩ := h
  delta onCalled; dsimp only
  split
  · exact ⟨h0, h1, hc0, hc1, ha0, ha1, hp0, hp1, hf⟩
  · split
    · exact ⟨h0, h1, hc0, hc1, ha0, ha1, hp0, hp1, hf⟩
    · exact ⟨h0, h1, hc0, hc1, ha0, ha1, hp0, hp1, hf⟩

theorem onCalledTimeout_inv (s : Cloudfen) (src dir : Vec3) (r : ℝ) (h : s.MoodHapInv) :
    (s.onCalledTimeout src dir r).MoodHapInv := by
  obtain ⟨h0, h1, hc0, hc1, ha0, ha1, hp0, hp1, hf⟩ := h
  refine ⟨?_, ?_, ?_, ?_, ?_, ?_, ?_, ?_, ?_⟩ <;>
    (delta onCalledTimeout; simp only [apply_ite Cloudfen.happiness, apply_ite Cloudfen.mood, apply_ite Cloudfen.personality, setState_happiness, setState_mood, setState_pres_personality, ite_self]) <;>
    assumption

theorem socialPromote_inv (s : Cloudfen) (j : ℕ) (h : s.MoodHapInv) :
    (s.socialPromote j).MoodHapInv := by
  obtain ⟨h0, h1, hc0, hc1, ha0, ha1, hp0, hp1, hf⟩ := h
  refine ⟨?_, ?_, ?_, ?_, ?_, ?_, ?_, ?_, ?_⟩ <;>
    (delta socialPromote; simp only [apply_ite Cloudfen.happiness, apply_ite Cloudfen.mood, apply_ite Cloudfen.personality, setState_happiness, setState_mood, setState_pres_personality, ite_self]) <;>
    assumption

theorem doRespondVocalize_inv (s : Cloudfen) (h : s.MoodHapInv) :
    s.doRespondVocalize.MoodHapInv := by
  obtain ⟨h0, h1, hc0, hc1, ha0, ha1, hp0, hp1, hf⟩ := h
  refine ⟨?_, ?_, ?_, ?_, ?_, ?_, ?_, ?_, ?_⟩ <;>
    (delta doRespondVocalize; simp only [apply_ite Cloudfen.happiness, apply_ite Cloudfen.mood, apply_ite Cloudfen.personality, ite_self]) <;>
    assumption

/-- Every well-formed event preserves the `[0,1]` mood / happiness bounds. -/
theorem step_inv (s : Cloudfen) (ev : Ev) (hv : ev.Valid) (hinv : s.MoodHapInv) :
    (s.step ev).MoodHapInv := by
  cases ev with
  | update dt p o sc b en => exact update_inv s dt p o sc b en hv.1 hv.2.1 hinv
  | startPet now => exact startPetting_inv s now hinv
  | endPet d => exact endPetting_inv s d hinv
  | endPetTimeout => exact endPettingTimeout_inv s hinv
  | stroke dx dy speed now => exact onStroke_inv s dx dy speed now hv hinv
  | hoverStart => exact onHoverStart_inv s hinv
  | hoverEnd => exact onHoverEnd_inv s hinv
  | called src => exact onCalled_fst_inv s src hinv
  | calledTimeout src dir r => exact onCalledTimeout_inv s src dir r hinv
  | socialPromote j => exact socialPromote_inv s j hinv
  | respondVocalize => exact doRespondVocalize_inv s hinv

/-- **C1**: happiness and the three mood scalars stay in `[0,1]` across any
sequence of frame ticks (0 ≤ dt ≤ 1, valid random stream) interleaved with
the public handlers and the deferred callbacks, starting from any creature
satisfying the bounds. -/
theorem c1_mood_happiness_invariant (s : Cloudfen) (evs : List Ev)
    (hval : ∀ ev ∈ evs, ev.Valid) (hinv : s.MoodHapInv) :
    (s.run evs).MoodHapInv := by
  induction evs generalizing s with
  | nil => exact hinv
  | cons ev rest ih =>
    exact ih (s.step ev) (fun x hx => hval x (List.mem_cons_of_mem _ hx))
      (step_inv s ev (hval ev (List.mem_cons_self _ _)) hinv)

/-- **C1 witness**: the base creature through a pet followed by a
half-second tick. -/
theorem c1_witness :
    baseSheep.MoodHapInv ∧
    (baseSheep.run [Ev.startPet 0, Ev.update (1/2) none [] none none envHalf]).MoodHapInv := by
  have hbase : baseSheep.MoodHapInv := by
    refine ⟨?_, ?_, ?_, ?_, ?_, ?_, ?_, ?_, ?_⟩ <;> norm_num [baseSheep, MoodHapInv]
  refine ⟨hbase, c1_mood_happiness_invariant baseSheep _ ?_ hbase⟩
  intro ev hev
  simp only [List.mem_cons, List.not_mem_nil, or_false] at hev
  rcases hev with rfl | rfl
  · trivial
  · exact ⟨by norm_num, by norm_num, fun n => ⟨by norm_num [envHalf], by norm_num [envHalf]⟩⟩

end Cloudfen
